import Mathlib

/-!
# The shared user-context service (`src/pages/api/mcp/context.js`)

A shallow embedding of the context handler, its default document and its deep merge,
followed by the properties of the specification that concern them.

Modelling conventions.

* A document is a JSON value.  An object is the list of its own properties in insertion
  order; a well-formed object (`Json.wf`) has no key twice, as every object built by
  `JSON.parse` or by an object literal.
* Numbers are exact rationals; the rounding of IEEE-754 doubles is not part of the model.
* Property reads are reads of own properties: members inherited from the built-in
  prototypes (`constructor`, `toString`, `length`, ...) are not part of the model, so the
  documents considered are those whose keys do not name such members.
* Strings are sequences of characters; the index keys of a string are the positions of its
  characters.
* The store is a finite map that answers every read and write; the clock and the coercions
  of the engine (`new Date(v)`, `Number(v)`) are parameters (`Runtime`).
* The bots (`health/index.js`, `finance/index.js`) are modelled from the point where the
  session is known and the context has been fetched: what they compute from the fetched
  context and the message, and the body they send to the context service.  The formatting
  functions of the engine (`toISOString`, `String(v)`, `toFixed`) are parameters
  (`Engine`); `toLowerCase` acts on the letters `A` to `Z`.
* The handlers themselves (`healthHandler`, `financeHandler`, `eventsHandler`,
  `weatherHandler`, `debugHandler`, `checkBudget`) take the session that `getServerSession`
  finds as a part of the request and call the context service through `handler`; the
  section of a bot that builds the prompt and calls the text generator is a parameter.
* Where a property speaks of the recursion of `deepMerge`, the function is run on a call
  stack whose room, in nested calls, is a parameter (`deepMergeOnStack`).
-/

/-- JSON values: what the store holds and what requests and responses carry. -/
inductive Json where
  | null
  | bool (b : Bool)
  | num (q : ℚ)
  | str (s : String)
  | arr (xs : List Json)
  | obj (kvs : List (String × Json))

namespace Json

/-- Truthiness of a value, as tested by `||`, `&&` and `if`. -/
def truthy : Json → Bool
  | null => false
  | bool b => b
  | num q => decide (q ≠ 0)
  | str s => decide (s ≠ "")
  | arr _ => true
  | obj _ => true

/-- Index keys `"i"`, `"i+1"`, ... paired with the elements of a list. -/
def indexed {α : Type} (f : α → Json) : Nat → List α → List (String × Json)
  | _, [] => []
  | i, x :: xs => (toString i, f x) :: indexed f (i + 1) xs

/-- Own enumerable properties of a value, in the order `for ... in` and the spread
`{ ...v }` visit them: the entries of an object, the indices of an array, the character
positions of a string, nothing for the other values. -/
def ownProps : Json → List (String × Json)
  | obj kvs => kvs
  | arr xs => indexed id 0 xs
  | str s => indexed (fun c => str c.toString) 0 s.toList
  | _ => []

/-- Property read `v[k]`; `none` stands for `undefined`. -/
def getProp (v : Json) (k : String) : Option Json :=
  (ownProps v).lookup k

/-- Assignment `output[k] = v` on the property list of a plain object: an existing key
keeps its place, a new key is added last. -/
def setProp (k : String) (v : Json) : List (String × Json) → List (String × Json)
  | [] => [(k, v)]
  | (k', v') :: rest =>
      if k' = k then (k, v) :: rest else (k', v') :: setProp k v rest

/-- Value of `x || {}`. -/
def orEmpty : Option Json → Json
  | none => obj []
  | some v => if truthy v then v else obj []

/-- Value read along a path of keys, `v[k1][k2]...`. -/
def getPath : Json → List String → Option Json
  | v, [] => some v
  | v, k :: ks =>
      match getProp v k with
      | some w => getPath w ks
      | none => none

/-- Keys of a property list. -/
def keys (kvs : List (String × Json)) : List String :=
  kvs.map Prod.fst

mutual
/-- Well-formed values: no object holds a key twice, at any depth. -/
def wf : Json → Bool
  | obj kvs => wfProps kvs
  | arr xs => wfElems xs
  | _ => true
/-- Well-formed property lists. -/
def wfProps : List (String × Json) → Bool
  | [] => true
  | (k, v) :: rest => !(rest.map Prod.fst).contains k && wf v && wfProps rest
/-- Well-formed element lists. -/
def wfElems : List Json → Bool
  | [] => true
  | x :: xs => wf x && wfElems xs
end

mutual
/-- The function `deepMerge(target, source)` of `context.js`: `output = { ...target }`, then
one assignment per key of `source`. -/
def deepMerge : (target : Json) → (source : Json) → Json
  | target, obj kvs => obj (mergeProps target kvs (ownProps target))
  | target, arr xs => obj (mergeElems target 0 xs (ownProps target))
  | target, str s =>
      obj ((ownProps (str s)).foldl (fun out p => setProp p.1 p.2 out) (ownProps target))
  | target, _ => obj (ownProps target)
termination_by structural _ s => s
/-- The loop `for (const key in source)` over the entries of an object `source`. -/
def mergeProps : (target : Json) → (kvs : List (String × Json)) →
    (out : List (String × Json)) → List (String × Json)
  | _, [], out => out
  | target, (k, obj m) :: rest, out =>
      mergeProps target rest
        (setProp k (deepMerge (orEmpty (getProp target k)) (obj m)) out)
  | target, (k, v) :: rest, out => mergeProps target rest (setProp k v out)
termination_by structural _ kvs _ => kvs
/-- The loop `for (const key in source)` over the indices of an array `source`. -/
def mergeElems : (target : Json) → (i : Nat) → (xs : List Json) →
    (out : List (String × Json)) → List (String × Json)
  | _, _, [], out => out
  | target, i, obj m :: rest, out =>
      mergeElems target (i + 1) rest
        (setProp (toString i) (deepMerge (orEmpty (getProp target (toString i))) (obj m)) out)
  | target, i, v :: rest, out => mergeElems target (i + 1) rest (setProp (toString i) v out)
termination_by structural _ _ xs _ => xs
end

/-- Test `source[key] && typeof source[key] === 'object' && !Array.isArray(source[key])`. -/
def isPlainObject : Json → Bool
  | obj _ => true
  | _ => false

/-- Value that the loop of `deepMerge` assigns to `output[k]` for the entry `(k, v)` of the
source. -/
def assigned (target : Json) (k : String) (v : Json) : Json :=
  if isPlainObject v then deepMerge (orEmpty (getProp target k)) v else v

end Json

open Json

/-- The function `getDefaultContext()` of `context.js`. -/
def getDefaultContext : Json :=
  obj [
    ("health", obj [
      ("activeIllness", null),
      ("symptoms", arr []),
      ("allergies", arr []),
      ("startedAt", null),
      ("expiresAt", null),
      ("currentCondition", str "healthy"),
      ("medications", arr []),
      ("doctorVisits", arr []),
      ("recoveryProgress", num 0)]),
    ("food", obj [
      ("dietaryPreferences", arr []),
      ("allergies", arr []),
      ("favoriteCuisines", arr []),
      ("restrictions", arr []),
      ("temporaryRestrictions", bool false)]),
    ("finance", obj [
      ("totalBalance", num 0),
      ("monthlyIncome", num 0),
      ("expenses", arr []),
      ("budget", obj [
        ("needs", num 0),
        ("wants", num 0),
        ("savings", num 0),
        ("travel", num 0),
        ("entertainment", num 0)]),
      ("recentTransactions", arr []),
      ("spendingPatterns", obj []),
      ("tripBudget", num 0)]),
    ("location", obj [
      ("current", str "Chennai"),
      ("home", null),
      ("work", null),
      ("lastKnown", null),
      ("preferredCity", str "Chennai")]),
    ("preferences", obj [
      ("commute", obj [
        ("preferredMode", str "balanced"),
        ("budgetConscious", bool true),
        ("maxTravelTime", num 60),
        ("avoidTolls", bool false)]),
      ("events", obj [
        ("interests", arr [str "music", str "food", str "sports", str "culture"]),
        ("budgetRange", obj [("min", num 0), ("max", num 5000)]),
        ("preferredTypes", arr [str "concerts", str "festivals", str "workshops"]),
        ("frequency", str "weekly"),
        ("groupSize", num 1),
        ("preferredDays", arr [str "saturday", str "sunday"])]),
      ("general", obj [
        ("notificationEnabled", bool true),
        ("language", str "english"),
        ("theme", str "dark")])]),
    ("eventsHistory", obj [
      ("attended", arr []),
      ("interested", arr []),
      ("budgetSpent", num 0),
      ("lastEventDate", null),
      ("favoriteVenues", arr []),
      ("avoidedEvents", arr [])]),
    ("botInteractions", obj [
      ("lastHealthUpdate", null),
      ("lastFinanceCheck", null),
      ("lastEventsSearch", null),
      ("lastRecipeCheck", null),
      ("lastCommutePlan", null),
      ("lastWeatherCheck", null),
      ("crossBotRecommendations", arr []),
      ("pendingActions", arr [])]),
    ("profile", obj [
      ("age", null),
      ("occupation", null),
      ("hobbies", arr []),
      ("familySize", num 1),
      ("hasVehicle", bool false),
      ("dietaryRestrictions", arr [])])]

/-- The parts of the engine that `context.js` calls and does not define: the clock
(`new Date()`), the time value of `new Date(v)` in milliseconds (`none` for an invalid
date) and `Number(v)` for a value that is not a number, `null` or a boolean (`none` for
`NaN`). -/
structure Runtime where
  now : Int
  dateOf : Json → Option Int
  numberOf : Json → Option ℚ

/-- The key-value store behind `redis`: `none` is a key that holds nothing. -/
abbrev Store := String → Option Json

/-- The call `redis.set(key, value)`. -/
def Store.set (st : Store) (key : String) (value : Json) : Store :=
  fun k => if k = key then some value else st k

/-- A request: `req.method`, `req.query.userId` and `req.body` (`none` is `undefined`). -/
structure Request where
  method : String
  userId : Option String
  body : Option Json

/-- A response: the status and the JSON body. -/
structure Response where
  status : Nat
  body : Json

/-- The key under which the context of a user is stored. -/
def contextKey (userId : String) : String :=
  "user:" ++ userId ++ ":context"

/-- The expression `redis.get(key) || getDefaultContext()`. -/
def currentContext (st : Store) (userId : String) : Json :=
  match st (contextKey userId) with
  | none => getDefaultContext
  | some v => if truthy v then v else getDefaultContext

/-- The body `{ error: msg }` of an error response. -/
def errorBody (msg : String) : Json :=
  obj [("error", str msg)]

/-- Numeric value of an operand of `*`; `none` stands for `NaN`. -/
def toNumber (rt : Runtime) : Json → Option ℚ
  | num q => some q
  | null => some 0
  | .bool true => some 1
  | .bool false => some 0
  | v => rt.numberOf v

/-- The expression `Math.min(5000, Math.max(0, totalBalance * 0.2))`, as the JSON value
it is serialised to (`NaN` is serialised as `null`). -/
def eventsBudgetMax (rt : Runtime) (totalBalance : Json) : Json :=
  match toNumber rt totalBalance with
  | some b => num (min 5000 (max 0 (b * 0.2)))
  | none => null

/-- The condition `updates.finance && updates.finance.totalBalance !== undefined`; when it
holds, the value of `updates.finance.totalBalance`.  Reading `.finance` of a body that is
`undefined` or `null` raises a `TypeError` (`Except.error`). -/
def financeBalance (updates : Option Json) : Except Unit (Option Json) :=
  match updates with
  | none => Except.error ()
  | some null => Except.error ()
  | some u =>
      match getProp u "finance" with
      | none => Except.ok none
      | some f => if truthy f then Except.ok (getProp f "totalBalance") else Except.ok none

/-- The assignment `updatedContext.preferences.events.budgetRange.max = v` on a merged
document (an object with entries `doc`).  It raises a `TypeError` when `preferences`,
`events` or `budgetRange` is missing or `null`, and (module code is strict) when
`budgetRange` is a primitive; a property set on an array is not serialised. -/
def assignBudgetMax (v : Json) (doc : List (String × Json)) : Except Unit (List (String × Json)) :=
  match doc.lookup "preferences" with
  | some (obj prefs) =>
      match prefs.lookup "events" with
      | some (obj events) =>
          match events.lookup "budgetRange" with
          | some (obj range) =>
              Except.ok (setProp "preferences"
                (obj (setProp "events"
                  (obj (setProp "budgetRange" (obj (setProp "max" v range)) events)) prefs)) doc)
          | some (arr _) => Except.ok doc
          | _ => Except.error ()
      | _ => Except.error ()
  | _ => Except.error ()

/-- The condition `health?.expiresAt && new Date(health.expiresAt) < new Date()`. -/
def healthExpired (rt : Runtime) (health : Option Json) : Bool :=
  match health with
  | none => false
  | some h =>
      match getProp h "expiresAt" with
      | none => false
      | some e =>
          truthy e &&
            (match rt.dateOf e with
             | some t => decide (t < rt.now)
             | none => false)

/-- The object `{ ...health, activeIllness: null, symptoms: [], startedAt: null,
expiresAt: null, currentCondition: "healthy" }`. -/
def resetHealth (health : Json) : Json :=
  obj (setProp "currentCondition" (str "healthy")
    (setProp "expiresAt" null
      (setProp "startedAt" null
        (setProp "symptoms" (arr [])
          (setProp "activeIllness" null (ownProps health))))))

/-- The step "auto-expire health status if outdated" of the POST branch. -/
def expireHealth (rt : Runtime) (doc : List (String × Json)) : List (String × Json) :=
  if healthExpired rt (doc.lookup "health") then
    match doc.lookup "health" with
    | some h => setProp "health" (resetHealth h) doc
    | none => doc
  else doc

/-- The `try` block of the POST branch up to `redis.set`: the document that is persisted and
returned, or the exception that the `catch` turns into a 500. -/
def postContext (rt : Runtime) (current : Json) (updates : Option Json) : Except Unit Json :=
  let merged := ownProps (deepMerge current (updates.getD null))
  match financeBalance updates with
  | Except.error e => Except.error e
  | Except.ok none => Except.ok (obj (expireHealth rt merged))
  | Except.ok (some balance) =>
      match assignBudgetMax (eventsBudgetMax rt balance) merged with
      | Except.error e => Except.error e
      | Except.ok doc => Except.ok (obj (expireHealth rt doc))

/-- The default export `handler(req, res)` of `context.js`: the response and the store
after the request. -/
def handler (rt : Runtime) (st : Store) (req : Request) : Response × Store :=
  match req.userId with
  | none => (⟨400, errorBody "User ID is required"⟩, st)
  | some userId =>
      if userId = "" then (⟨400, errorBody "User ID is required"⟩, st)
      else if req.method = "GET" then
        (⟨200, currentContext st userId⟩, st)
      else if req.method = "POST" then
        match postContext rt (currentContext st userId) req.body with
        | Except.ok updated => (⟨200, updated⟩, st.set (contextKey userId) updated)
        | Except.error _ => (⟨500, errorBody "Failed to update user context"⟩, st)
      else (⟨405, errorBody "Method not allowed"⟩, st)

/-- The five keys that the health reset overwrites. -/
def resetKeys : List String :=
  ["activeIllness", "symptoms", "startedAt", "expiresAt", "currentCondition"]

/-- Functional update of a document at a path of keys through nested objects. -/
def setPath : List String → Json → Json → Json
  | [], v, _ => v
  | k :: ks, v, obj kvs => obj (setProp k (setPath ks v (orEmpty (kvs.lookup k))) kvs)
  | _ :: _, _, d => d

/-- The document that `debug.js` stores for a user with nothing stored: its own default
`{ health: { currentCondition: "healthy" } }` spread with its test update. -/
def debugStoredDocument (startedAt : String) : Json :=
  obj [("health", obj [
    ("activeIllness", str "test_fever"),
    ("symptoms", arr [str "fever", str "headache"]),
    ("currentCondition", str "sick"),
    ("startedAt", str startedAt)])]

/-- A runtime whose clock reads `now` and for which the date
"2025-01-08T00:00:00.000Z" is instant 1000; no other value is a valid date. -/
def clockAt (now : Int) : Runtime :=
  ⟨now, fun v => match v with
    | str "2025-01-08T00:00:00.000Z" => some 1000
    | _ => none, fun _ => none⟩

/-- A health update reporting an illness that expires at "2025-01-08T00:00:00.000Z". -/
def sickUpdate : Json :=
  obj [("health", obj [
    ("activeIllness", str "reported_symptoms"),
    ("symptoms", arr [str "I have a fever"]),
    ("startedAt", str "2025-01-01T00:00:00.000Z"),
    ("expiresAt", str "2025-01-08T00:00:00.000Z"),
    ("currentCondition", str "sick")])]

/-- The `health` sub-tree of the default document merged with `sickUpdate`. -/
def sickHealth : Json :=
  obj [
    ("activeIllness", str "reported_symptoms"),
    ("symptoms", arr [str "I have a fever"]),
    ("allergies", arr []),
    ("startedAt", str "2025-01-01T00:00:00.000Z"),
    ("expiresAt", str "2025-01-08T00:00:00.000Z"),
    ("currentCondition", str "sick"),
    ("medications", arr []),
    ("doctorVisits", arr []),
    ("recoveryProgress", num 0)]

/-! ## The helpers of `context.js` and the bots: definitions -/

/-- The formatting functions of the engine that the code calls and does not define:
`new Date(t).toISOString()`, the instant `n` calendar days after `t`
(`d.setDate(d.getDate() + n)`), the string `String(v)` of a value inside a template
literal or a `join` (`none` is `undefined`) and `x.toFixed(1)` (`none` is `NaN`). -/
structure Engine where
  isoString : Int → String
  plusDays : Int → Int → Int
  display : Option Json → String
  toFixed1 : Option ℚ → String

/-- Truthiness of a value that may be `undefined`. -/
def truthyOpt : Option Json → Bool
  | none => false
  | some v => truthy v

/-- The read `v?.k` of a value that may be `undefined` or `null`. -/
def optProp (v : Option Json) (k : String) : Option Json :=
  v.bind (fun w => getProp w k)

/-- The read `v.k`, which raises a `TypeError` when `v` is `undefined` or `null`. -/
def readMember (v : Option Json) (k : String) : Except Unit (Option Json) :=
  match v with
  | none => Except.error ()
  | some null => Except.error ()
  | some w => Except.ok (getProp w k)

/-- Value of `x || []`. -/
def orEmptyArray : Option Json → Json
  | none => arr []
  | some v => if truthy v then v else arr []

/-- The elements that `[...v]` spreads: those of an array, the characters of a string; any
other value is not iterable (`TypeError`). -/
def spreadIterable : Option Json → Except Unit (List Json)
  | some (arr xs) => Except.ok xs
  | some (str s) => Except.ok (s.toList.map (fun c => str c.toString))
  | _ => Except.error ()

/-- The object spread `{ ...out, ...src }` on property lists. -/
def spreadInto (src out : List (String × Json)) : List (String × Json) :=
  src.foldl (fun acc p => setProp p.1 p.2 acc) out

/-- The method `s.toLowerCase()`. -/
def toLowerCase (s : String) : String :=
  String.mk (s.toList.map Char.toLower)

/-- Whether the characters `kw` start the characters `s`. -/
def startsWithChars : List Char → List Char → Bool
  | [], _ => true
  | _ :: _, [] => false
  | k :: ks, c :: cs => k == c && startsWithChars ks cs

/-- Whether the characters `kw` occur in a row somewhere in the characters `s`. -/
def includesChars (kw : List Char) : List Char → Bool
  | [] => kw.isEmpty
  | c :: cs => startsWithChars kw (c :: cs) || includesChars kw cs

/-- The method `s.includes(kw)`. -/
def includes (s kw : String) : Bool :=
  includesChars kw.toList s.toList

/-! ### `health/index.js` -/

/-- The constant `illnessKeywords` of the health handler. -/
def illnessKeywords : List String :=
  ["fever", "cold", "cough", "sick", "ill", "flu", "infection", "rash", "dengue",
    "chikungunya"]

/-- The constant `resetKeywords` of the health handler. -/
def resetKeywords : List String :=
  ["fine", "healthy", "not sick", "recovered", "better now"]

/-- The constant `hasIllness`: some illness keyword occurs in the lower-cased message. -/
def hasIllness (message : String) : Bool :=
  illnessKeywords.any (fun kw => includes (toLowerCase message) kw)

/-- The constant `shouldReset`: some reset keyword occurs in the lower-cased message. -/
def shouldReset (message : String) : Bool :=
  resetKeywords.any (fun kw => includes (toLowerCase message) kw)

/-- The object the health handler assigns to `healthUpdates` on expiry and on manual
reset. -/
def baselineUpdate : Json :=
  obj [("activeIllness", null), ("symptoms", arr []), ("startedAt", null),
    ("expiresAt", null), ("currentCondition", str "healthy")]

/-- The object the health handler assigns to `healthUpdates` when a new illness is
detected: `symptoms` are the elements spread from the previous symptoms, then the message. -/
def onsetUpdate (eng : Engine) (now : Int) (previous : List Json) (message : String) : Json :=
  obj [("activeIllness", str "reported_symptoms"),
    ("symptoms", arr (previous ++ [str message])),
    ("startedAt", str (eng.isoString now)),
    ("expiresAt", str (eng.isoString (eng.plusDays now 7))),
    ("currentCondition", str "sick")]

/-- The value of `healthUpdates` when `healthUpdateNeeded` is set (lines 46 to 93 of the
health handler), `none` when it is not; `Except.error` is an exception, which the handler
answers with a 500.  The three `if` statements run in the order of the source and each
assigns `healthUpdates` as a whole; all three test the fetched `userContext.health`. -/
def healthUpdates (rt : Runtime) (eng : Engine) (userContext : Json) (message : String) :
    Except Unit (Option Json) :=
  match readMember (some userContext) "health" with
  | Except.error e => Except.error e
  | Except.ok health =>
      let active := truthyOpt (optProp health "activeIllness")
      let afterExpiry : Option Json :=
        if healthExpired rt health then some baselineUpdate else none
      let afterOnset : Except Unit (Option Json) :=
        if hasIllness message && !active then
          match spreadIterable (some (orEmptyArray (optProp health "symptoms"))) with
          | Except.error e => Except.error e
          | Except.ok previous => Except.ok (some (onsetUpdate eng rt.now previous message))
        else Except.ok afterExpiry
      match afterOnset with
      | Except.error e => Except.error e
      | Except.ok updates =>
          if shouldReset message && active then Except.ok (some baselineUpdate)
          else Except.ok updates

/-- The body of the POST that the health handler sends to the context service,
`{ health: { ...userContext.health, ...healthUpdates } }`; `none` when no update is needed. -/
def healthUpdateBody (rt : Runtime) (eng : Engine) (userContext : Json) (message : String) :
    Except Unit (Option Json) :=
  match healthUpdates rt eng userContext message with
  | Except.error e => Except.error e
  | Except.ok none => Except.ok none
  | Except.ok (some updates) =>
      Except.ok (some (obj [("health",
        obj (spreadInto (ownProps updates)
          (ownProps ((getProp userContext "health").getD null))))]))

/-! ### `finance/index.js`, the expense path -/

/-- Numeric value of an operand that may be `undefined`; `none` stands for `NaN`. -/
def toNumberOpt (rt : Runtime) : Option Json → Option ℚ
  | none => none
  | some v => toNumber rt v

/-- The JSON value a number is serialised to (`NaN` is serialised as `null`). -/
def numOrNull : Option ℚ → Json
  | some q => num q
  | none => null

/-- Value of `x || 0`. -/
def orZero : Option Json → Json
  | none => num 0
  | some v => if truthy v then v else num 0

/-- The constant `medicalKeywords` of the finance handler. -/
def medicalKeywords : List String :=
  ["hospital", "doctor", "medicine", "medical", "treatment", "health", "sick"]

/-- The constant `isMedicalExpense` of the finance handler. -/
def isMedicalExpense (message : String) : Bool :=
  medicalKeywords.any (fun kw => includes (toLowerCase message) kw)

/-- The transaction entry that the expense path puts first in `recentTransactions`. -/
def expenseEntry (rt : Runtime) (eng : Engine) (message : String) (amount : Nat) : Json :=
  obj [("type", str "expense"),
    ("amount", num amount),
    ("category", str (if isMedicalExpense message then "healthcare" else "general")),
    ("description", str ("Expense: " ++ String.mk (message.toList.take 50) ++ "...")),
    ("date", str (eng.isoString rt.now))]

/-- The elements of `[...v.slice(0, 9)]`: the first nine elements of an array, the first nine
characters of a string; any other value has no `slice` (`TypeError`). -/
def sliceNine : Json → Except Unit (List Json)
  | arr xs => Except.ok (xs.take 9)
  | str s => Except.ok ((s.toList.take 9).map (fun c => str c.toString))
  | _ => Except.error ()

/-- The body of the POST that the expense path of the finance handler (lines 250 to 281)
sends to the context service when the expense pattern matched and `parseInt` gave
`amount`; `userContext` is the handler's variable of that name when the path runs.
`Except.error` is an exception inside the inner `try`: nothing is sent. -/
def expenseUpdate (rt : Runtime) (eng : Engine) (userContext : Json) (message : String)
    (amount : Nat) : Except Unit Json :=
  match readMember (some userContext) "finance" with
  | Except.error e => Except.error e
  | Except.ok finance =>
      let newBalance :=
        numOrNull ((toNumber rt (orZero (optProp finance "totalBalance"))).map
          (fun b => b - amount))
      match sliceNine (orEmptyArray (optProp finance "recentTransactions")) with
      | Except.error e => Except.error e
      | Except.ok older =>
          Except.ok (obj [("finance",
            obj (setProp "recentTransactions"
              (arr (expenseEntry rt eng message amount :: older))
              (setProp "totalBalance" newBalance (ownProps (finance.getD null)))))])

/-! ### The exported helpers of `context.js` -/

/-- The object `checkEventAffordability` returns. -/
structure Affordability where
  canAfford : Bool
  availableBudget : Json
  eventBudget : Json
  eventCost : ℚ
  budgetPercentage : Json
  recommendation : String
  suggestion : String

/-- Value of `x || 5000`. -/
def orFiveThousand : Option Json → Json
  | none => num 5000
  | some v => if truthy v then v else num 5000

/-- The comparison `v >= c` of a value with a number (`false` when `v` is `NaN`). -/
def geNumber (rt : Runtime) (v : Json) (c : ℚ) : Bool :=
  match toNumber rt v with
  | some x => decide (c ≤ x)
  | none => false

/-- The comparison `c <= v` of a number with a value (`false` when `v` is `NaN`). -/
def leNumber (rt : Runtime) (c : ℚ) (v : Json) : Bool :=
  match toNumber rt v with
  | some x => decide (c ≤ x)
  | none => false

/-- The function `checkEventAffordability(userId, eventCost)` of `context.js`, for a
numeric `eventCost`: the object returned and the store, which is only read.  With a store
that answers, nothing in the `try` block raises, so the `catch` is not reached. -/
def checkEventAffordability (rt : Runtime) (eng : Engine) (st : Store) (userId : String)
    (eventCost : ℚ) : Affordability × Store :=
  let userContext := currentContext st userId
  let availableBudget := orZero (optProp (getProp userContext "finance") "totalBalance")
  let eventBudget := orFiveThousand
    (optProp (optProp (optProp (getProp userContext "preferences") "events") "budgetRange")
      "max")
  let canAffordFromTotal := geNumber rt availableBudget eventCost
  let canAffordFromEventBudget := leNumber rt eventCost eventBudget
  let budgetPercentage : Json :=
    match toNumber rt availableBudget with
    | some x =>
        if 0 < x then str (eng.toFixed1 (some (eventCost / x * 100))) else num 0
    | none => num 0
  (⟨canAffordFromTotal && canAffordFromEventBudget, availableBudget, eventBudget, eventCost,
    budgetPercentage,
    if canAffordFromTotal && canAffordFromEventBudget then
      "✅ Affordable (" ++ eng.display (some budgetPercentage) ++ "% of total budget)"
    else "❌ Too expensive (" ++ eng.display (some budgetPercentage) ++ "% of total budget)",
    if canAffordFromTotal && canAffordFromEventBudget then
      "You can attend this event within your budget"
    else if canAffordFromTotal then
      "Event exceeds your entertainment budget but you have overall funds"
    else "Consider cheaper alternatives or save more"⟩, st)

/-- The sum `a + b`: a number when both operands are numbers, `null` or booleans (`NaN`,
serialised as `null`, when `a` is `undefined`), the concatenation of the two strings when
one operand is a string, an array or an object. -/
def jsAdd (rt : Runtime) (eng : Engine) (a : Option Json) (b : Json) : Json :=
  let stringy : Option Json → Bool := fun v =>
    match v with
    | some (str _) => true
    | some (arr _) => true
    | some (obj _) => true
    | _ => false
  if stringy a || stringy (some b) then str (eng.display a ++ eng.display (some b))
  else
    match toNumberOpt rt a, toNumber rt b with
    | some x, some y => num (x + y)
    | _, _ => null

/-- The object `updateEventsHistory` returns: `{ success: true, newBalance }`, or
`{ success: false, error }` (the text of the error is left out). -/
structure HistoryUpdate where
  success : Bool
  newBalance : Option Json

/-- The document `updatedContext` that `updateEventsHistory` builds, or the exception that
its `catch` turns into `{ success: false }`. -/
def eventsHistoryDocument (rt : Runtime) (eng : Engine) (userContext : Json)
    (eventData : Option Json) : Except Unit Json :=
  match readMember (getProp userContext "eventsHistory") "attended",
      readMember (getProp userContext "eventsHistory") "budgetSpent",
      readMember eventData "cost", readMember eventData "name",
      readMember (getProp userContext "finance") "totalBalance",
      readMember (getProp userContext "finance") "expenses" with
  | Except.ok attended, Except.ok budgetSpent, Except.ok cost, Except.ok name,
      Except.ok totalBalance, Except.ok expenses =>
      match spreadIterable attended, spreadIterable expenses with
      | Except.ok attendedList, Except.ok expenseList =>
          let balance : Json :=
            match toNumberOpt rt totalBalance, toNumber rt (orZero cost) with
            | some b, some c => num (max 0 (b - c))
            | _, _ => null
          Except.ok (obj (setProp "finance"
            (obj (setProp "expenses"
              (arr (expenseList ++ [obj [("type", str "entertainment"),
                ("amount", orZero cost),
                ("description", str ("Event: " ++ eng.display name)),
                ("date", str (eng.isoString rt.now))]]))
              (setProp "totalBalance" balance
                (ownProps ((getProp userContext "finance").getD null)))))
            (setProp "eventsHistory"
              (obj (setProp "lastEventDate" (str (eng.isoString rt.now))
                (setProp "budgetSpent" (jsAdd rt eng budgetSpent (orZero cost))
                  (setProp "attended" (arr (attendedList ++ [eventData.getD null]))
                    (ownProps ((getProp userContext "eventsHistory").getD null))))))
              (ownProps userContext))))
      | _, _ => Except.error ()
  | _, _, _, _, _, _ => Except.error ()

/-- The function `updateEventsHistory(userId, eventData)` of `context.js`: the object
returned and the store after the call. -/
def updateEventsHistory (rt : Runtime) (eng : Engine) (st : Store) (userId : String)
    (eventData : Option Json) : HistoryUpdate × Store :=
  match eventsHistoryDocument rt eng (currentContext st userId) eventData with
  | Except.ok updated =>
      (⟨true, optProp (getProp updated "finance") "totalBalance"⟩,
        st.set (contextKey userId) updated)
  | Except.error _ => (⟨false, none⟩, st)

/-- The object `getEventRecommendations` returns when nothing raises: the three effective
filters, the echo of the context and the summary string (`none` is `undefined`). -/
structure Recommendations where
  interests : Option Json
  maxPrice : Option Json
  location : Option Json
  budget : Option Json
  eventBudget : Option Json
  contextLocation : Option Json
  contextInterests : Option Json
  history : Option Json
  recommendation : String

/-- The string `xs.join(', ')`: a `null` element gives the empty string. -/
def joinDisplay (eng : Engine) : List Json → String
  | [] => ""
  | [x] => (match x with
      | null => ""
      | v => eng.display (some v))
  | x :: y :: rest =>
      (match x with
        | null => ""
        | v => eng.display (some v)) ++ ", " ++ joinDisplay eng (y :: rest)

/-- The read `v.length` of a value that is neither `undefined` nor `null`. -/
def lengthOf : Json → Option Json
  | arr xs => some (num xs.length)
  | str s => some (num s.length)
  | v => getProp v "length"

/-- The `try` block of `getEventRecommendations`: the object returned, or the exception
that the `catch` turns into `{ error: "Failed to get recommendations" }`.  A filter is
supplied when `filters` has the key; the default of a filter is read only when it is not
supplied. -/
def recommendationsFor (eng : Engine) (userContext : Json) (filters : Option Json) :
    Except Unit Recommendations :=
  match filters.getD (obj []) with
  | null => Except.error ()
  | f =>
      match readMember (getProp userContext "preferences") "events" with
      | Except.error e => Except.error e
      | Except.ok events =>
          match readMember events "interests", readMember events "budgetRange",
              readMember (getProp userContext "location") "current",
              readMember (getProp userContext "finance") "totalBalance",
              readMember (getProp userContext "eventsHistory") "attended" with
          | Except.ok contextInterests, Except.ok budgetRange, Except.ok current,
              Except.ok balance, Except.ok attended =>
              let interests : Option Json :=
                match getProp f "interests" with
                | some v => some v
                | none => contextInterests
              let location : Option Json :=
                match getProp f "location" with
                | some v => some v
                | none => current
              let maxPrice : Except Unit (Option Json) :=
                match getProp f "maxPrice" with
                | some v => Except.ok (some v)
                | none => readMember budgetRange "max"
              match maxPrice, attended, interests with
              | Except.ok _, some null, _ => Except.error ()
              | Except.ok price, some a, some (arr xs) =>
                  Except.ok ⟨interests, price, location, balance, budgetRange, current,
                    contextInterests, lengthOf a,
                    "Looking for " ++ joinDisplay eng xs ++ " events in "
                      ++ eng.display location ++ " under ₹" ++ eng.display price⟩
              | _, _, _ => Except.error ()
          | _, _, _, _, _ => Except.error ()

/-- The function `getEventRecommendations(userId, filters)` of `context.js`: what the `try`
block gives and the store, which is only read. -/
def getEventRecommendations (eng : Engine) (st : Store) (userId : String)
    (filters : Option Json) : Except Unit Recommendations × Store :=
  (recommendationsFor eng (currentContext st userId) filters, st)

/-- An engine for the examples: every instant is printed as "T" followed by its number, a
day has 86400000 milliseconds, strings print as themselves and nothing else is printed. -/
def exampleEngine : Engine :=
  ⟨fun t => "T" ++ toString t, fun t n => t + n * 86400000,
    fun v => match v with
      | some (str s) => s
      | _ => "",
    fun _ => ""⟩

/-! ## The handlers behind a session, the weather and recipes handlers: definitions -/

/-- A call that a handler makes to a collaborator: the GET and the POST it sends to the
context service for a user, and the entry into the section that builds the prompt and calls
the text generator. -/
inductive Call where
  | contextGet (userId : String)
  | contextPost (userId : String) (body : Json)
  | generate

/-- A request to a bot: `req.method`, the user id `session.user.id` of the session that
`getServerSession` finds (`none` when there is no valid session) and `req.body` (`none` is
`undefined`). -/
structure BotRequest where
  method : String
  session : Option String
  body : Option Json

/-- What a bot does with a request: the status it answers, the calls it makes, in order, and
the store after the request.  The text of the reply is not part of the model. -/
structure BotOutcome where
  status : Nat
  calls : List Call
  store : Store

/-- The context a bot works with after its fetch of `/api/mcp/context?userId=...`: the
document answered when the response is `ok`, the fallback of the bot otherwise. -/
def fetchContext (rt : Runtime) (st : Store) (userId : String) (fallback : Json) : Json :=
  if (handler rt st ⟨"GET", some userId, none⟩).1.status = 200 then
    (handler rt st ⟨"GET", some userId, none⟩).1.body
  else fallback

/-- The assignment `userContext.k = v` on the local copy of the context, inside a `try`
whose `catch` only logs: a context that is not an object is left as it was. -/
def assignMember (k : String) (v : Json) : Json → Json
  | obj kvs => obj (setProp k v kvs)
  | d => d

/-- The status of a bot that has reached its reply section: 200 with the reply, 500 when
the section raises (`none`). -/
def replyStatus : Option String → Nat
  | some _ => 200
  | none => 500

/-- The handler of `health/index.js`.  The argument `reply` stands for lines 112 to 277
(client, prompt, generation call and the text built from its answer) as a function of the
local context and the message; `none` is an exception raised there.  An exception raised
by the destructuring of `req.body`, outside the `try`, is answered 500 by the framework. -/
def healthHandler (rt : Runtime) (eng : Engine) (reply : Json → String → Option String)
    (st : Store) (req : BotRequest) : BotOutcome :=
  if req.method ≠ "POST" then ⟨405, [], st⟩
  else
    match req.session with
    | none => ⟨401, [], st⟩
    | some userId =>
        match readMember req.body "message" with
        | Except.error _ => ⟨500, [], st⟩
        | Except.ok (some (str m)) =>
            let userContext := fetchContext rt st userId
              (obj [("health", obj []), ("food", obj []), ("finance", obj [])])
            match healthUpdateBody rt eng userContext m with
            | Except.error _ => ⟨500, [Call.contextGet userId], st⟩
            | Except.ok none =>
                ⟨replyStatus (reply userContext m), [Call.contextGet userId, Call.generate], st⟩
            | Except.ok (some body) =>
                ⟨replyStatus
                    (reply (assignMember "health" ((getProp body "health").getD null)
                      userContext) m),
                  [Call.contextGet userId, Call.contextPost userId body, Call.generate],
                  (handler rt st ⟨"POST", some userId, some body⟩).2⟩
        | Except.ok _ => ⟨500, [Call.contextGet userId], st⟩

/-- The handler of `events/index.js`.  The argument `reply` stands for lines 40 to 166 as a
function of the fetched context and the message of the body; `none` is an exception raised
there. -/
def eventsHandler (rt : Runtime) (reply : Json → Option Json → Option String)
    (st : Store) (req : BotRequest) : BotOutcome :=
  if req.method ≠ "POST" then ⟨405, [], st⟩
  else
    match req.session with
    | none => ⟨401, [], st⟩
    | some userId =>
        match readMember req.body "message" with
        | Except.error _ => ⟨500, [], st⟩
        | Except.ok message =>
            ⟨replyStatus (reply (fetchContext rt st userId
                (obj [("finance", obj []), ("location", obj []), ("preferences", obj [])]))
                message),
              [Call.contextGet userId, Call.generate], st⟩

/-! ### `finance/index.js`: the amount patterns -/

/-- Characters that the class `\s` matches. -/
def isSpaceChar (c : Char) : Bool :=
  [9, 10, 11, 12, 13, 32, 160, 5760, 8232, 8233, 8239, 8287, 12288, 65279].contains c.toNat
    || (decide (8192 ≤ c.toNat) && decide (c.toNat ≤ 8202))

/-- The rest of `s` after the letters of `kw` (given in lower case), matched without regard
to case as under the flag `i`; `none` when `s` does not start with them. -/
def dropKeyword : List Char → List Char → Option (List Char)
  | [], s => some s
  | _ :: _, [] => none
  | k :: ks, c :: cs => if c.toLower == k then dropKeyword ks cs else none

/-- The rest of `s` after the optional group `(?:₹|rs\.?)?`; in the income pattern the
group has `of` as its first alternative. -/
def dropCurrency (withOf : Bool) (s : List Char) : List Char :=
  match (if withOf then dropKeyword ['o', 'f'] s else none) with
  | some rest => rest
  | none =>
      match s with
      | '₹' :: rest => rest
      | _ =>
          match dropKeyword ['r', 's'] s with
          | some ('.' :: rest) => rest
          | some rest => rest
          | none => s

/-- The text that the group `(\d+[,.]?\d*)` captures at the start of `s`: the digits, one
separator if it follows, and the digits after it; `none` when `s` does not start with a
digit. -/
def captureAmount (s : List Char) : Option (List Char) :=
  match s.takeWhile Char.isDigit with
  | [] => none
  | d :: ds =>
      match s.dropWhile Char.isDigit with
      | c :: rest =>
          if c == ',' || c == '.' then some ((d :: ds) ++ c :: rest.takeWhile Char.isDigit)
          else some (d :: ds)
      | [] => some (d :: ds)

/-- The capture of the amount group when a pattern
`(k1|k2|...)\s*(?:₹|rs\.?)?\s*(\d+[,.]?\d*)` matches at the start of `s`. -/
def amountAt (keywords : List String) (withOf : Bool) (s : List Char) : Option (List Char) :=
  keywords.findSome? (fun kw =>
    (dropKeyword kw.toList s).bind (fun rest =>
      captureAmount ((dropCurrency withOf (rest.dropWhile isSpaceChar)).dropWhile isSpaceChar)))

/-- The capture of the amount group in `s.match(pattern)`: the match that starts leftmost;
`none` when the pattern does not match. -/
def amountMatch (keywords : List String) (withOf : Bool) : List Char → Option (List Char)
  | [] => none
  | c :: cs =>
      match amountAt keywords withOf (c :: cs) with
      | some g => some g
      | none => amountMatch keywords withOf cs

/-- The value `parseInt(s)` of a text that starts with a digit or is empty: the number its
leading digits write, `none` (`NaN`) when there is none. -/
def parseInt (s : List Char) : Option Nat :=
  match s.takeWhile Char.isDigit with
  | [] => none
  | ds => some (ds.foldl (fun n c => 10 * n + (c.toNat - 48)) 0)

/-- The value `parseInt(capture.replace(/[,.]/g, ''))`. -/
def parseAmount (capture : List Char) : Option Nat :=
  parseInt (capture.filter (fun c => !(c == ',' || c == '.')))

/-- The amount of the expense path (lines 251 to 254): the pattern
`/(?:spent|spend|expense|cost|paid)\s*(?:₹|rs\.?)?\s*(\d+[,.]?\d*)/i`, then `parseInt` of
the capture without its separators. -/
def expenseAmount (userMessage : String) : Option Nat :=
  (amountMatch ["spent", "spend", "expense", "cost", "paid"] false userMessage.toList).bind
    parseAmount

/-- The amount of the pattern `income` of `financialPatterns`. -/
def incomeAmount (userMessage : String) : Option Nat :=
  (amountMatch ["salary", "income", "earn", "make"] true userMessage.toList).bind parseAmount

/-- The amount of the pattern `balance` of `financialPatterns`. -/
def balanceAmount (userMessage : String) : Option Nat :=
  (amountMatch ["balance", "have", "saved", "save"] false userMessage.toList).bind
    parseAmount

/-- The object `financialUpdates` after the loop over `financialPatterns` (lines 42 to 70):
the income pattern sets `monthlyIncome` and `totalBalance`, the balance pattern, which comes
later, sets `totalBalance`; the patterns `expense` and `goal` set nothing. -/
def financialUpdates (rt : Runtime) (eng : Engine) (userContext : Json)
    (userMessage : String) : List (String × Json) :=
  let afterIncome : List (String × Json) :=
    match incomeAmount userMessage with
    | some a =>
        [("monthlyIncome", num a),
          ("totalBalance",
            jsAdd rt eng (some (orZero (optProp (getProp userContext "finance") "totalBalance")))
              (num a))]
    | none => []
  match balanceAmount userMessage with
  | some a => setProp "totalBalance" (num a) afterIncome
  | none => afterIncome

/-- The body of the POST on lines 81 to 91,
`{ finance: { ...userContext.finance, ...financialUpdates, lastUpdated } }`. -/
def financeUpdateBody (rt : Runtime) (eng : Engine) (userContext : Json)
    (updates : List (String × Json)) : Json :=
  obj [("finance", obj (setProp "lastUpdated" (str (eng.isoString rt.now))
    (spreadInto updates (ownProps ((getProp userContext "finance").getD null)))))]

/-- The handler of `finance/index.js`.  The argument `reply` stands for lines 99 to 248
(prompt, generation call and the text built from its answer) as a function of the local
context and the message; `none` is an exception raised there or a missing key. -/
def financeHandler (rt : Runtime) (eng : Engine) (reply : Json → String → Option String)
    (st : Store) (req : BotRequest) : BotOutcome :=
  if req.method ≠ "POST" then ⟨405, [], st⟩
  else
    match req.session with
    | none => ⟨401, [], st⟩
    | some userId =>
        match readMember req.body "userMessage" with
        | Except.error _ => ⟨500, [], st⟩
        | Except.ok (some (str m)) =>
            if m = "" then ⟨400, [], st⟩
            else
              let fetched := fetchContext rt st userId
                (obj [("finance", obj []), ("health", obj []), ("preferences", obj [])])
              let updates := financialUpdates rt eng fetched m
              let needed := truthyOpt (updates.lookup "monthlyIncome")
                || truthyOpt (updates.lookup "totalBalance")
              let body1 := financeUpdateBody rt eng fetched updates
              let st1 := if needed then (handler rt st ⟨"POST", some userId, some body1⟩).2
                else st
              let userContext :=
                if needed then
                  assignMember "finance"
                    (obj (spreadInto updates (ownProps ((getProp fetched "finance").getD null))))
                    fetched
                else fetched
              let calls1 := Call.contextGet userId ::
                (if needed then [Call.contextPost userId body1] else [])
              match reply userContext m with
              | none => ⟨500, calls1 ++ [Call.generate], st1⟩
              | some _ =>
                  match (expenseAmount m).map (expenseUpdate rt eng userContext m) with
                  | some (Except.ok body2) =>
                      ⟨200, calls1 ++ [Call.generate, Call.contextPost userId body2],
                        (handler rt st1 ⟨"POST", some userId, some body2⟩).2⟩
                  | _ => ⟨200, calls1 ++ [Call.generate], st1⟩
        | Except.ok _ => ⟨400, [], st⟩

/-! ### `weather/index.js` -/

/-- Value of `x || d`. -/
def orValue (d : Json) : Option Json → Json
  | none => d
  | some v => if truthy v then v else d

/-- The comparison `v > c` of a value with a number (`false` when `v` is `NaN`). -/
def gtNumber (rt : Runtime) (v : Json) (c : ℚ) : Bool :=
  match toNumber rt v with
  | some x => decide (c < x)
  | none => false

/-- The comparison `v < c` of a value with a number (`false` when `v` is `NaN`). -/
def ltNumber (rt : Runtime) (v : Json) (c : ℚ) : Bool :=
  match toNumber rt v with
  | some x => decide (x < c)
  | none => false

/-- The comparison `v === 0`. -/
def isZero : Json → Bool
  | num q => decide (q = 0)
  | _ => false

/-- An outfit item with its five fields. -/
def outfit (name category benefit price popularity : String) : Json :=
  obj [("Cloth Name", str name), ("Category", str category),
    ("Why is it beneficial", str benefit), ("Price", str price),
    ("Popularity", str popularity)]

/-- The list returned for hot and sunny weather. -/
def hotOutfits : List Json :=
  [outfit "Cotton T-shirt" "Upperwear"
      "Lightweight and breathable fabric keeps you cool in hot weather" "₹300-₹800" "High",
    outfit "Linen Shorts" "Lowerwear"
      "Allows air circulation and provides comfort in high temperatures" "₹600-₹1500" "High",
    outfit "Sun Hat with Wide Brim" "Headwear"
      "Protects face and neck from direct sunlight and UV rays" "₹400-₹1200" "Medium",
    outfit "Sports Sandals" "Footwear"
      "Ventilated design keeps feet cool and comfortable in heat" "₹800-₹2000" "High"]

/-- The list returned for cold weather. -/
def coldOutfits : List Json :=
  [outfit "Thermal Winter Jacket" "Outerwear"
      "Insulated design provides warmth and protection from cold winds" "₹2000-₹5000" "High",
    outfit "Woolen Sweater" "Upperwear"
      "Natural wool fibers trap body heat effectively in cold conditions" "₹800-₹2500" "High",
    outfit "Fleece-lined Pants" "Lowerwear"
      "Soft inner lining provides extra warmth and comfort in low temperatures"
      "₹1200-₹3000" "Medium",
    outfit "Thermal Gloves" "Accessories"
      "Protects hands from cold and maintains finger dexterity" "₹300-₹900" "Medium"]

/-- The list returned for rainy weather. -/
def rainOutfits : List Json :=
  [outfit "Waterproof Rain Jacket" "Outerwear"
      "Keeps you dry during rainfall with sealed seams and water-resistant fabric"
      "₹1500-₹4000" "High",
    outfit "Quick-dry Pants" "Lowerwear"
      "Special fabric dries quickly if it gets wet in the rain" "₹1000-₹2500" "Medium",
    outfit "Waterproof Boots" "Footwear"
      "Prevents water seepage and keeps feet dry in wet conditions" "₹1200-₹3500" "High",
    outfit "Compact Umbrella" "Accessories"
      "Essential protection from rain that can be carried easily" "₹200-₹600" "High"]

/-- The list returned for moderate weather, the default. -/
def moderateOutfits : List Json :=
  [outfit "Casual Cotton Shirt" "Upperwear"
      "Versatile and comfortable for moderate temperatures" "₹600-₹1500" "High",
    outfit "Comfortable Jeans" "Lowerwear"
      "Durable and suitable for various activities in pleasant weather" "₹800-₹2000" "High",
    outfit "Light Jacket" "Outerwear"
      "Perfect layer for temperature changes throughout the day" "₹1000-₹3000" "High",
    outfit "Walking Shoes" "Footwear"
      "Comfortable for extended wear in pleasant weather conditions" "₹1200-₹3500" "High"]

/-- The function `getFallbackOutfitRecommendations(weatherData)` of `weather/index.js`
(`none` is `undefined`); `humidity` and `windSpeed` are read and not used. -/
def getFallbackOutfitRecommendations (rt : Runtime) (weatherData : Option Json) : List Json :=
  let temp := orValue (num 25) (optProp (optProp weatherData "current") "temperature2m")
  let precipitation := orValue (num 0) (optProp (optProp weatherData "current") "precipitation")
  if gtNumber rt temp 30 && isZero precipitation then hotOutfits
  else if ltNumber rt temp 15 then coldOutfits
  else if gtNumber rt precipitation 0 then rainOutfits
  else moderateOutfits

/-- The step "ensure each item has required fields" (lines 56 to 62) from the item of index
`index` on; reading a field of a `null` item raises a `TypeError`. -/
def validateItems : Nat → List Json → Except Unit (List Json)
  | _, [] => Except.ok []
  | _, null :: _ => Except.error ()
  | index, item :: rest =>
      match validateItems (index + 1) rest with
      | Except.error e => Except.error e
      | Except.ok validated =>
          Except.ok (obj [
            ("Cloth Name",
              orValue (str ("Outfit Item " ++ toString (index + 1))) (getProp item "Cloth Name")),
            ("Category", orValue (str "General") (getProp item "Category")),
            ("Why is it beneficial",
              orValue (str "Suitable for current weather conditions")
                (getProp item "Why is it beneficial")),
            ("Price", orValue (str "₹500-₹2000") (getProp item "Price")),
            ("Popularity", orValue (str "Medium") (getProp item "Popularity"))] :: validated)

/-- The body of the 200 response that carries the fallback list after a failure of the
generation. -/
def fallbackResponse (rt : Runtime) (weatherData : Option Json) : Response :=
  ⟨200, obj [("message", arr (getFallbackOutfitRecommendations rt weatherData)),
    ("note", str "Using fallback outfit recommendations due to AI service issue"),
    ("success", .bool true)]⟩

/-- The handler of `weather/index.js`; it does not look for a session.  The argument
`generated` stands for `textGenerator` and `JSON.parse`: `none` when the generation raises,
`some none` when its text does not parse, `some (some v)` for the parsed value `v`.  The
text `details` of the 500 response is left out. -/
def weatherHandler (rt : Runtime) (generated : Option (Option Json)) (req : BotRequest) :
    Response :=
  if req.method = "POST" then
    match readMember req.body "weatherData" with
    | Except.error _ =>
        ⟨500, obj [("message", arr (getFallbackOutfitRecommendations rt (some null))),
          ("error", str "Internal Server Error"),
          ("note", str "Using emergency fallback outfit recommendations"),
          ("success", .bool false)]⟩
    | Except.ok weatherData =>
        if !truthyOpt weatherData || (getProp (req.body.getD null) "longitude").isNone
            || (getProp (req.body.getD null) "latitude").isNone then
          ⟨400, obj [("message", arr (getFallbackOutfitRecommendations rt weatherData)),
            ("error", str "Missing required data: weatherData, longitude, or latitude")]⟩
        else
          match generated with
          | none => fallbackResponse rt weatherData
          | some parsed =>
              let parsedMessage : Json :=
                match parsed with
                | some v => v
                | none => arr (getFallbackOutfitRecommendations rt weatherData)
              let items : List Json :=
                match parsedMessage with
                | arr (x :: xs) => x :: xs
                | _ => getFallbackOutfitRecommendations rt weatherData
              match validateItems 0 items with
              | Except.ok validated =>
                  ⟨200, obj [("message", arr validated), ("success", .bool true)]⟩
              | Except.error _ => fallbackResponse rt weatherData
  else
    ⟨405, obj [("message", arr (getFallbackOutfitRecommendations rt (some null))),
      ("error", str "Only POST requests are supported")]⟩

/-! ### `recipes/index.js`: the safety warning -/

/-- The string `xs.join(sep)`: a `null` element gives the empty string. -/
def joinWith (eng : Engine) (sep : String) : List Json → String
  | [] => ""
  | [x] => (match x with
      | null => ""
      | v => eng.display (some v))
  | x :: y :: rest =>
      (match x with
        | null => ""
        | v => eng.display (some v)) ++ sep ++ joinWith eng sep (y :: rest)

/-- The pieces of `s.split(/[,\s]+/)`: `s` is cut at every run of commas and white space;
`inRun` says that the character before was a separator and `cur` holds, in reverse, the
characters of the piece being read. -/
def splitWords : Bool → List Char → List Char → List (List Char)
  | _, cur, [] => [cur.reverse]
  | inRun, cur, c :: cs =>
      if c == ',' || isSpaceChar c then
        (if inRun then splitWords true [] cs else cur.reverse :: splitWords true [] cs)
      else splitWords false (c :: cur) cs

/-- The test of the inner `some`: `word.length > 3 && message.toLowerCase().includes(word)`. -/
def wordMatches (message : String) (word : List Char) : Bool :=
  decide (3 < word.length) && includesChars word (toLowerCase message).toList

/-- The constant `allergenMatch` (lines 87 to 92): `some` over the allergies stops at the
first match; an allergy that is not a string has no `toLowerCase` (`TypeError`). -/
def allergenMatch (message : String) : List Json → Except Unit Bool
  | [] => Except.ok false
  | str allergy :: rest =>
      if (splitWords false [] (toLowerCase allergy).toList).any (wordMatches message) then
        Except.ok true
      else allergenMatch message rest
  | _ :: _ => Except.error ()

/-- The text of the allergy alert for the list `allergies`. -/
def allergyAlert (eng : Engine) (allergies : List Json) : String :=
  "\n\n **Allergy Alert**: You\x27re allergic to " ++ joinWith eng ", " allergies
    ++ ". I\x27ll avoid recommending dishes containing these ingredients."
    ++ "\n🍃 **Allergy-Safe Options**: Look for dishes without "
    ++ joinWith eng " or " allergies ++ "."

/-- The list `allergies` of line 85: the elements spread from `health.allergies`, then
those spread from `food.allergies`. -/
def allergiesOf (userContext : Json) : Except Unit (List Json) :=
  match spreadIterable (some (orEmptyArray (optProp (getProp userContext "health") "allergies"))),
      spreadIterable (some (orEmptyArray (optProp (getProp userContext "food") "allergies"))) with
  | Except.ok fromHealth, Except.ok fromFood => Except.ok (fromHealth ++ fromFood)
  | _, _ => Except.error ()

/-- What lines 85 to 100 append to `safetyWarning`. -/
def allergyWarning (eng : Engine) (userContext : Json) (message : String) :
    Except Unit String :=
  match allergiesOf userContext with
  | Except.error e => Except.error e
  | Except.ok allergies =>
      if allergies.isEmpty then Except.ok ""
      else
        match allergenMatch message allergies with
        | Except.error e => Except.error e
        | Except.ok true => Except.ok (allergyAlert eng allergies)
        | Except.ok false => Except.ok ""

/-- The constant `unhealthyFoods` of the recipes handler, in the order of its keys. -/
def unhealthyFoods : List (String × List String) :=
  [("spicy", ["spicy", "chilly", "hot", "mirchi", "pepper"]),
    ("oily", ["fried", "oily", "deep fry", "batter fry"]),
    ("heavy", ["biriyani", "biryani", "heavy", "rich", "cream", "butter"]),
    ("cold", ["ice cream", "cold", "chilled", "smoothie", "milkshake"])]

/-- The call `activeIllness.includes(word)`: a substring test on a string, a membership
test on an array; any other value has no `includes` (`TypeError`). -/
def illnessIncludes (illness : Json) (word : String) : Except Unit Bool :=
  match illness with
  | str s => Except.ok (includes s word)
  | arr xs => Except.ok (xs.any (fun x =>
      match x with
      | str t => t == word
      | _ => false))
  | _ => Except.error ()

/-- The value of `safetyWarning` after the illness block (lines 48 to 82). -/
def healthWarning (eng : Engine) (userContext : Json) (message : String) :
    Except Unit String :=
  match optProp (getProp userContext "health") "activeIllness" with
  | none => Except.ok ""
  | some illness =>
      if truthy illness then
        let detected := (unhealthyFoods.filter (fun p =>
          p.2.any (fun food => includes (toLowerCase message) food))).map Prod.fst
        if detected.isEmpty then Except.ok ""
        else
          match illnessIncludes illness "fever", illnessIncludes illness "cold",
              illnessIncludes illness "stomach" with
          | Except.ok fever, Except.ok cold, Except.ok stomach =>
              Except.ok ("\n\n **Health Alert**: You\x27re currently unwell. It\x27s better to avoid "
                ++ ", ".intercalate detected ++ " foods. "
                ++ (if fever || cold then
                      "Consider light options like khichdi, vegetable soup, steamed idli, or porridge."
                    else if stomach then
                      "Consider BRAT diet foods: banana, rice, apple sauce, toast, or clear soups."
                    else
                      "Try light, easily digestible meals that won\x27t aggravate your condition.")
                ++ "\n **Ask Health Bot**: \"What foods are best for "
                ++ eng.display (some illness) ++ "?\"")
          | _, _, _ => Except.error ()
      else Except.ok ""

/-- The value of `safetyWarning` when the prompt is built (lines 43 to 100) for the fetched
context and a message that is a string; `Except.error` is an exception, which the handler
answers with a 500. -/
def safetyWarning (eng : Engine) (userContext : Json) (message : String) :
    Except Unit String :=
  match healthWarning eng userContext message with
  | Except.error e => Except.error e
  | Except.ok fromHealth =>
      match allergyWarning eng userContext message with
      | Except.error e => Except.error e
      | Except.ok fromAllergies => Except.ok (fromHealth ++ fromAllergies)

/-! ### `mcp/debug.js`, `events/check-budget.js` and the commute page -/

/-- The function `getDefaultContext` of `debug.js`. -/
def debugDefaultContext : Json :=
  obj [("health", obj [("currentCondition", str "healthy")])]

/-- The constant `testUpdate` of the debug handler. -/
def testUpdate (rt : Runtime) (eng : Engine) : Json :=
  obj [("health", obj [
    ("activeIllness", str "test_fever"),
    ("symptoms", arr [str "fever", str "headache"]),
    ("currentCondition", str "sick"),
    ("startedAt", str (eng.isoString rt.now))])]

/-- The expression `redis.get(key) || getDefaultContext()` of `debug.js`. -/
def debugContext (st : Store) (userId : String) : Json :=
  match st (contextKey userId) with
  | none => debugDefaultContext
  | some v => if truthy v then v else debugDefaultContext

/-- The handler of `mcp/debug.js`, which reads neither the method nor the body: the
response and the store after the request. -/
def debugHandler (rt : Runtime) (eng : Engine) (st : Store) (req : BotRequest) :
    Response × Store :=
  match req.session with
  | none => (⟨401, errorBody "Unauthorized"⟩, st)
  | some userId =>
      let stored := obj (spreadInto (ownProps (testUpdate rt eng))
        (ownProps (debugContext st userId)))
      (⟨200, obj [("userId", str userId), ("redisConnected", .bool true),
          ("currentContext", stored), ("message", str "MCP system is working")]⟩,
        st.set (contextKey userId) stored)

/-- A request to `events/check-budget.js` whose body is an object with a numeric
`eventCost`: the method, the session, and the members `userId` and `eventCost` of the
body. -/
structure BudgetRequest where
  method : String
  session : Option String
  userId : Option Json
  eventCost : ℚ

/-- The handler of `events/check-budget.js`: the context is fetched for the `userId` of the
body and read whatever the status of the fetch. -/
def checkBudget (rt : Runtime) (eng : Engine) (st : Store) (req : BudgetRequest) : Response :=
  if req.method ≠ "POST" then ⟨405, obj [("message", str "Method Not Allowed")]⟩
  else
    match req.session with
    | none => ⟨401, errorBody "Unauthorized"⟩
    | some _ =>
        let userContext := (handler rt st ⟨"GET", some (eng.display req.userId), none⟩).1.body
        let availableBudget := orZero (optProp (getProp userContext "finance") "totalBalance")
        let canAfford := geNumber rt availableBudget req.eventCost
        let budgetPercentage : Json :=
          match toNumber rt availableBudget with
          | some x =>
              if 0 < x then str (eng.toFixed1 (some (req.eventCost / x * 100))) else num 0
          | none => num 0
        ⟨200, obj [("canAfford", .bool canAfford),
          ("availableBudget", availableBudget),
          ("eventCost", num req.eventCost),
          ("budgetPercentage", budgetPercentage),
          ("recommendation", str (
            if canAfford then
              "✅ Affordable (" ++ eng.display (some budgetPercentage) ++ "% of your budget)"
            else "❌ Too expensive (" ++ eng.display (some budgetPercentage)
              ++ "% of your budget)")),
          ("suggestion", str (
            if canAfford then "You can attend this event within your budget"
            else "Consider cheaper alternatives or save more"))]⟩

/-- The request that `recordTravelExpense(amount, mode, destination)` of the commute page
sends to the context service, for the page state `userContext` (`none` before the context
is loaded): a POST to `/api/mcp/context`, without a query string, whose body holds `userId`
and `finance`.  `Except.error` is an exception inside the `try`: nothing is sent. -/
def recordTravelExpense (rt : Runtime) (eng : Engine) (userId : String)
    (userContext : Option Json) (amount : ℚ) (mode destination : String) :
    Except Unit Request :=
  match sliceNine (orEmptyArray
      (optProp (optProp userContext "finance") "recentTransactions")) with
  | Except.error e => Except.error e
  | Except.ok older =>
      Except.ok ⟨"POST", none, some (obj [
        ("userId", str userId),
        ("finance", obj [
          ("totalBalance",
            numOrNull ((toNumber rt (orZero
              (optProp (optProp userContext "finance") "totalBalance"))).map
                (fun b => b - amount))),
          ("recentTransactions", arr (obj [
            ("type", str "travel_expense"),
            ("amount", num amount),
            ("category", str "transportation"),
            ("description", str (mode ++ " to " ++ destination)),
            ("date", str (eng.isoString rt.now))] :: older))])])⟩

/-! ### Stores for the examples -/

/-- The store after a user `alice` with nothing stored posts, at instant 0, the update
`{ finance: { totalBalance: b } }` to the context service. -/
def balanceStore (b : ℚ) : Store :=
  (handler (clockAt 0) (fun _ => none) ⟨"POST", some "alice",
    some (obj [("finance", obj [("totalBalance", num b)])])⟩).2

/-- The store after a user `alice` with nothing stored posts, at instant 0, a health update
that lists the allergies `names`. -/
def allergyStore (names : List String) : Store :=
  (handler (clockAt 0) (fun _ => none) ⟨"POST", some "alice",
    some (obj [("health", obj [("allergies", arr (names.map str))])])⟩).2

/-- The store after a user `alice` with nothing stored calls the debug handler at
instant 0. -/
def debugStore : Store :=
  (debugHandler (clockAt 0) exampleEngine (fun _ => none) ⟨"GET", some "alice", none⟩).2

/-! ### `deepMerge` on a call stack -/

/-- The loop `for (const key in source)` of `deepMerge` over the entries of the source,
the nested calls `deepMerge(target[key] || {}, source[key])` being made by `call`; an
exception raised by a nested call ends the loop. -/
def mergeLoop (call : Json → Json → Except Unit Json) (target : Json) :
    List (String × Json) → List (String × Json) → Except Unit (List (String × Json))
  | [], out => Except.ok out
  | (k, v) :: rest, out =>
      if isPlainObject v then
        match call (orEmpty (getProp target k)) v with
        | Except.ok merged => mergeLoop call target rest (setProp k merged out)
        | Except.error e => Except.error e
      else mergeLoop call target rest (setProp k v out)

/-- The function `deepMerge(target, source)` run on a call stack that has room for `frames`
more nested calls: each call takes one frame, and a call that finds no room raises the
`RangeError` of the engine (`Except.error`). -/
def deepMergeOnStack : Nat → Json → Json → Except Unit Json
  | 0, _, _ => Except.error ()
  | frames + 1, target, source =>
      match mergeLoop (deepMergeOnStack frames) target (ownProps source) (ownProps target) with
      | Except.ok out => Except.ok (obj out)
      | Except.error e => Except.error e

mutual
/-- The number of nested calls that `deepMerge(target, source)` makes, the first one
included: one more than the deepest chain of plain objects in the entries of the source. -/
def stackNeed : Json → Nat
  | obj kvs => stackNeedProps kvs + 1
  | arr xs => stackNeedElems xs + 1
  | _ => 1
termination_by structural s => s
/-- The deepest nested call among the entries of an object. -/
def stackNeedProps : List (String × Json) → Nat
  | [] => 0
  | (_, v) :: rest => max (if isPlainObject v then stackNeed v else 0) (stackNeedProps rest)
termination_by structural kvs => kvs
/-- The deepest nested call among the elements of an array. -/
def stackNeedElems : List Json → Nat
  | [] => 0
  | v :: rest => max (if isPlainObject v then stackNeed v else 0) (stackNeedElems rest)
termination_by structural xs => xs
end

/-- The object `{ a: { a: ... {} } }` with `depth` objects nested inside the outer one. -/
def nested : Nat → Json
  | 0 => obj []
  | depth + 1 => obj [("a", nested depth)]

/-! ## Property lists -/

namespace Json

theorem lookup_setProp_same (k : String) (v : Json) (l : List (String × Json)) :
    (setProp k v l).lookup k = some v := by
  induction l with
  | nil => simp [setProp, List.lookup]
  | cons p rest ih =>
      obtain ⟨k', v'⟩ := p
      by_cases h : k' = k
      · simp [setProp, h, List.lookup]
      · have h' : (k == k') = false := by
          simpa using fun e : k = k' => h e.symm
        simp [setProp, h, List.lookup, h', ih]

theorem lookup_setProp_ne (k k' : String) (v : Json) (l : List (String × Json))
    (hne : k' ≠ k) : (setProp k v l).lookup k' = l.lookup k' := by
  induction l with
  | nil =>
      have h' : (k' == k) = false := by simpa using hne
      simp [setProp, List.lookup, h']
  | cons p rest ih =>
      obtain ⟨k1, v1⟩ := p
      by_cases h : k1 = k
      · subst h
        have h' : (k' == k1) = false := by simpa using hne
        simp [setProp, List.lookup, h']
      · by_cases h2 : k' = k1
        · subst h2
          simp [setProp, h, List.lookup]
        · have h' : (k' == k1) = false := by simpa using h2
          simp [setProp, h, List.lookup, h', ih]

theorem mergeProps_cons (target : Json) (k : String) (v : Json)
    (rest out : List (String × Json)) :
    mergeProps target ((k, v) :: rest) out
      = mergeProps target rest (setProp k (assigned target k v) out) := by
  cases v <;> simp [mergeProps, assigned, isPlainObject]

theorem setProp_of_not_mem (k : String) (v : Json) (l : List (String × Json))
    (h : k ∉ keys l) : setProp k v l = l ++ [(k, v)] := by
  induction l with
  | nil => simp [setProp]
  | cons p rest ih =>
      obtain ⟨k', v'⟩ := p
      have h1 : k' ≠ k := by
        intro e
        exact h (by simp [keys, e])
      have h2 : k ∉ keys rest := by
        intro e
        exact h (by simp [keys] at e ⊢; exact Or.inr e)
      simp [setProp, h1, ih h2]

theorem lookup_eq_none_of_not_mem (k : String) (l : List (String × Json))
    (h : k ∉ keys l) : l.lookup k = none := by
  induction l with
  | nil => simp [List.lookup]
  | cons p rest ih =>
      obtain ⟨k', v'⟩ := p
      have h1 : (k == k') = false := by
        simpa using fun e : k = k' => h (by simp [keys, e])
      have h2 : k ∉ keys rest := by
        intro e
        exact h (by simp [keys] at e ⊢; exact Or.inr e)
      simp [List.lookup, h1, ih h2]

theorem not_mem_keys_of_lookup_eq_none (k : String) (l : List (String × Json))
    (h : l.lookup k = none) : k ∉ keys l := by
  intro hk
  simp only [keys, List.mem_map] at hk
  obtain ⟨p, hp, hpk⟩ := hk
  rw [List.lookup_eq_none_iff] at h
  have := h p hp
  simp [hpk] at this

theorem wfProps_cons (k : String) (v : Json) (rest : List (String × Json))
    (h : wfProps ((k, v) :: rest) = true) :
    k ∉ keys rest ∧ wf v = true ∧ wfProps rest = true := by
  simp [wfProps] at h
  refine ⟨?_, h.1.2, h.2⟩
  intro hk
  simp [keys] at hk
  obtain ⟨w, hw⟩ := hk
  exact h.1.1 w hw

/-- A key that the source does not hold keeps the value the output had before the loop. -/
theorem lookup_mergeProps_of_not_mem (target : Json) (k : String) :
    ∀ (kvs out : List (String × Json)), k ∉ keys kvs →
      (mergeProps target kvs out).lookup k = out.lookup k := by
  intro kvs
  induction kvs with
  | nil => intro out _; simp [mergeProps]
  | cons p rest ih =>
      intro out h
      obtain ⟨k', v'⟩ := p
      have h1 : k ≠ k' := by
        intro e
        exact h (by simp [keys, e])
      have h2 : k ∉ keys rest := by
        intro e
        exact h (by simp [keys] at e ⊢; exact Or.inr e)
      rw [mergeProps_cons, ih _ h2, lookup_setProp_ne _ _ _ _ h1]

/-- A key that a well-formed source holds ends with the value the loop assigns for it. -/
theorem lookup_mergeProps_of_lookup (target : Json) (k : String) (v : Json) :
    ∀ (kvs out : List (String × Json)), wfProps kvs = true → kvs.lookup k = some v →
      (mergeProps target kvs out).lookup k = some (assigned target k v) := by
  intro kvs
  induction kvs with
  | nil => intro out _ h; simp [List.lookup] at h
  | cons p rest ih =>
      intro out hwf h
      obtain ⟨k', v'⟩ := p
      obtain ⟨hk, _, hrest⟩ := wfProps_cons k' v' rest hwf
      rw [mergeProps_cons]
      by_cases e : k = k'
      · subst e
        simp [List.lookup] at h
        subst h
        rw [lookup_mergeProps_of_not_mem _ _ _ _ hk, lookup_setProp_same]
      · have h1 : (k == k') = false := by simpa using e
        simp [List.lookup, h1] at h
        exact ih _ hrest h

theorem getProp_obj (kvs : List (String × Json)) (k : String) :
    getProp (obj kvs) k = kvs.lookup k := rfl

theorem deepMerge_obj (target : Json) (kvs : List (String × Json)) :
    deepMerge target (obj kvs) = obj (mergeProps target kvs (ownProps target)) := by
  simp [deepMerge]

mutual
/-- Merging a well-formed object into the empty object gives that object back. -/
theorem assigned_of_absent : ∀ (v : Json) (target : Json) (k : String),
    getProp target k = none → wf v = true → assigned target k v = v
  | obj m, target, k, habs, hwf => by
      have hm : wfProps m = true := by simpa [wf] using hwf
      have := mergeProps_onto_empty m [] hm (by simp [keys])
      simp [assigned, isPlainObject, habs, orEmpty, deepMerge_obj, ownProps, this]
  | null, _, _, _, _ => by simp [assigned, isPlainObject]
  | .bool _, _, _, _, _ => by simp [assigned, isPlainObject]
  | num _, _, _, _, _ => by simp [assigned, isPlainObject]
  | str _, _, _, _, _ => by simp [assigned, isPlainObject]
  | arr _, _, _, _, _ => by simp [assigned, isPlainObject]
/-- The loop over a well-formed source, run against the empty target, appends the entries of
the source to an output that holds none of their keys. -/
theorem mergeProps_onto_empty : ∀ (m pre : List (String × Json)),
    wfProps m = true → (∀ k, k ∈ keys m → k ∉ keys pre) →
      mergeProps (obj []) m pre = pre ++ m
  | [], pre, _, _ => by simp [mergeProps]
  | (k, v) :: rest, pre, hwf, hdis => by
      obtain ⟨hk, hv, hrest⟩ := wfProps_cons k v rest hwf
      have hkpre : k ∉ keys pre := hdis k (by simp [keys])
      have hv2 : assigned (obj []) k v = v :=
        assigned_of_absent v (obj []) k (by simp [getProp, ownProps]) hv
      rw [mergeProps_cons, hv2, setProp_of_not_mem _ _ _ hkpre]
      have hdis2 : ∀ k2, k2 ∈ keys rest → k2 ∉ keys (pre ++ [(k, v)]) := by
        intro k2 hk2 hmem
        simp only [keys, List.map_append, List.mem_append, List.map_cons, List.map_nil,
          List.mem_singleton] at hmem
        rcases hmem with hmem | hmem
        · exact hdis k2 (by simp only [keys, List.map_cons, List.mem_cons]; exact Or.inr hk2) hmem
        · subst hmem
          exact hk hk2
      rw [mergeProps_onto_empty rest (pre ++ [(k, v)]) hrest hdis2]
      simp
end

theorem wf_of_lookup : ∀ (kvs : List (String × Json)) (k : String) (v : Json),
    wfProps kvs = true → kvs.lookup k = some v → wf v = true := by
  intro kvs
  induction kvs with
  | nil => intro k v _ h; simp [List.lookup] at h
  | cons p rest ih =>
      intro k v hwf h
      obtain ⟨k', v'⟩ := p
      obtain ⟨_, hv, hrest⟩ := wfProps_cons k' v' rest hwf
      by_cases e : k = k'
      · subst e
        simp [List.lookup] at h
        subst h
        exact hv
      · have h1 : (k == k') = false := by simpa using e
        simp [List.lookup, h1] at h
        exact ih k v hrest h

theorem mergeProps_append (target : Json) :
    ∀ (A B out : List (String × Json)),
      mergeProps target (A ++ B) out = mergeProps target B (mergeProps target A out) := by
  intro A
  induction A with
  | nil => intro B out; simp [mergeProps]
  | cons p rest ih =>
      intro B out
      obtain ⟨k, v⟩ := p
      rw [List.cons_append, mergeProps_cons, mergeProps_cons, ih]

/-- The loop reads the target only at the keys of the source. -/
theorem mergeProps_congr_target (T1 T2 : Json) :
    ∀ (kvs out : List (String × Json)),
      (∀ k, k ∈ keys kvs → getProp T1 k = getProp T2 k) →
      mergeProps T1 kvs out = mergeProps T2 kvs out := by
  intro kvs
  induction kvs with
  | nil => intro out _; simp [mergeProps]
  | cons p rest ih =>
      intro out h
      obtain ⟨k, v⟩ := p
      have hk : getProp T1 k = getProp T2 k := h k (by simp [keys])
      have hrest : ∀ k2, k2 ∈ keys rest → getProp T1 k2 = getProp T2 k2 := by
        intro k2 hk2
        exact h k2 (by simp only [keys, List.map_cons, List.mem_cons]; exact Or.inr hk2)
      rw [mergeProps_cons, mergeProps_cons, ih _ hrest]
      simp [assigned, hk]

/-- The value the loop leaves at a key of the source does not depend on the output the loop
started from. -/
theorem lookup_mergeProps_congr_out (target : Json) (k : String) :
    ∀ (kvs out1 out2 : List (String × Json)),
      (out1.lookup k = out2.lookup k ∨ k ∈ keys kvs) →
      (mergeProps target kvs out1).lookup k = (mergeProps target kvs out2).lookup k := by
  intro kvs
  induction kvs with
  | nil =>
      intro out1 out2 h
      rcases h with h | h
      · simpa [mergeProps] using h
      · simp [keys] at h
  | cons p rest ih =>
      intro out1 out2 h
      obtain ⟨k', v'⟩ := p
      rw [mergeProps_cons, mergeProps_cons]
      apply ih
      by_cases e : k = k'
      · subst e
        left
        rw [lookup_setProp_same, lookup_setProp_same]
      · rcases h with h | h
        · left
          rw [lookup_setProp_ne _ _ _ _ e, lookup_setProp_ne _ _ _ _ e, h]
        · right
          simp only [keys, List.map_cons, List.mem_cons] at h
          rcases h with h | h
          · exact absurd h e
          · exact h

theorem getPath_cons_obj (kvs : List (String × Json)) (k : String) (w : Json)
    (ks : List String) (h : kvs.lookup k = some w) :
    getPath (obj kvs) (k :: ks) = getPath w ks := by
  simp [getPath, getProp, ownProps, h]

end Json

/-! ## The default document (C1) -/

/-- Claim C1: for every user identifier for which nothing is stored, the GET branch of the
context handler responds 200 with exactly `getDefaultContext()`, whose
`finance.totalBalance` is 0, `location.current` is "Chennai",
`preferences.events.interests` is `["music","food","sports","culture"]` and
`preferences.events.budgetRange` is `{min: 0, max: 5000}`; the status is not 404 and the
store is left as it was. -/
theorem get_absent_user_returns_default (rt : Runtime) (st : Store) (userId : String)
    (body : Option Json) (hid : userId ≠ "") (habsent : st (contextKey userId) = none) :
    handler rt st ⟨"GET", some userId, body⟩ = (⟨200, getDefaultContext⟩, st) ∧
    (handler rt st ⟨"GET", some userId, body⟩).1.status ≠ 404 ∧
    getPath getDefaultContext ["finance", "totalBalance"] = some (num 0) ∧
    getPath getDefaultContext ["location", "current"] = some (str "Chennai") ∧
    getPath getDefaultContext ["preferences", "events", "interests"]
      = some (arr [str "music", str "food", str "sports", str "culture"]) ∧
    getPath getDefaultContext ["preferences", "events", "budgetRange"]
      = some (obj [("min", num 0), ("max", num 5000)]) := by
  have h : handler rt st ⟨"GET", some userId, body⟩ = (⟨200, getDefaultContext⟩, st) := by
    simp [handler, hid, currentContext, habsent]
  refine ⟨h, ?_, rfl, rfl, rfl, rfl⟩
  rw [h]
  simp

/-- Instance of C1: user "alice" on an empty store. -/
theorem get_absent_user_returns_default_witness :
    handler ⟨0, fun _ => none, fun _ => none⟩ (fun _ => none) ⟨"GET", some "alice", none⟩
      = (⟨200, getDefaultContext⟩, fun _ => none) :=
  (get_absent_user_returns_default ⟨0, fun _ => none, fun _ => none⟩ (fun _ => none) "alice"
    none (by decide) rfl).1

/-! ## The deep merge (C2 to C6) -/

/-- Claim C2: for every target `T` and every (well-formed) update object `U`,
`deepMerge(T, U)` holds, at every key that `U` does not hold, exactly what `T` holds there
(so the keys of `T` absent from `U` keep their values), and holds, at every key of `U` that
`T` does not hold, exactly the value of `U` at that key. -/
theorem deepMerge_keeps_and_adds (T : Json) (U : List (String × Json))
    (hwf : wf (obj U) = true) :
    (∀ k, getProp (obj U) k = none → getProp (deepMerge T (obj U)) k = getProp T k) ∧
    (∀ k v, getProp T k = none → getProp (obj U) k = some v →
      getProp (deepMerge T (obj U)) k = some v) := by
  have hU : wfProps U = true := by simpa [wf] using hwf
  constructor
  · intro k hk
    rw [deepMerge_obj, getProp_obj]
    exact lookup_mergeProps_of_not_mem T k U _ (not_mem_keys_of_lookup_eq_none k U hk)
  · intro k v hT hUk
    rw [deepMerge_obj, getProp_obj]
    rw [getProp_obj] at hUk
    rw [lookup_mergeProps_of_lookup T k v U _ hU hUk]
    have hv : wf v = true := wf_of_lookup U k v hU hUk
    rw [assigned_of_absent v T k hT hv]

/-- Instance of C2: `{a: 1}` merged with `{b: {c: 2}}`. -/
theorem deepMerge_keeps_and_adds_witness :
    getProp (deepMerge (obj [("a", num 1)]) (obj [("b", obj [("c", num 2)])])) "a"
      = some (num 1) ∧
    getProp (deepMerge (obj [("a", num 1)]) (obj [("b", obj [("c", num 2)])])) "b"
      = some (obj [("c", num 2)]) :=
  ⟨(deepMerge_keeps_and_adds (obj [("a", num 1)]) [("b", obj [("c", num 2)])] (by decide)).1
      "a" rfl,
   (deepMerge_keeps_and_adds (obj [("a", num 1)]) [("b", obj [("c", num 2)])] (by decide)).2
      "b" (obj [("c", num 2)]) rfl rfl⟩

/-- Claim C3: for every target `T`, every (well-formed) update object `U` and every key
path at which `U` holds an array, `deepMerge(T, U)` holds exactly that array at that path,
whatever `T` held there; in particular merging `{food: {allergies: ["nuts"]}}` onto a
context whose `food` is an object replaces `food.allergies` by `["nuts"]` and leaves the
other entries of `food` as they were. -/
theorem deepMerge_replaces_arrays :
    (∀ (path : List String) (T : Json) (U : List (String × Json)) (xs : List Json),
      wf (obj U) = true → path ≠ [] → getPath (obj U) path = some (arr xs) →
      getPath (deepMerge T (obj U)) path = some (arr xs)) ∧
    (∀ (T : Json) (food : List (String × Json)), getProp T "food" = some (obj food) →
      getProp (deepMerge T (obj [("food", obj [("allergies", arr [str "nuts"])])])) "food"
        = some (obj (setProp "allergies" (arr [str "nuts"]) food))) := by
  constructor
  · intro path
    induction path with
    | nil => intro T U xs _ hne _; exact absurd rfl hne
    | cons k ks ih =>
        intro T U xs hwf _ h
        have hU : wfProps U = true := by simpa [wf] using hwf
        simp only [getPath] at h ⊢
        cases hk : getProp (obj U) k with
        | none => simp [hk] at h
        | some v =>
            simp only [hk] at h
            have hv : wf v = true := wf_of_lookup U k v hU (by simpa [getProp_obj] using hk)
            have hres : getProp (deepMerge T (obj U)) k = some (assigned T k v) := by
              rw [deepMerge_obj, getProp_obj]
              exact lookup_mergeProps_of_lookup T k v U _ hU (by simpa [getProp_obj] using hk)
            simp only [hres]
            cases ks with
            | nil =>
                simp only [getPath, Option.some.injEq] at h
                subst h
                simp [getPath, assigned, isPlainObject]
            | cons k2 ks2 =>
                cases v with
                | obj m =>
                    have := ih (orEmpty (getProp T k)) m xs hv (by simp) h
                    simpa [assigned, isPlainObject] using this
                | null => simpa [assigned, isPlainObject] using h
                | bool b => simpa [assigned, isPlainObject] using h
                | num q => simpa [assigned, isPlainObject] using h
                | str s => simpa [assigned, isPlainObject] using h
                | arr ys => simpa [assigned, isPlainObject] using h
  · intro T food hfood
    rw [deepMerge_obj, getProp_obj, mergeProps_cons]
    simp only [mergeProps]
    rw [lookup_setProp_same]
    simp [assigned, isPlainObject, hfood, orEmpty, truthy, deepMerge_obj, mergeProps, ownProps]

/-- Instance of C3: `{food: {allergies: ["nuts"]}}` merged onto a context whose
`food.allergies` is `["gluten"]`. -/
theorem deepMerge_replaces_arrays_witness :
    getPath (deepMerge
        (obj [("food", obj [("allergies", arr [str "gluten"]), ("restrictions", arr [])])])
        (obj [("food", obj [("allergies", arr [str "nuts"])])])) ["food", "allergies"]
      = some (arr [str "nuts"]) ∧
    getProp (deepMerge
        (obj [("food", obj [("allergies", arr [str "gluten"]), ("restrictions", arr [])])])
        (obj [("food", obj [("allergies", arr [str "nuts"])])])) "food"
      = some (obj (setProp "allergies" (arr [str "nuts"])
          [("allergies", arr [str "gluten"]), ("restrictions", arr [])])) :=
  ⟨deepMerge_replaces_arrays.1 ["food", "allergies"]
      (obj [("food", obj [("allergies", arr [str "gluten"]), ("restrictions", arr [])])])
      [("food", obj [("allergies", arr [str "nuts"])])] [str "nuts"]
      (by decide) (by simp) rfl,
   deepMerge_replaces_arrays.2
      (obj [("food", obj [("allergies", arr [str "gluten"]), ("restrictions", arr [])])])
      [("allergies", arr [str "gluten"]), ("restrictions", arr [])] rfl⟩

/-- Claim C4, evaluated on the code: the update
`{preferences: {events: {interests: {x: 1}}}}` holds a plain mapping where the default
document holds the array `["music","food","sports","culture"]`; `deepMerge` recurses with
that array as target, so the result holds the indices of the array next to `x`, not the
mapping `{x: 1}` alone.  The same happens with a string (`location.current`). -/
theorem deepMerge_mapping_onto_array_keeps_indices :
    getPath (deepMerge getDefaultContext
        (obj [("preferences", obj [("events", obj [("interests", obj [("x", num 1)])])])]))
        ["preferences", "events", "interests"]
      = some (obj [("0", str "music"), ("1", str "food"), ("2", str "sports"),
          ("3", str "culture"), ("x", num 1)]) ∧
    getPath (deepMerge getDefaultContext
        (obj [("location", obj [("current", obj [("x", num 1)])])])) ["location", "current"]
      = some (obj [("0", str "C"), ("1", str "h"), ("2", str "e"), ("3", str "n"),
          ("4", str "n"), ("5", str "a"), ("6", str "i"), ("x", num 1)]) :=
  ⟨rfl, rfl⟩

/-- Claim C5: for every target `T` and every two update objects `A` and `B` with no
top-level key in common, merging `A` and then `B` gives exactly the document that merging
the combined update (the entries of `A` followed by those of `B`) gives in one step, and
merging `B` and then `A` gives a document with the same value at every key. -/
theorem deepMerge_disjoint_updates (T : Json) (A B : List (String × Json))
    (hdis : ∀ k, k ∈ keys A → k ∉ keys B) :
    deepMerge (deepMerge T (obj A)) (obj B) = deepMerge T (obj (A ++ B)) ∧
    (∀ k, getProp (deepMerge (deepMerge T (obj B)) (obj A)) k
      = getProp (deepMerge T (obj (A ++ B))) k) := by
  have step : ∀ (X Y : List (String × Json)), (∀ k, k ∈ keys Y → k ∉ keys X) →
      deepMerge (deepMerge T (obj X)) (obj Y)
        = obj (mergeProps T Y (mergeProps T X (ownProps T))) := by
    intro X Y h
    rw [deepMerge_obj T X, deepMerge_obj]
    simp only [ownProps]
    congr 1
    apply mergeProps_congr_target
    intro k hk
    rw [getProp_obj]
    exact lookup_mergeProps_of_not_mem T k X _ (h k hk)
  have hdis2 : ∀ k, k ∈ keys B → k ∉ keys A := fun k hB hA => hdis k hA hB
  constructor
  · rw [step A B hdis2, deepMerge_obj T (A ++ B), mergeProps_append]
  · intro k
    rw [step B A hdis, deepMerge_obj T (A ++ B), mergeProps_append, getProp_obj, getProp_obj]
    by_cases hA : k ∈ keys A
    · rw [lookup_mergeProps_of_not_mem T k B _ (hdis k hA)]
      exact lookup_mergeProps_congr_out T k A _ _ (Or.inr hA)
    · rw [lookup_mergeProps_of_not_mem T k A _ hA]
      exact lookup_mergeProps_congr_out T k B _ _
        (Or.inl (lookup_mergeProps_of_not_mem T k A _ hA).symm)

/-- Instance of C5: a health update and a finance update merged onto the default
document. -/
theorem deepMerge_disjoint_updates_witness :
    deepMerge (deepMerge getDefaultContext (obj [("health", obj [("recoveryProgress", num 5)])]))
        (obj [("finance", obj [("tripBudget", num 7)])])
      = deepMerge getDefaultContext
          (obj ([("health", obj [("recoveryProgress", num 5)])]
            ++ [("finance", obj [("tripBudget", num 7)])])) :=
  (deepMerge_disjoint_updates getDefaultContext
    [("health", obj [("recoveryProgress", num 5)])]
    [("finance", obj [("tripBudget", num 7)])] (by decide)).1

/-- The value of `deepMerge` is a plain object, for every target and every source. -/
theorem deepMerge_total (target source : Json) :
    ∃ out, deepMerge target source = obj out := by
  cases source <;> simp [deepMerge]

/-! ## The handler (C7 to C10) -/

theorem postContext_ok_obj (rt : Runtime) (current : Json) (updates : Option Json) (D : Json)
    (h : postContext rt current updates = Except.ok D) : ∃ doc, D = obj doc := by
  unfold postContext at h
  simp only at h
  split at h
  · cases h
  · cases h; exact ⟨_, rfl⟩
  · split at h
    · cases h
    · cases h; exact ⟨_, rfl⟩

/-- A POST is answered 200 exactly when the user identifier is present and the `try` block
reaches `redis.set`; the document answered is the document stored. -/
theorem handler_post_ok_iff (rt : Runtime) (st st2 : Store) (userId : String)
    (body : Option Json) (D : Json) :
    handler rt st ⟨"POST", some userId, body⟩ = (⟨200, D⟩, st2) ↔
      userId ≠ "" ∧ postContext rt (currentContext st userId) body = Except.ok D ∧
        st2 = st.set (contextKey userId) D := by
  unfold handler
  by_cases hid : userId = ""
  · simp [hid]
  · simp only [hid, if_false]
    have hm : ("POST" = "GET") = False := by decide
    simp only [hm, if_false, if_true]
    cases hp : postContext rt (currentContext st userId) body with
    | error e => simp
    | ok updated =>
        simp only [Prod.mk.injEq, Response.mk.injEq, true_and, ne_eq, not_false_eq_true,
          Except.ok.injEq]
        constructor
        · rintro ⟨rfl, rfl⟩
          exact ⟨hid, rfl, rfl⟩
        · rintro ⟨_, rfl, rfl⟩
          exact ⟨rfl, rfl⟩

theorem eventsBudgetMax_num (rt : Runtime) (b : ℚ) :
    eventsBudgetMax rt (num b) = num (min 5000 (max 0 (b * 0.2))) := by
  simp [eventsBudgetMax, toNumber]

/-- Claim C7, evaluated on the code: for a user whose stored document is the one
`debug.js` writes (it has no `preferences` sub-tree), the POST `{finance: {totalBalance:
10000}}` is answered 500 and stores nothing, because the assignment to
`updatedContext.preferences.events.budgetRange.max` raises a `TypeError`; the same happens
on the default document when the update itself sets `preferences` to `null`. -/
theorem post_balance_without_preferences_fails (rt : Runtime) :
    handler rt
        (Store.set (fun _ => none) (contextKey "u1")
          (debugStoredDocument "2025-01-01T00:00:00.000Z"))
        ⟨"POST", some "u1", some (obj [("finance", obj [("totalBalance", num 10000)])])⟩
      = (⟨500, errorBody "Failed to update user context"⟩,
         Store.set (fun _ => none) (contextKey "u1")
          (debugStoredDocument "2025-01-01T00:00:00.000Z")) ∧
    handler rt (fun _ => none)
        ⟨"POST", some "u1",
          some (obj [("finance", obj [("totalBalance", num 10000)]), ("preferences", null)])⟩
      = (⟨500, errorBody "Failed to update user context"⟩, fun _ => none) :=
  ⟨rfl, rfl⟩

/-- What the POST branch does when the derivation can be carried out: if the update gives
`finance.totalBalance` the number `b` and the merged document has an object at
`preferences.events.budgetRange`, the POST is answered 200 and the document stored and
returned has `preferences.events.budgetRange.max = min(5000, max(0, b * 0.2))`. -/
theorem post_derives_events_budget (rt : Runtime) (st : Store) (userId : String)
    (u : Json) (b : ℚ) (prefs events range : List (String × Json))
    (hid : userId ≠ "")
    (hbal : financeBalance (some u) = Except.ok (some (num b)))
    (hprefs : getProp (deepMerge (currentContext st userId) u) "preferences"
      = some (obj prefs))
    (hevents : prefs.lookup "events" = some (obj events))
    (hrange : events.lookup "budgetRange" = some (obj range)) :
    ∃ D, handler rt st ⟨"POST", some userId, some u⟩
        = (⟨200, D⟩, st.set (contextKey userId) D) ∧
      getPath D ["preferences", "events", "budgetRange", "max"]
        = some (num (min 5000 (max 0 (b * 0.2)))) := by
  have hprefs2 : (ownProps (deepMerge (currentContext st userId) u)).lookup "preferences"
      = some (obj prefs) := hprefs
  have hpost : postContext rt (currentContext st userId) (some u)
      = Except.ok (obj (expireHealth rt (setProp "preferences"
          (obj (setProp "events"
            (obj (setProp "budgetRange"
              (obj (setProp "max" (num (min 5000 (max 0 (b * 0.2)))) range)) events)) prefs))
          (ownProps (deepMerge (currentContext st userId) u))))) := by
    simp [postContext, hbal, assignBudgetMax, hprefs2, hevents, hrange, eventsBudgetMax_num]
  refine ⟨_, (handler_post_ok_iff rt st _ userId (some u) _).2 ⟨hid, hpost, rfl⟩, ?_⟩
  have hne : ("preferences" : String) ≠ "health" := by decide
  have hlook : (expireHealth rt (setProp "preferences"
          (obj (setProp "events"
            (obj (setProp "budgetRange"
              (obj (setProp "max" (num (min 5000 (max 0 (b * 0.2)))) range)) events)) prefs))
          (ownProps (deepMerge (currentContext st userId) u)))).lookup "preferences"
      = some (obj (setProp "events"
            (obj (setProp "budgetRange"
              (obj (setProp "max" (num (min 5000 (max 0 (b * 0.2)))) range)) events)) prefs)) := by
    unfold expireHealth
    split
    · split
      · rw [lookup_setProp_ne _ _ _ _ hne, lookup_setProp_same]
      · rw [lookup_setProp_same]
    · rw [lookup_setProp_same]
  rw [getPath_cons_obj _ _ _ _ hlook, getPath_cons_obj _ _ _ _ (lookup_setProp_same _ _ _),
    getPath_cons_obj _ _ _ _ (lookup_setProp_same _ _ _),
    getPath_cons_obj _ _ _ _ (lookup_setProp_same _ _ _)]
  rfl

/-- Claim C8: whenever the context POST of a user is answered 200 with document `D`, a GET
for the same user on the resulting store is answered 200 with `D`; and for a user with
nothing stored, POST `{finance: {totalBalance: 4000}}` is answered 200 with the default
document changed at exactly two places, `finance.totalBalance = 4000` and
`preferences.events.budgetRange.max = 800`, which the following GET returns. -/
theorem post_then_get (rt rt2 : Runtime) (st : Store) (userId : String)
    (body2 : Option Json) :
    (∀ (body : Option Json) (D : Json) (st2 : Store),
      handler rt st ⟨"POST", some userId, body⟩ = (⟨200, D⟩, st2) →
      handler rt2 st2 ⟨"GET", some userId, body2⟩ = (⟨200, D⟩, st2)) ∧
    (userId ≠ "" → st (contextKey userId) = none →
      ∃ D st2,
        handler rt st ⟨"POST", some userId,
            some (obj [("finance", obj [("totalBalance", num 4000)])])⟩ = (⟨200, D⟩, st2) ∧
        handler rt2 st2 ⟨"GET", some userId, body2⟩ = (⟨200, D⟩, st2) ∧
        D = setPath ["preferences", "events", "budgetRange", "max"] (num 800)
              (setPath ["finance", "totalBalance"] (num 4000) getDefaultContext) ∧
        getPath D ["finance", "totalBalance"] = some (num 4000) ∧
        getPath D ["preferences", "events", "budgetRange", "max"] = some (num 800)) := by
  have general : ∀ (body : Option Json) (D : Json) (st2 : Store),
      handler rt st ⟨"POST", some userId, body⟩ = (⟨200, D⟩, st2) →
      handler rt2 st2 ⟨"GET", some userId, body2⟩ = (⟨200, D⟩, st2) := by
    intro body D st2 h
    obtain ⟨hid, hpost, hst⟩ := (handler_post_ok_iff rt st st2 userId body D).1 h
    obtain ⟨doc, hD⟩ := postContext_ok_obj rt _ body D hpost
    subst hst
    subst hD
    simp [handler, hid, currentContext, Store.set, truthy]
  refine ⟨general, ?_⟩
  intro hid habsent
  have hcur : currentContext st userId = getDefaultContext := by
    simp [currentContext, habsent]
  have h800 : eventsBudgetMax rt (num 4000) = num 800 := by
    rw [eventsBudgetMax_num]
    norm_num
  have hpost : postContext rt getDefaultContext
        (some (obj [("finance", obj [("totalBalance", num 4000)])]))
      = Except.ok (setPath ["preferences", "events", "budgetRange", "max"]
          (eventsBudgetMax rt (num 4000))
          (setPath ["finance", "totalBalance"] (num 4000) getDefaultContext)) := rfl
  rw [h800] at hpost
  have hpostH := (handler_post_ok_iff rt st _ userId
    (some (obj [("finance", obj [("totalBalance", num 4000)])])) _).2
      ⟨hid, by rw [hcur]; exact hpost, rfl⟩
  exact ⟨_, _, hpostH, general _ _ _ hpostH, rfl, rfl, rfl⟩

/-- Instance of C8: user "alice", nothing stored, POST of a balance of 4000, then GET. -/
theorem post_then_get_witness :
    handler (clockAt 0) (fun _ => none) ⟨"POST", some "alice",
        some (obj [("finance", obj [("totalBalance", num 4000)])])⟩
      = (⟨200, setPath ["preferences", "events", "budgetRange", "max"] (num 800)
            (setPath ["finance", "totalBalance"] (num 4000) getDefaultContext)⟩,
         Store.set (fun _ => none) (contextKey "alice")
          (setPath ["preferences", "events", "budgetRange", "max"] (num 800)
            (setPath ["finance", "totalBalance"] (num 4000) getDefaultContext))) ∧
    handler (clockAt 9)
        (Store.set (fun _ => none) (contextKey "alice")
          (setPath ["preferences", "events", "budgetRange", "max"] (num 800)
            (setPath ["finance", "totalBalance"] (num 4000) getDefaultContext)))
        ⟨"GET", some "alice", none⟩
      = (⟨200, setPath ["preferences", "events", "budgetRange", "max"] (num 800)
            (setPath ["finance", "totalBalance"] (num 4000) getDefaultContext)⟩,
         Store.set (fun _ => none) (contextKey "alice")
          (setPath ["preferences", "events", "budgetRange", "max"] (num 800)
            (setPath ["finance", "totalBalance"] (num 4000) getDefaultContext))) := by
  obtain ⟨D, st2, hpost, _, hD, _, _⟩ :=
    (post_then_get (clockAt 0) (clockAt 9) (fun _ => none) "alice" none).2 (by decide) rfl
  obtain ⟨_, _, hst⟩ := (handler_post_ok_iff _ _ _ _ _ _).1 hpost
  subst hD
  subst hst
  exact ⟨hpost, (post_then_get (clockAt 0) (clockAt 9) (fun _ => none) "alice" none).1
    _ _ _ hpost⟩

theorem assignBudgetMax_lookup_health (v : Json) (doc doc2 : List (String × Json))
    (h : assignBudgetMax v doc = Except.ok doc2) :
    doc2.lookup "health" = doc.lookup "health" := by
  have hne : ("health" : String) ≠ "preferences" := by decide
  unfold assignBudgetMax at h
  split at h
  · split at h
    · split at h
      · cases h
        exact lookup_setProp_ne _ _ _ _ hne
      · cases h
        rfl
      · cases h
    · cases h
  · cases h

theorem expireHealth_of_expired (rt : Runtime) (doc : List (String × Json)) (health : Json)
    (hdoc : doc.lookup "health" = some health)
    (hexp : healthExpired rt (some health) = true) :
    expireHealth rt doc = setProp "health" (resetHealth health) doc := by
  simp [expireHealth, hdoc, hexp]

theorem resetHealth_fields (health : Json) :
    getProp (resetHealth health) "activeIllness" = some null ∧
    getProp (resetHealth health) "symptoms" = some (arr []) ∧
    getProp (resetHealth health) "startedAt" = some null ∧
    getProp (resetHealth health) "expiresAt" = some null ∧
    getProp (resetHealth health) "currentCondition" = some (str "healthy") ∧
    (∀ k, k ∉ resetKeys → getProp (resetHealth health) k = getProp health k) := by
  have key : ∀ k, getProp (resetHealth health) k
      = (setProp "currentCondition" (str "healthy")
          (setProp "expiresAt" null
            (setProp "startedAt" null
              (setProp "symptoms" (arr [])
                (setProp "activeIllness" null (ownProps health)))))).lookup k := fun _ => rfl
  refine ⟨?_, ?_, ?_, ?_, ?_, ?_⟩
  · rw [key, lookup_setProp_ne "currentCondition" "activeIllness" _ _ (by decide),
      lookup_setProp_ne "expiresAt" "activeIllness" _ _ (by decide),
      lookup_setProp_ne "startedAt" "activeIllness" _ _ (by decide),
      lookup_setProp_ne "symptoms" "activeIllness" _ _ (by decide), lookup_setProp_same]
  · rw [key, lookup_setProp_ne "currentCondition" "symptoms" _ _ (by decide),
      lookup_setProp_ne "expiresAt" "symptoms" _ _ (by decide),
      lookup_setProp_ne "startedAt" "symptoms" _ _ (by decide), lookup_setProp_same]
  · rw [key, lookup_setProp_ne "currentCondition" "startedAt" _ _ (by decide),
      lookup_setProp_ne "expiresAt" "startedAt" _ _ (by decide), lookup_setProp_same]
  · rw [key, lookup_setProp_ne "currentCondition" "expiresAt" _ _ (by decide),
      lookup_setProp_same]
  · rw [key, lookup_setProp_same]
  · intro k hk
    simp only [resetKeys, List.mem_cons, List.mem_singleton, List.not_mem_nil, or_false,
      not_or] at hk
    obtain ⟨h1, h2, h3, h4, h5⟩ := hk
    rw [key, lookup_setProp_ne _ _ _ _ h5, lookup_setProp_ne _ _ _ _ h4,
      lookup_setProp_ne _ _ _ _ h3, lookup_setProp_ne _ _ _ _ h2,
      lookup_setProp_ne _ _ _ _ h1]
    rfl

/-- Claim C9: for every context POST whose merged document has a `health.expiresAt` that is
set and earlier than now, every document that the POST persists and returns (status 200) has
`health.activeIllness = null`, `symptoms = []`, `startedAt = null`, `expiresAt = null`,
`currentCondition = "healthy"` and every other health field as in the merged document,
whatever the update touched; and the POST is answered 200 whenever the update gives no
`finance.totalBalance`. -/
theorem post_resets_expired_health (rt : Runtime) (st : Store) (userId : String)
    (body : Option Json) (health e : Json) (t : Int)
    (hhealth : getProp (deepMerge (currentContext st userId) (body.getD null)) "health"
      = some health)
    (hexp : getProp health "expiresAt" = some e) (hset : truthy e = true)
    (hdate : rt.dateOf e = some t) (hpast : t < rt.now) :
    (∀ D st2, handler rt st ⟨"POST", some userId, body⟩ = (⟨200, D⟩, st2) →
      st2 (contextKey userId) = some D ∧
      ∃ h2, getProp D "health" = some h2 ∧
        getProp h2 "activeIllness" = some null ∧
        getProp h2 "symptoms" = some (arr []) ∧
        getProp h2 "startedAt" = some null ∧
        getProp h2 "expiresAt" = some null ∧
        getProp h2 "currentCondition" = some (str "healthy") ∧
        (∀ k, k ∉ resetKeys → getProp h2 k = getProp health k)) ∧
    (userId ≠ "" → financeBalance body = Except.ok none →
      ∃ D st2, handler rt st ⟨"POST", some userId, body⟩ = (⟨200, D⟩, st2)) := by
  have hexpired : healthExpired rt (some health) = true := by
    simp [healthExpired, hexp, hset, hdate, hpast]
  have hmerged : (ownProps (deepMerge (currentContext st userId) (body.getD null))).lookup
      "health" = some health := hhealth
  constructor
  · intro D st2 h
    obtain ⟨_, hpost, hst⟩ := (handler_post_ok_iff rt st st2 userId body D).1 h
    subst hst
    refine ⟨by simp [Store.set], ?_⟩
    have hD : ∃ doc, doc.lookup "health" = some health ∧ D = obj (expireHealth rt doc) := by
      unfold postContext at hpost
      simp only at hpost
      split at hpost
      · cases hpost
      · cases hpost
        exact ⟨_, hmerged, rfl⟩
      · split at hpost
        · cases hpost
        · rename_i doc hassign
          cases hpost
          exact ⟨doc, (assignBudgetMax_lookup_health _ _ _ hassign).trans hmerged, rfl⟩
    obtain ⟨doc, hdoc, rfl⟩ := hD
    rw [expireHealth_of_expired rt doc health hdoc hexpired]
    exact ⟨resetHealth health, by rw [getProp_obj, lookup_setProp_same],
      resetHealth_fields health⟩
  · intro hid hbal
    refine ⟨obj (expireHealth rt
        (ownProps (deepMerge (currentContext st userId) (body.getD null)))), _,
      (handler_post_ok_iff rt st _ userId body _).2 ⟨hid, ?_, rfl⟩⟩
    simp only [postContext, hbal]

/-- Instance of C9: at instant 2000 a user with nothing stored posts a health update whose
`expiresAt` is instant 1000; the POST is answered 200 and the stored document has the
healthy baseline. -/
theorem post_resets_expired_health_witness :
    (handler (clockAt 2000) (fun _ => none) ⟨"POST", some "alice", some sickUpdate⟩).1.status
      = 200 ∧
    getPath (handler (clockAt 2000) (fun _ => none)
        ⟨"POST", some "alice", some sickUpdate⟩).1.body ["health", "activeIllness"]
      = some null ∧
    getPath (handler (clockAt 2000) (fun _ => none)
        ⟨"POST", some "alice", some sickUpdate⟩).1.body ["health", "allergies"]
      = some (arr []) := by
  have h := post_resets_expired_health (clockAt 2000) (fun _ => none) "alice"
    (some sickUpdate) sickHealth (str "2025-01-08T00:00:00.000Z") 1000 rfl rfl (by decide)
    rfl (by decide)
  obtain ⟨D, st2, hD⟩ := h.2 (by decide) rfl
  obtain ⟨_, h2, hh, hill, _, _, _, _, hother⟩ := h.1 D st2 hD
  obtain ⟨doc, rfl⟩ := postContext_ok_obj _ _ _ _
    ((handler_post_ok_iff _ _ _ _ _ _).1 hD).2.1
  rw [hD]
  refine ⟨rfl, ?_, ?_⟩
  · show getPath (obj doc) _ = _
    rw [getPath_cons_obj _ _ _ _ (by simpa [getProp, ownProps] using hh)]
    simp only [getPath, hill]
  · show getPath (obj doc) _ = _
    rw [getPath_cons_obj _ _ _ _ (by simpa [getProp, ownProps] using hh)]
    have := hother "allergies" (by decide)
    simp only [getPath, this]
    rfl

/-- Claim C10, evaluated on the code: a user posts, at instant 0, a health update whose
illness expires at instant 1000; a GET at instant 2000, when the stored `expiresAt` is
earlier than now, is answered 200 with the stored document unchanged: `activeIllness` is
still "reported_symptoms" and `currentCondition` is still "sick".  The GET branch has no
expiry step. -/
theorem get_returns_expired_health :
    (handler (clockAt 0) (fun _ => none) ⟨"POST", some "alice", some sickUpdate⟩).1.status
      = 200 ∧
    (handler (clockAt 2000)
      (handler (clockAt 0) (fun _ => none) ⟨"POST", some "alice", some sickUpdate⟩).2
      ⟨"GET", some "alice", none⟩).1
      = ⟨200, setPath ["health"] sickHealth getDefaultContext⟩ ∧
    healthExpired (clockAt 2000) (some sickHealth) = true ∧
    getPath (setPath ["health"] sickHealth getDefaultContext) ["health", "activeIllness"]
      = some (str "reported_symptoms") ∧
    getPath (setPath ["health"] sickHealth getDefaultContext) ["health", "currentCondition"]
      = some (str "sick") :=
  ⟨rfl, rfl, by decide, rfl, rfl⟩

/-- The GET branch returns the stored document as it is, whatever the clock reads. -/
theorem get_returns_stored_document (rt : Runtime) (st : Store) (userId : String)
    (body : Option Json) (doc : List (String × Json)) (hid : userId ≠ "")
    (hstored : st (contextKey userId) = some (obj doc)) :
    handler rt st ⟨"GET", some userId, body⟩ = (⟨200, obj doc⟩, st) := by
  simp [handler, hid, currentContext, hstored, truthy]

/-! ## The health handler (C11 to C14) -/

/-- Spreading a five-field health update over the entries of the fetched health sets those
five fields and leaves every other key as it was. -/
theorem spread_health_update_fields (v1 v2 v3 v4 v5 : Json) (out : List (String × Json)) :
    (spreadInto [("activeIllness", v1), ("symptoms", v2), ("startedAt", v3),
        ("expiresAt", v4), ("currentCondition", v5)] out).lookup "activeIllness" = some v1 ∧
    (spreadInto [("activeIllness", v1), ("symptoms", v2), ("startedAt", v3),
        ("expiresAt", v4), ("currentCondition", v5)] out).lookup "symptoms" = some v2 ∧
    (spreadInto [("activeIllness", v1), ("symptoms", v2), ("startedAt", v3),
        ("expiresAt", v4), ("currentCondition", v5)] out).lookup "startedAt" = some v3 ∧
    (spreadInto [("activeIllness", v1), ("symptoms", v2), ("startedAt", v3),
        ("expiresAt", v4), ("currentCondition", v5)] out).lookup "expiresAt" = some v4 ∧
    (spreadInto [("activeIllness", v1), ("symptoms", v2), ("startedAt", v3),
        ("expiresAt", v4), ("currentCondition", v5)] out).lookup "currentCondition"
      = some v5 ∧
    (∀ k, k ∉ resetKeys →
      (spreadInto [("activeIllness", v1), ("symptoms", v2), ("startedAt", v3),
        ("expiresAt", v4), ("currentCondition", v5)] out).lookup k = out.lookup k) := by
  have key : spreadInto [("activeIllness", v1), ("symptoms", v2), ("startedAt", v3),
        ("expiresAt", v4), ("currentCondition", v5)] out
      = setProp "currentCondition" v5 (setProp "expiresAt" v4 (setProp "startedAt" v3
          (setProp "symptoms" v2 (setProp "activeIllness" v1 out)))) := rfl
  rw [key]
  refine ⟨?_, ?_, ?_, ?_, ?_, ?_⟩
  · rw [lookup_setProp_ne "currentCondition" "activeIllness" _ _ (by decide),
      lookup_setProp_ne "expiresAt" "activeIllness" _ _ (by decide),
      lookup_setProp_ne "startedAt" "activeIllness" _ _ (by decide),
      lookup_setProp_ne "symptoms" "activeIllness" _ _ (by decide), lookup_setProp_same]
  · rw [lookup_setProp_ne "currentCondition" "symptoms" _ _ (by decide),
      lookup_setProp_ne "expiresAt" "symptoms" _ _ (by decide),
      lookup_setProp_ne "startedAt" "symptoms" _ _ (by decide), lookup_setProp_same]
  · rw [lookup_setProp_ne "currentCondition" "startedAt" _ _ (by decide),
      lookup_setProp_ne "expiresAt" "startedAt" _ _ (by decide), lookup_setProp_same]
  · rw [lookup_setProp_ne "currentCondition" "expiresAt" _ _ (by decide),
      lookup_setProp_same]
  · rw [lookup_setProp_same]
  · intro k hk
    simp only [resetKeys, List.mem_cons, List.mem_singleton, List.not_mem_nil, or_false,
      not_or] at hk
    obtain ⟨h1, h2, h3, h4, h5⟩ := hk
    rw [lookup_setProp_ne _ _ _ _ h5, lookup_setProp_ne _ _ _ _ h4,
      lookup_setProp_ne _ _ _ _ h3, lookup_setProp_ne _ _ _ _ h2,
      lookup_setProp_ne _ _ _ _ h1]

theorem readMember_some (v : Json) (k : String) (hv : v ≠ null) :
    readMember (some v) k = Except.ok (getProp v k) := by
  cases v <;> simp [readMember] at hv ⊢

/-- With no active illness and an illness keyword in the message, `healthUpdates` is the
onset record. -/
theorem healthUpdates_onset (rt : Runtime) (eng : Engine) (userContext : Json)
    (message : String) (previous : List Json) (hctx : userContext ≠ null)
    (hinactive : truthyOpt (optProp (getProp userContext "health") "activeIllness") = false)
    (hsymptoms : orEmptyArray (optProp (getProp userContext "health") "symptoms")
      = arr previous)
    (hill : hasIllness message = true) :
    healthUpdates rt eng userContext message
      = Except.ok (some (onsetUpdate eng rt.now previous message)) := by
  simp [healthUpdates, readMember_some _ _ hctx, hinactive, hsymptoms, hill, spreadIterable]

/-- With an active illness and a reset keyword in the message, `healthUpdates` is the
baseline reset. -/
theorem healthUpdates_reset (rt : Runtime) (eng : Engine) (userContext : Json)
    (message : String) (hctx : userContext ≠ null)
    (hactive : truthyOpt (optProp (getProp userContext "health") "activeIllness") = true)
    (hreset : shouldReset message = true) :
    healthUpdates rt eng userContext message = Except.ok (some baselineUpdate) := by
  simp [healthUpdates, readMember_some _ _ hctx, hactive, hreset]

theorem ownProps_getD_lookup (h : Option Json) (k : String) :
    (ownProps (h.getD null)).lookup k = optProp h k := by
  cases h <;> rfl

/-- Claim C11: in the health handler, for every fetched context with no active illness
(`health.activeIllness` null or absent) whose previous symptoms (none counts as the empty
list) are the list `previous`, and every message whose lower-cased text contains an illness
keyword, the body sent to the context service is `{health: H}` where `H` is the fetched
health with `activeIllness = "reported_symptoms"`, `symptoms` = `previous` followed by the
message, `startedAt` = now, `expiresAt` = now plus 7 days and `currentCondition = "sick"`. -/
theorem health_onset_update_sent (rt : Runtime) (eng : Engine) (userContext : Json)
    (message : String) (previous : List Json) (hctx : userContext ≠ null)
    (hinactive : optProp (getProp userContext "health") "activeIllness" = none ∨
      optProp (getProp userContext "health") "activeIllness" = some null)
    (hsymptoms : orEmptyArray (optProp (getProp userContext "health") "symptoms")
      = arr previous)
    (hill : hasIllness message = true) :
    ∃ sent, healthUpdateBody rt eng userContext message
        = Except.ok (some (obj [("health", obj sent)])) ∧
      sent.lookup "activeIllness" = some (str "reported_symptoms") ∧
      sent.lookup "symptoms" = some (arr (previous ++ [str message])) ∧
      sent.lookup "startedAt" = some (str (eng.isoString rt.now)) ∧
      sent.lookup "expiresAt" = some (str (eng.isoString (eng.plusDays rt.now 7))) ∧
      sent.lookup "currentCondition" = some (str "sick") ∧
      (∀ k, k ∉ resetKeys → sent.lookup k = optProp (getProp userContext "health") k) := by
  have hinactive2 : truthyOpt (optProp (getProp userContext "health") "activeIllness")
      = false := by
    rcases hinactive with h | h <;> simp [h, truthyOpt, truthy]
  have hupd := healthUpdates_onset rt eng userContext message previous hctx hinactive2
    hsymptoms hill
  have hfields := spread_health_update_fields (str "reported_symptoms")
    (arr (previous ++ [str message])) (str (eng.isoString rt.now))
    (str (eng.isoString (eng.plusDays rt.now 7))) (str "sick")
    (ownProps ((getProp userContext "health").getD null))
  refine ⟨_, ?_, hfields.1, hfields.2.1, hfields.2.2.1, hfields.2.2.2.1, hfields.2.2.2.2.1, ?_⟩
  · simp only [healthUpdateBody, hupd]
    rfl
  · intro k hk
    rw [hfields.2.2.2.2.2 k hk, ownProps_getD_lookup]

/-- Instance of C11: the default document and the message "I have a fever". -/
theorem health_onset_update_sent_witness :
    (match healthUpdateBody (clockAt 0) exampleEngine getDefaultContext "I have a fever" with
      | Except.ok (some (obj [("health", obj sent)])) => sent.lookup "symptoms"
      | _ => none) = some (arr [str "I have a fever"]) := by
  obtain ⟨sent, h, _, h2, _⟩ := health_onset_update_sent (clockAt 0) exampleEngine
    getDefaultContext "I have a fever" [] (by simp [getDefaultContext]) (Or.inr rfl) rfl
    (by decide)
  rw [h]
  exact h2

/-- Claim C12: in the health handler, for every fetched context with an active illness and
every message whose lower-cased text contains a reset keyword, the body sent to the context
service is `{health: H}` where `H` is the fetched health with `activeIllness = null`,
`symptoms = []`, `startedAt = null`, `expiresAt = null` and `currentCondition = "healthy"`,
whatever the clock reads (so whether or not `expiresAt` has passed). -/
theorem health_manual_reset_sent (rt : Runtime) (eng : Engine) (userContext : Json)
    (message : String) (hctx : userContext ≠ null)
    (hactive : truthyOpt (optProp (getProp userContext "health") "activeIllness") = true)
    (hreset : shouldReset message = true) :
    ∃ sent, healthUpdateBody rt eng userContext message
        = Except.ok (some (obj [("health", obj sent)])) ∧
      sent.lookup "activeIllness" = some null ∧
      sent.lookup "symptoms" = some (arr []) ∧
      sent.lookup "startedAt" = some null ∧
      sent.lookup "expiresAt" = some null ∧
      sent.lookup "currentCondition" = some (str "healthy") ∧
      (∀ k, k ∉ resetKeys → sent.lookup k = optProp (getProp userContext "health") k) := by
  have hupd := healthUpdates_reset rt eng userContext message hctx hactive hreset
  have hfields := spread_health_update_fields null (arr []) null null (str "healthy")
    (ownProps ((getProp userContext "health").getD null))
  refine ⟨_, ?_, hfields.1, hfields.2.1, hfields.2.2.1, hfields.2.2.2.1, hfields.2.2.2.2.1, ?_⟩
  · simp only [healthUpdateBody, hupd]
    rfl
  · intro k hk
    rw [hfields.2.2.2.2.2 k hk, ownProps_getD_lookup]

/-- Instance of C12: a sick user whose illness has not expired says "I am fine now". -/
theorem health_manual_reset_sent_witness :
    (match healthUpdateBody (clockAt 0) exampleEngine (obj [("health", sickHealth)])
        "I am fine now" with
      | Except.ok (some (obj [("health", obj sent)])) => sent.lookup "activeIllness"
      | _ => none) = some null := by
  obtain ⟨sent, h, h1, _⟩ := health_manual_reset_sent (clockAt 0) exampleEngine
    (obj [("health", sickHealth)]) "I am fine now" (by simp) (by decide) (by decide)
  rw [h]
  exact h1

/-- Claim C13, evaluated on the code: the fetched illness is active and its `expiresAt`
(instant 1000) is earlier than now (instant 2000); the message "I have a fever" contains an
illness keyword and no reset keyword.  The expiry step assigns the baseline, and the onset
step, which still tests the fetched `activeIllness`, does not run: the update is the
healthy baseline, not the onset record. -/
theorem health_expired_illness_blocks_onset :
    healthExpired (clockAt 2000) (some sickHealth) = true ∧
    hasIllness "I have a fever" = true ∧
    shouldReset "I have a fever" = false ∧
    healthUpdates (clockAt 2000) exampleEngine (obj [("health", sickHealth)]) "I have a fever"
      = Except.ok (some baselineUpdate) ∧
    (match healthUpdateBody (clockAt 2000) exampleEngine (obj [("health", sickHealth)])
        "I have a fever" with
      | Except.ok (some body) => getPath body ["health", "currentCondition"]
      | _ => none) = some (str "healthy") :=
  ⟨by decide, by decide, by decide, rfl, rfl⟩

/-- Claim C14: in the health handler, for every fetched context with an active illness and
every message that contains both a reset keyword and an illness keyword, the computed
update is exactly the baseline reset; for every context and message the computed update,
when there is one, is exactly the baseline reset or exactly an onset record; and no field
of the baseline reset has the value that an onset record gives it. -/
theorem health_update_reset_or_onset (rt : Runtime) (eng : Engine) (userContext : Json)
    (message : String) :
    (userContext ≠ null →
      truthyOpt (optProp (getProp userContext "health") "activeIllness") = true →
      shouldReset message = true → hasIllness message = true →
      healthUpdates rt eng userContext message = Except.ok (some baselineUpdate)) ∧
    (∀ u, healthUpdates rt eng userContext message = Except.ok (some u) →
      u = baselineUpdate ∨ ∃ previous, u = onsetUpdate eng rt.now previous message) ∧
    (∀ previous k v, getProp baselineUpdate k = some v →
      getProp (onsetUpdate eng rt.now previous message) k ≠ some v) := by
  refine ⟨?_, ?_, ?_⟩
  · intro hctx hactive hreset _
    exact healthUpdates_reset rt eng userContext message hctx hactive hreset
  · intro u h
    unfold healthUpdates at h
    split at h
    · cases h
    · rename_i health _
      simp only at h
      cases h1 : healthExpired rt health <;> cases h2 : hasIllness message <;>
        cases h3 : truthyOpt (optProp health "activeIllness") <;>
        cases h4 : shouldReset message <;>
        simp [h1, h2, h3, h4] at h <;>
        first
          | (left; exact h.symm)
          | (cases h5 : spreadIterable (some (orEmptyArray (optProp health "symptoms"))) <;>
              simp [h5] at h
             right; exact ⟨_, h.symm⟩)
  · intro previous k v hb ho
    simp only [getProp, ownProps, baselineUpdate, onsetUpdate, List.lookup] at hb ho
    by_cases k1 : k = "activeIllness"
    · subst k1; simp at hb ho; rw [← hb] at ho; cases ho
    by_cases k2 : k = "symptoms"
    · subst k2; simp at hb ho; rw [← hb] at ho; simp at ho
    by_cases k3 : k = "startedAt"
    · subst k3; simp at hb ho; rw [← hb] at ho; cases ho
    by_cases k4 : k = "expiresAt"
    · subst k4; simp at hb ho; rw [← hb] at ho; cases ho
    by_cases k5 : k = "currentCondition"
    · subst k5; simp at hb ho; rw [← hb] at ho; simp at ho
    have e1 : (k == "activeIllness") = false := by simpa using k1
    have e2 : (k == "symptoms") = false := by simpa using k2
    have e3 : (k == "startedAt") = false := by simpa using k3
    have e4 : (k == "expiresAt") = false := by simpa using k4
    have e5 : (k == "currentCondition") = false := by simpa using k5
    simp [e1, e2, e3, e4, e5] at hb

/-- Instance of C14: a sick user says "I am fine but I have a cough". -/
theorem health_update_reset_or_onset_witness :
    healthUpdates (clockAt 0) exampleEngine (obj [("health", sickHealth)])
        "I am fine but I have a cough" = Except.ok (some baselineUpdate) :=
  (health_update_reset_or_onset (clockAt 0) exampleEngine (obj [("health", sickHealth)])
    "I am fine but I have a cough").1 (by simp) (by decide) (by decide) (by decide)

/-! ## The finance handler, expense path (C15, C17) -/

theorem keys_setProp (k : String) (v : Json) (l : List (String × Json)) :
    keys (setProp k v l) = if k ∈ keys l then keys l else keys l ++ [k] := by
  induction l with
  | nil => simp [setProp, keys]
  | cons p rest ih =>
      obtain ⟨k', v'⟩ := p
      by_cases h : k' = k
      · subst h
        simp [setProp, keys]
      · have h2 : ¬ k = k' := fun e => h e.symm
        by_cases h3 : k ∈ keys rest
        · simp only [h3, if_true] at ih
          have : k ∈ keys ((k', v') :: rest) := by
            simp only [keys, List.map_cons, List.mem_cons]; exact Or.inr h3
          simp only [this, if_true, setProp, h, if_false]
          simp only [keys, List.map_cons] at ih ⊢
          rw [ih]
        · simp only [h3, if_false] at ih
          have : ¬ k ∈ keys ((k', v') :: rest) := by
            simp only [keys, List.map_cons, List.mem_cons, not_or]; exact ⟨h2, h3⟩
          simp only [this, if_false, setProp, h]
          simp only [keys, List.map_cons, List.cons_append] at ih ⊢
          rw [ih]

theorem wfProps_iff (l : List (String × Json)) :
    wfProps l = true ↔ (keys l).Nodup ∧ ∀ p, p ∈ l → wf p.2 = true := by
  induction l with
  | nil => simp [wfProps, keys]
  | cons p rest ih =>
      obtain ⟨k, v⟩ := p
      constructor
      · intro h
        obtain ⟨h1, h2, h3⟩ := wfProps_cons k v rest h
        obtain ⟨h4, h5⟩ := ih.1 h3
        refine ⟨?_, ?_⟩
        · simp only [keys, List.map_cons, List.nodup_cons]
          exact ⟨h1, h4⟩
        · intro p hp
          simp only [List.mem_cons] at hp
          rcases hp with rfl | hp
          · exact h2
          · exact h5 p hp
      · rintro ⟨h1, h2⟩
        simp only [keys, List.map_cons, List.nodup_cons] at h1
        have h3 : wfProps rest = true :=
          ih.2 ⟨h1.2, fun p hp => h2 p (List.mem_cons_of_mem _ hp)⟩
        have h4 : wf v = true := h2 (k, v) (List.mem_cons_self _ _)
        simp only [wfProps, h3, h4, Bool.and_true, Bool.not_eq_true']
        cases hc : (List.map Prod.fst rest).contains k
        · rfl
        · exact absurd (by simpa using hc) h1.1

theorem mem_setProp (k : String) (v : Json) (l : List (String × Json)) (p : String × Json)
    (hp : p ∈ setProp k v l) : p = (k, v) ∨ p ∈ l := by
  induction l with
  | nil => simpa [setProp] using hp
  | cons q rest ih =>
      obtain ⟨k', v'⟩ := q
      by_cases h : k' = k
      · simp only [setProp, h, if_true, List.mem_cons] at hp
        rcases hp with hp | hp
        · exact Or.inl hp
        · exact Or.inr (List.mem_cons_of_mem _ hp)
      · simp only [setProp, h, if_false, List.mem_cons] at hp
        rcases hp with hp | hp
        · exact Or.inr (by rw [hp]; exact List.mem_cons_self _ _)
        · rcases ih hp with e | e
          · exact Or.inl e
          · exact Or.inr (List.mem_cons_of_mem _ e)

theorem wfProps_setProp (k : String) (v : Json) (l : List (String × Json))
    (hl : wfProps l = true) (hv : wf v = true) : wfProps (setProp k v l) = true := by
  obtain ⟨h1, h2⟩ := (wfProps_iff l).1 hl
  refine (wfProps_iff _).2 ⟨?_, ?_⟩
  · rw [keys_setProp]
    split
    · exact h1
    · rename_i hk
      exact List.Nodup.append h1 (List.nodup_singleton k) (by
        intro a ha hb
        simp only [List.mem_singleton] at hb
        exact hk (hb ▸ ha))
  · intro p hp
    rcases mem_setProp k v l p hp with rfl | hp
    · exact hv
    · exact h2 p hp

theorem wfElems_take (n : Nat) : ∀ (xs : List Json), wfElems xs = true →
    wfElems (xs.take n) = true := by
  induction n with
  | zero => intro xs _; simp [wfElems]
  | succ n ih =>
      intro xs h
      cases xs with
      | nil => simp [wfElems]
      | cons x rest =>
          simp only [wfElems, Bool.and_eq_true] at h
          simp only [List.take_succ_cons, wfElems, Bool.and_eq_true]
          exact ⟨h.1, ih rest h.2⟩

theorem getPath_singleton (k : String) (v : Json) (ks : List String) :
    getPath (obj [(k, v)]) (k :: ks) = getPath v ks := by
  simp [getPath, getProp, ownProps, List.lookup]

theorem ne_null_of_getProp (v w : Json) (k : String) (h : getProp v k = some w) :
    v ≠ null := by
  intro e
  subst e
  simp [getProp, ownProps] at h

/-- What the expense path sends when the fetched `finance` is present and the previous
transactions (none counts as the empty list) are the list `L`. -/
theorem expenseUpdate_eq (rt : Runtime) (eng : Engine) (userContext : Json)
    (message : String) (amount : Nat) (finance : Json) (L : List Json)
    (hfin : getProp userContext "finance" = some finance)
    (hL : orEmptyArray (getProp finance "recentTransactions") = arr L) :
    expenseUpdate rt eng userContext message amount
      = Except.ok (obj [("finance",
          obj (setProp "recentTransactions"
            (arr (expenseEntry rt eng message amount :: L.take 9))
            (setProp "totalBalance"
              (numOrNull ((toNumber rt (orZero (getProp finance "totalBalance"))).map
                (fun b => b - amount)))
              (ownProps finance))))]) := by
  have hctx := ne_null_of_getProp _ _ _ hfin
  simp [expenseUpdate, readMember_some _ _ hctx, hfin, optProp, hL, sliceNine]

/-- Claim C15: in the expense path of the finance handler, for every previous
`finance.recentTransactions` list `L` and every detected expense, the list sent to the
context service is the new expense entry followed by the first 9 entries of `L` in their
order; its length is `min(10, |L| + 1)`, never more than 10, and when `|L| = 10` the entry
left out is the last one of `L`. -/
theorem finance_expense_transaction_cap (rt : Runtime) (eng : Engine) (userContext : Json)
    (message : String) (amount : Nat) (finance : Json) (L : List Json)
    (hfin : getProp userContext "finance" = some finance)
    (hL : getProp finance "recentTransactions" = some (arr L)) :
    ∃ body, expenseUpdate rt eng userContext message amount = Except.ok body ∧
      getPath body ["finance", "recentTransactions"]
        = some (arr (expenseEntry rt eng message amount :: L.take 9)) ∧
      (expenseEntry rt eng message amount :: L.take 9).length = min 10 (L.length + 1) ∧
      (expenseEntry rt eng message amount :: L.take 9).length ≤ 10 ∧
      (L.length = 10 → L.take 9 = L.dropLast) := by
  have hL2 : orEmptyArray (getProp finance "recentTransactions") = arr L := by
    simp [hL, orEmptyArray, truthy]
  refine ⟨_, expenseUpdate_eq rt eng userContext message amount finance L hfin hL2,
    ?_, ?_, ?_, ?_⟩
  · rw [getPath_singleton, getPath_cons_obj _ _ _ _ (lookup_setProp_same _ _ _)]
    rfl
  · simp only [List.length_cons, List.length_take]
    omega
  · simp only [List.length_cons, List.length_take]
    omega
  · intro h10
    rw [List.dropLast_eq_take, h10]

/-- Instance of C15: ten previous transactions, an expense of 200. -/
theorem finance_expense_transaction_cap_witness :
    (match expenseUpdate (clockAt 0) exampleEngine
        (obj [("finance", obj [("totalBalance", num 1000), ("recentTransactions",
          arr [num 1, num 2, num 3, num 4, num 5, num 6, num 7, num 8, num 9, num 10])])])
        "I spent 200" 200 with
      | Except.ok body => getPath body ["finance", "recentTransactions"]
      | Except.error _ => none)
      = some (arr (expenseEntry (clockAt 0) exampleEngine "I spent 200" 200
          :: [num 1, num 2, num 3, num 4, num 5, num 6, num 7, num 8, num 9])) := by
  obtain ⟨body, h, h2, _⟩ := finance_expense_transaction_cap (clockAt 0) exampleEngine
    (obj [("finance", obj [("totalBalance", num 1000), ("recentTransactions",
      arr [num 1, num 2, num 3, num 4, num 5, num 6, num 7, num 8, num 9, num 10])])])
    "I spent 200" 200
    (obj [("totalBalance", num 1000), ("recentTransactions",
      arr [num 1, num 2, num 3, num 4, num 5, num 6, num 7, num 8, num 9, num 10])])
    [num 1, num 2, num 3, num 4, num 5, num 6, num 7, num 8, num 9, num 10] rfl rfl
  rw [h]
  exact h2

theorem assignBudgetMax_lookup_ne (v : Json) (doc doc2 : List (String × Json)) (k : String)
    (hk : k ≠ "preferences") (h : assignBudgetMax v doc = Except.ok doc2) :
    doc2.lookup k = doc.lookup k := by
  unfold assignBudgetMax at h
  split at h
  · split at h
    · split at h
      · cases h
        exact lookup_setProp_ne _ _ _ _ hk
      · cases h
        rfl
      · cases h
    · cases h
  · cases h

theorem expireHealth_lookup_ne (rt : Runtime) (doc : List (String × Json)) (k : String)
    (hk : k ≠ "health") : (expireHealth rt doc).lookup k = doc.lookup k := by
  unfold expireHealth
  split
  · split
    · exact lookup_setProp_ne _ _ _ _ hk
    · rfl
  · rfl

/-- Outside `preferences` and `health`, the document that a POST persists is the merged
document. -/
theorem postContext_getProp (rt : Runtime) (current : Json) (updates : Option Json)
    (D : Json) (k : String) (hp : k ≠ "preferences") (hh : k ≠ "health")
    (h : postContext rt current updates = Except.ok D) :
    getProp D k = getProp (deepMerge current (updates.getD null)) k := by
  unfold postContext at h
  simp only at h
  split at h
  · cases h
  · cases h
    exact expireHealth_lookup_ne rt _ k hh
  · split at h
    · cases h
    · rename_i doc hassign
      cases h
      exact (expireHealth_lookup_ne rt _ k hh).trans
        (assignBudgetMax_lookup_ne _ _ _ k hp hassign)

theorem toNumber_orZero_num (rt : Runtime) (b : ℚ) :
    toNumber rt (orZero (some (num b))) = some b := by
  by_cases h : b = 0
  · simp [orZero, truthy, h, toNumber]
  · simp [orZero, truthy, h, toNumber]

theorem wf_expenseEntry (rt : Runtime) (eng : Engine) (message : String) (amount : Nat) :
    wf (expenseEntry rt eng message amount) = true := rfl

/-- Claim C17: in the expense path of the finance handler the balance is not clamped: for
every fetched context (a well-formed object) with balance `b` and every detected amount
`a`, the update sent has `finance.totalBalance = b - a`, negative whenever `a > b`; every
context POST of that update that is answered 200 persists and returns that balance
unchanged, and the POST is answered 200 whenever the stored document has an object at
`preferences.events.budgetRange`. -/
theorem finance_expense_balance_not_clamped (rt rt2 : Runtime) (eng : Engine)
    (ctx : List (String × Json)) (message : String) (amount : Nat)
    (fin : List (String × Json)) (b : ℚ) (L : List Json)
    (hwf : wf (obj ctx) = true)
    (hfin : ctx.lookup "finance" = some (obj fin))
    (hb : fin.lookup "totalBalance" = some (num b))
    (hL : orEmptyArray (fin.lookup "recentTransactions") = arr L) :
    ∃ body, expenseUpdate rt eng (obj ctx) message amount = Except.ok body ∧
      getPath body ["finance", "totalBalance"] = some (num (b - amount)) ∧
      (b < amount → b - amount < 0) ∧
      (∀ (st st2 : Store) (userId : String) (D : Json),
        handler rt2 st ⟨"POST", some userId, some body⟩ = (⟨200, D⟩, st2) →
        getPath D ["finance", "totalBalance"] = some (num (b - amount)) ∧
        st2 (contextKey userId) = some D) ∧
      (∀ (st : Store) (userId : String) (prefs events range : List (String × Json)),
        userId ≠ "" →
        getProp (currentContext st userId) "preferences" = some (obj prefs) →
        prefs.lookup "events" = some (obj events) →
        events.lookup "budgetRange" = some (obj range) →
        ∃ D, handler rt2 st ⟨"POST", some userId, some body⟩
          = (⟨200, D⟩, st.set (contextKey userId) D)) := by
  have hctx : wfProps ctx = true := by simpa [wf] using hwf
  have hfinwf : wfProps fin = true := by
    have := wf_of_lookup ctx "finance" (obj fin) hctx hfin
    simpa [wf] using this
  have hLwf : wfElems L = true := by
    cases hr : fin.lookup "recentTransactions" with
    | none =>
        simp [hr, orEmptyArray] at hL
        subst hL
        rfl
    | some v =>
        by_cases ht : truthy v = true
        · simp [hr, orEmptyArray, ht] at hL
          subst hL
          have := wf_of_lookup fin "recentTransactions" _ hfinwf hr
          simpa [wf] using this
        · simp [hr, orEmptyArray, ht] at hL
          subst hL
          rfl
  have hbal : numOrNull ((toNumber rt (orZero (getProp (obj fin) "totalBalance"))).map
      (fun x => x - amount)) = num (b - amount) := by
    rw [getProp_obj, hb, toNumber_orZero_num]
    rfl
  have hsent := expenseUpdate_eq rt eng (obj ctx) message amount (obj fin) L
    (by rw [getProp_obj]; exact hfin) (by rw [getProp_obj]; exact hL)
  rw [hbal] at hsent
  have hFlook : (setProp "recentTransactions"
      (arr (expenseEntry rt eng message amount :: L.take 9))
      (setProp "totalBalance" (num (b - amount)) (ownProps (obj fin)))).lookup "totalBalance"
        = some (num (b - amount)) := by
    rw [lookup_setProp_ne _ _ _ _ (by decide), lookup_setProp_same]
  have hFwf : wfProps (setProp "recentTransactions"
      (arr (expenseEntry rt eng message amount :: L.take 9))
      (setProp "totalBalance" (num (b - amount)) (ownProps (obj fin)))) = true := by
    apply wfProps_setProp
    · exact wfProps_setProp _ _ _ hfinwf rfl
    · simp only [wf, wfElems, wf_expenseEntry, Bool.true_and]
      exact wfElems_take 9 L hLwf
  generalize setProp "recentTransactions"
      (arr (expenseEntry rt eng message amount :: L.take 9))
      (setProp "totalBalance" (num (b - amount)) (ownProps (obj fin))) = F
    at hsent hFlook hFwf
  have hbodywf : wfProps [("finance", obj F)] = true := by
    simp only [wfProps, wf, hFwf, List.map_nil, List.contains_nil, Bool.not_false,
      Bool.and_self]
  have hbodylook : List.lookup "finance" [("finance", obj F)] = some (obj F) := by
    simp [List.lookup]
  refine ⟨_, hsent, ?_, ?_, ?_, ?_⟩
  · rw [getPath_singleton, getPath_cons_obj _ _ _ _ hFlook]
    rfl
  · intro h
    linarith
  · intro st st2 userId D h
    obtain ⟨_, hpost, hst⟩ := (handler_post_ok_iff rt2 st st2 userId _ D).1 h
    obtain ⟨doc, hD⟩ := postContext_ok_obj rt2 _ _ D hpost
    refine ⟨?_, by rw [hst]; simp [Store.set]⟩
    have h1 := postContext_getProp rt2 _ _ D "finance" (by decide) (by decide) hpost
    simp only [Option.getD_some] at h1
    rw [deepMerge_obj, getProp_obj,
      lookup_mergeProps_of_lookup _ "finance" _ _ _ hbodywf hbodylook] at h1
    simp only [assigned, isPlainObject, if_true] at h1
    rw [deepMerge_obj] at h1
    subst hD
    rw [getProp_obj] at h1
    rw [getPath_cons_obj _ _ _ _ h1,
      getPath_cons_obj _ _ _ _
        (lookup_mergeProps_of_lookup _ "totalBalance" _ _ _ hFwf hFlook)]
    simp [getPath, assigned, isPlainObject]
  · intro st userId prefs events range hid hprefs hevents hrange
    have hfb : financeBalance (some (obj [("finance", obj F)]))
        = Except.ok (some (num (b - amount))) := by
      simp [financeBalance, getProp_obj, List.lookup, truthy, hFlook]
    have hpr : getProp (deepMerge (currentContext st userId) (obj [("finance", obj F)]))
        "preferences" = some (obj prefs) := by
      rw [deepMerge_obj, getProp_obj, lookup_mergeProps_of_not_mem _ _ _ _
        (by simp [keys])]
      exact hprefs
    obtain ⟨D, hD, _⟩ := post_derives_events_budget rt2 st userId
      (obj [("finance", obj F)]) (b - amount) prefs events range hid hfb hpr hevents hrange
    exact ⟨D, hD⟩

/-- Instance of C17: a balance of 100 and an expense of 250; the update carries the balance
`100 - 250` and a user with nothing stored gets it persisted as it is. -/
theorem finance_expense_balance_not_clamped_witness :
    (match expenseUpdate (clockAt 0) exampleEngine
        (obj [("finance", obj [("totalBalance", num 100)])]) "I spent 250" 250 with
      | Except.ok body =>
          getPath (handler (clockAt 0) (fun _ => none)
            ⟨"POST", some "alice", some body⟩).1.body ["finance", "totalBalance"]
      | Except.error _ => none) = some (num (100 - ((250 : Nat) : ℚ))) := by
  obtain ⟨body, h, _, _, hpersist, hexists⟩ := finance_expense_balance_not_clamped
    (clockAt 0) (clockAt 0) exampleEngine [("finance", obj [("totalBalance", num 100)])]
    "I spent 250" 250 [("totalBalance", num 100)] 100 [] (by decide) rfl rfl rfl
  obtain ⟨D, hD⟩ := hexists (fun _ => none) "alice" _ _ _ (by decide) rfl rfl rfl
  rw [h]
  simp only [hD]
  exact (hpersist _ _ _ _ hD).1

/-! ## The exported helpers of `context.js` (C16, C18, C19) and the missing user (C20) -/

theorem getPath_two (v : Json) (k1 k2 : String) :
    getPath v [k1, k2] = optProp (getProp v k1) k2 := by
  cases h1 : getProp v k1 with
  | none => simp [getPath, optProp, h1]
  | some w =>
      cases h2 : getProp w k2 with
      | none => simp [getPath, optProp, h1, h2]
      | some x => simp [getPath, optProp, h1, h2]

theorem ownProps_obj (kvs : List (String × Json)) : ownProps (obj kvs) = kvs := rfl

theorem orZero_cost (ev : List (String × Json)) (c : ℚ)
    (hc : ev.lookup "cost" = some (num c) ∨ (ev.lookup "cost" = none ∧ c = 0)) :
    orZero (getProp (obj ev) "cost") = num c := by
  rw [getProp_obj]
  rcases hc with h | ⟨h, h0⟩
  · by_cases hz : c = 0
    · simp [h, orZero, truthy, hz]
    · simp [h, orZero, truthy, hz]
  · simp [h, orZero, h0]

/-- What `updateEventsHistory` does when the values it reads are there: for every stored
or default context that holds the values the function
reads (an `eventsHistory` with an `attended` list and a numeric `budgetSpent`, a `finance`
with a numeric `totalBalance` and an `expenses` list) and every event record with cost `c`
(a missing cost counts as 0), `updateEventsHistory` stores a document with
`finance.totalBalance = max(0, old - c)`, which is not negative, `eventsHistory.attended` =
the old list followed by the event, `finance.expenses` = the old list followed by one
entertainment expense of amount `c`, and `eventsHistory.budgetSpent` = old + `c`; it
returns success with `newBalance` equal to the stored balance. -/
theorem updateEventsHistory_records_event (rt : Runtime) (eng : Engine) (st : Store)
    (userId : String) (ev eh fin : List (String × Json)) (c b spent : ℚ) (A E : List Json)
    (heh : getProp (currentContext st userId) "eventsHistory" = some (obj eh))
    (hA : eh.lookup "attended" = some (arr A))
    (hspent : eh.lookup "budgetSpent" = some (num spent))
    (hfin : getProp (currentContext st userId) "finance" = some (obj fin))
    (hb : fin.lookup "totalBalance" = some (num b))
    (hE : fin.lookup "expenses" = some (arr E))
    (hc : ev.lookup "cost" = some (num c) ∨ (ev.lookup "cost" = none ∧ c = 0)) :
    ∃ D, updateEventsHistory rt eng st userId (some (obj ev))
        = (⟨true, some (num (max 0 (b - c)))⟩, st.set (contextKey userId) D) ∧
      getPath D ["finance", "totalBalance"] = some (num (max 0 (b - c))) ∧
      0 ≤ max 0 (b - c) ∧
      getPath D ["eventsHistory", "attended"] = some (arr (A ++ [obj ev])) ∧
      getPath D ["finance", "expenses"]
        = some (arr (E ++ [obj [("type", str "entertainment"), ("amount", num c),
            ("description", str ("Event: " ++ eng.display (ev.lookup "name"))),
            ("date", str (eng.isoString rt.now))]])) ∧
      getPath D ["eventsHistory", "budgetSpent"] = some (num (spent + c)) := by
  have hcost : orZero (List.lookup "cost" ev) = num c := by
    rw [← getProp_obj]
    exact orZero_cost ev c hc
  obtain ⟨D, hDdef⟩ : ∃ D, D = obj (setProp "finance"
          (obj (setProp "expenses"
            (arr (E ++ [obj [("type", str "entertainment"), ("amount", num c),
              ("description", str ("Event: " ++ eng.display (ev.lookup "name"))),
              ("date", str (eng.isoString rt.now))]]))
            (setProp "totalBalance" (num (max 0 (b - c))) fin)))
          (setProp "eventsHistory"
            (obj (setProp "lastEventDate" (str (eng.isoString rt.now))
              (setProp "budgetSpent" (num (spent + c))
                (setProp "attended" (arr (A ++ [obj ev])) eh))))
            (ownProps (currentContext st userId)))) := ⟨_, rfl⟩
  have hdoc : eventsHistoryDocument rt eng (currentContext st userId) (some (obj ev))
      = Except.ok D := by
    rw [hDdef]
    simp [eventsHistoryDocument, heh, hfin, readMember, getProp_obj, hA, hspent, hb, hE,
      hcost, spreadIterable, toNumberOpt, toNumber, jsAdd, ownProps_obj]
  have hbalance : getPath D ["finance", "totalBalance"] = some (num (max 0 (b - c))) := by
    rw [hDdef, getPath_cons_obj _ _ _ _ (lookup_setProp_same _ _ _),
      getPath_cons_obj _ _ _ _
        ((lookup_setProp_ne _ _ _ _ (by decide)).trans (lookup_setProp_same _ _ _))]
    rfl
  refine ⟨D, ?_, hbalance, le_max_left _ _, ?_, ?_, ?_⟩
  · simp only [updateEventsHistory, hdoc]
    rw [← getPath_two, hbalance]
  · rw [hDdef, getPath_cons_obj _ _ _ _
        ((lookup_setProp_ne _ _ _ _ (by decide)).trans (lookup_setProp_same _ _ _)),
      getPath_cons_obj _ _ _ _
        ((lookup_setProp_ne _ _ _ _ (by decide)).trans
          ((lookup_setProp_ne _ _ _ _ (by decide)).trans (lookup_setProp_same _ _ _)))]
    rfl
  · rw [hDdef, getPath_cons_obj _ _ _ _ (lookup_setProp_same _ _ _),
      getPath_cons_obj _ _ _ _ (lookup_setProp_same _ _ _)]
    rfl
  · rw [hDdef, getPath_cons_obj _ _ _ _
        ((lookup_setProp_ne _ _ _ _ (by decide)).trans (lookup_setProp_same _ _ _)),
      getPath_cons_obj _ _ _ _
        ((lookup_setProp_ne _ _ _ _ (by decide)).trans (lookup_setProp_same _ _ _))]
    rfl

/-- Instance: a user with nothing stored (balance 0) attends an event that costs
300; the stored balance is `max(0, 0 - 300)`. -/
theorem updateEventsHistory_records_event_witness :
    (updateEventsHistory (clockAt 0) exampleEngine (fun _ => none) "alice"
        (some (obj [("name", str "Concert"), ("cost", num 300)]))).1.success = true ∧
    (updateEventsHistory (clockAt 0) exampleEngine (fun _ => none) "alice"
        (some (obj [("name", str "Concert"), ("cost", num 300)]))).1.newBalance
      = some (num (max 0 (0 - 300))) := by
  obtain ⟨D, h, _⟩ := updateEventsHistory_records_event (clockAt 0) exampleEngine
    (fun _ => none) "alice" [("name", str "Concert"), ("cost", num 300)] _ _ 300 0 0 [] []
    rfl rfl rfl rfl rfl rfl (Or.inl rfl)
  rw [h]
  exact ⟨rfl, rfl⟩

theorem toNumber_num (rt : Runtime) (q : ℚ) : toNumber rt (num q) = some q := rfl

/-- What `canAfford` is when the context gives numbers for the balance and for the event
budget: with a budget `m` other than 0 it is `cost ≤ balance ∧ cost ≤ m`; with a budget of
0 the event budget used is 5000. -/
theorem checkEventAffordability_canAfford (rt : Runtime) (eng : Engine) (st : Store)
    (userId : String) (cost b m : ℚ)
    (hb : getPath (currentContext st userId) ["finance", "totalBalance"] = some (num b))
    (hm : optProp (optProp (optProp (getProp (currentContext st userId) "preferences")
      "events") "budgetRange") "max" = some (num m)) :
    (m ≠ 0 → ((checkEventAffordability rt eng st userId cost).1.canAfford = true
      ↔ cost ≤ b ∧ cost ≤ m)) ∧
    (m = 0 → ((checkEventAffordability rt eng st userId cost).1.canAfford = true
      ↔ cost ≤ b ∧ cost ≤ 5000)) ∧
    (checkEventAffordability rt eng st userId cost).2 = st := by
  rw [getPath_two] at hb
  have hbal : toNumber rt (orZero (optProp (getProp (currentContext st userId) "finance")
      "totalBalance")) = some b := by
    rw [hb, toNumber_orZero_num]
  refine ⟨?_, ?_, rfl⟩
  · intro hne
    simp [checkEventAffordability, geNumber, leNumber, hbal, hm, orFiveThousand, truthy, hne,
      toNumber_num]
  · intro h0
    simp [checkEventAffordability, geNumber, leNumber, hbal, hm, orFiveThousand, truthy, h0,
      toNumber_num]

/-- Claim C18, evaluated on the code: a user sets a balance of 1000 and then an event
budget of 0 (two POSTs to the context service); the stored context has
`finance.totalBalance = 1000` and `preferences.events.budgetRange.max = 0`.  For the cost
1 = `budgetRange.max + 1`, with a sufficient balance, `checkEventAffordability` returns
`canAfford = true` with `eventBudget = 5000`: the read `budgetRange.max || 5000` takes the
budget 0 for a missing one. -/
theorem checkEventAffordability_zero_budget :
    getPath (currentContext
        (handler (clockAt 0)
          (handler (clockAt 0) (fun _ => none) ⟨"POST", some "alice",
            some (obj [("finance", obj [("totalBalance", num 1000)])])⟩).2
          ⟨"POST", some "alice",
            some (obj [("preferences", obj [("events", obj [("budgetRange",
              obj [("max", num 0)])])])])⟩).2 "alice")
        ["preferences", "events", "budgetRange", "max"] = some (num 0) ∧
    getPath (currentContext
        (handler (clockAt 0)
          (handler (clockAt 0) (fun _ => none) ⟨"POST", some "alice",
            some (obj [("finance", obj [("totalBalance", num 1000)])])⟩).2
          ⟨"POST", some "alice",
            some (obj [("preferences", obj [("events", obj [("budgetRange",
              obj [("max", num 0)])])])])⟩).2 "alice")
        ["finance", "totalBalance"] = some (num 1000) ∧
    (checkEventAffordability (clockAt 0) exampleEngine
        (handler (clockAt 0)
          (handler (clockAt 0) (fun _ => none) ⟨"POST", some "alice",
            some (obj [("finance", obj [("totalBalance", num 1000)])])⟩).2
          ⟨"POST", some "alice",
            some (obj [("preferences", obj [("events", obj [("budgetRange",
              obj [("max", num 0)])])])])⟩).2 "alice" 1).1.canAfford = true ∧
    (checkEventAffordability (clockAt 0) exampleEngine
        (handler (clockAt 0)
          (handler (clockAt 0) (fun _ => none) ⟨"POST", some "alice",
            some (obj [("finance", obj [("totalBalance", num 1000)])])⟩).2
          ⟨"POST", some "alice",
            some (obj [("preferences", obj [("events", obj [("budgetRange",
              obj [("max", num 0)])])])])⟩).2 "alice" 1).1.eventBudget = num 5000 :=
  ⟨rfl, rfl, by decide, rfl⟩

theorem recommendationsFor_eq (eng : Engine) (userContext f : Json)
    (prefs events fin loc eh range : List (String × Json)) (A I : List Json)
    (hf : f ≠ null)
    (hprefs : getProp userContext "preferences" = some (obj prefs))
    (hevents : prefs.lookup "events" = some (obj events))
    (hrange : events.lookup "budgetRange" = some (obj range))
    (hfin : getProp userContext "finance" = some (obj fin))
    (hloc : getProp userContext "location" = some (obj loc))
    (heh : getProp userContext "eventsHistory" = some (obj eh))
    (hA : eh.lookup "attended" = some (arr A))
    (hI : (match getProp f "interests" with
      | some v => some v
      | none => events.lookup "interests") = some (arr I)) :
    recommendationsFor eng userContext (some f)
      = Except.ok ⟨some (arr I),
          (match getProp f "maxPrice" with
            | some v => some v
            | none => range.lookup "max"),
          (match getProp f "location" with
            | some v => some v
            | none => loc.lookup "current"),
          fin.lookup "totalBalance", some (obj range), loc.lookup "current",
          events.lookup "interests", some (num A.length),
          "Looking for " ++ joinDisplay eng I ++ " events in "
            ++ eng.display (match getProp f "location" with
                | some v => some v
                | none => loc.lookup "current")
            ++ " under ₹" ++ eng.display (match getProp f "maxPrice" with
                | some v => some v
                | none => range.lookup "max")⟩ := by
  unfold recommendationsFor
  simp only [Option.getD_some]
  simp only [hprefs, readMember, getProp_obj, hevents, hrange, hfin, hloc, heh, hA]
  cases hm : getProp f "maxPrice" <;> simp only [hI] <;> rfl

/-- What `getEventRecommendations` does when the sub-trees it reads are there: for every
context that holds the sub-trees the function reads and every
filters argument other than `null` for which the effective interests are a list,
`getEventRecommendations` returns `filters.interests`, `filters.maxPrice` and
`filters.location` each equal to the supplied filter value when one is supplied and
otherwise to the context's `preferences.events.interests`,
`preferences.events.budgetRange.max` and `location.current`; the summary string is built
from those three effective values, and the store is left as it was. -/
theorem getEventRecommendations_effective_filters (eng : Engine) (st : Store)
    (userId : String) (filters : Option Json)
    (prefs events fin loc eh range : List (String × Json)) (A I : List Json)
    (hfilters : filters ≠ some null)
    (hprefs : getProp (currentContext st userId) "preferences" = some (obj prefs))
    (hevents : prefs.lookup "events" = some (obj events))
    (hrange : events.lookup "budgetRange" = some (obj range))
    (hfin : getProp (currentContext st userId) "finance" = some (obj fin))
    (hloc : getProp (currentContext st userId) "location" = some (obj loc))
    (heh : getProp (currentContext st userId) "eventsHistory" = some (obj eh))
    (hA : eh.lookup "attended" = some (arr A))
    (hI : (match getProp (filters.getD (obj [])) "interests" with
      | some v => some v
      | none => events.lookup "interests") = some (arr I)) :
    ∃ r, getEventRecommendations eng st userId filters = (Except.ok r, st) ∧
      (∀ v, getProp (filters.getD (obj [])) "interests" = some v → r.interests = some v) ∧
      (getProp (filters.getD (obj [])) "interests" = none →
        r.interests = events.lookup "interests") ∧
      (∀ v, getProp (filters.getD (obj [])) "maxPrice" = some v → r.maxPrice = some v) ∧
      (getProp (filters.getD (obj [])) "maxPrice" = none →
        r.maxPrice = range.lookup "max") ∧
      (∀ v, getProp (filters.getD (obj [])) "location" = some v → r.location = some v) ∧
      (getProp (filters.getD (obj [])) "location" = none →
        r.location = loc.lookup "current") ∧
      r.interests = some (arr I) ∧
      r.recommendation = "Looking for " ++ joinDisplay eng I ++ " events in "
        ++ eng.display r.location ++ " under ₹" ++ eng.display r.maxPrice := by
  have hf : filters.getD (obj []) ≠ null := by
    cases filters with
    | none => simp
    | some v =>
        intro e
        simp only [Option.getD_some] at e
        exact hfilters (by rw [e])
  have hsame : recommendationsFor eng (currentContext st userId) filters
      = recommendationsFor eng (currentContext st userId) (some (filters.getD (obj []))) := by
    cases filters <;> rfl
  have hrec := recommendationsFor_eq eng (currentContext st userId) (filters.getD (obj []))
    prefs events fin loc eh range A I hf hprefs hevents hrange hfin hloc heh hA hI
  refine ⟨_, by rw [getEventRecommendations, hsame, hrec], ?_, ?_, ?_, ?_, ?_, ?_,
    rfl, rfl⟩
  · intro v hv
    simp only [hv] at hI
    exact hI.symm ▸ rfl
  · intro hv
    simp only [hv] at hI
    exact hI.symm ▸ rfl
  · intro v hv
    simp only [hv]
  · intro hv
    simp only [hv]
  · intro v hv
    simp only [hv]
  · intro hv
    simp only [hv]

/-- Instance: a user with nothing stored asks with the filter `{maxPrice: 300}`. -/
theorem getEventRecommendations_effective_filters_witness :
    (match (getEventRecommendations exampleEngine (fun _ => none) "alice"
        (some (obj [("maxPrice", num 300)]))).1 with
      | Except.ok r => (r.maxPrice, r.location)
      | Except.error _ => (none, none)) = (some (num 300), some (str "Chennai")) := by
  obtain ⟨r, h, _, _, h3, _, _, h6, _⟩ := getEventRecommendations_effective_filters
    exampleEngine (fun _ => none) "alice" (some (obj [("maxPrice", num 300)]))
    _ _ _ _ _ _ _ _ (by simp) rfl rfl rfl rfl rfl rfl rfl rfl
  rw [h]
  simp only [h3 (num 300) rfl, h6 rfl]
  rfl

/-- Claim C20: for every request to the context handler whose query has no `userId` (or an
empty one), whatever the method and the body, the response is 400 with the same body
whatever the store holds, and the store after the request is the store before it. -/
theorem missing_user_id_rejected (rt : Runtime) (st : Store) (method : String)
    (body : Option Json) :
    handler rt st ⟨method, none, body⟩ = (⟨400, errorBody "User ID is required"⟩, st) ∧
    handler rt st ⟨method, some "", body⟩ = (⟨400, errorBody "User ID is required"⟩, st) :=
  ⟨rfl, rfl⟩

/-! ## The session gate of the bots, the debug write and the context GET (C21, C23, C24) -/

/-- With a session and a body that is an object, the events handler fetches the context of
the user of the session and reaches its reply section. -/
theorem eventsHandler_with_session (rt : Runtime)
    (reply : Json → Option Json → Option String) (st : Store) (userId : String)
    (kvs : List (String × Json)) :
    (eventsHandler rt reply st ⟨"POST", some userId, some (obj kvs)⟩).calls
      = [Call.contextGet userId, Call.generate] := rfl

/-- With a session the bots do call their collaborators: a health request that reports a
fever fetches the context, posts the onset record and reaches the reply section; a finance
request that reports an expense fetches the context, reaches the reply section and posts
the transaction. -/
theorem bots_call_with_session :
    (healthHandler (clockAt 0) exampleEngine (fun _ _ => some "ok") (fun _ => none)
      ⟨"POST", some "alice", some (obj [("message", str "I have a fever")])⟩).status = 200 ∧
    ((healthHandler (clockAt 0) exampleEngine (fun _ _ => some "ok") (fun _ => none)
      ⟨"POST", some "alice", some (obj [("message", str "I have a fever")])⟩).calls.map
        (fun call => match call with
          | Call.contextGet _ => "GET"
          | Call.contextPost _ _ => "POST"
          | Call.generate => "generate")) = ["GET", "POST", "generate"] ∧
    getPath (currentContext
      (healthHandler (clockAt 0) exampleEngine (fun _ _ => some "ok") (fun _ => none)
        ⟨"POST", some "alice", some (obj [("message", str "I have a fever")])⟩).store "alice")
      ["health", "activeIllness"] = some (str "reported_symptoms") ∧
    ((financeHandler (clockAt 0) exampleEngine (fun _ _ => some "ok") (fun _ => none)
      ⟨"POST", some "alice", some (obj [("userMessage", str "I spent ₹1000")])⟩).calls.map
        (fun call => match call with
          | Call.contextGet _ => "GET"
          | Call.contextPost _ _ => "POST"
          | Call.generate => "generate")) = ["GET", "generate", "POST"] :=
  ⟨rfl, rfl, rfl, rfl⟩

/-- Claim C21: for every POST request that carries no valid session, whatever its body,
the store and the reply section, the health, finance and events handlers each answer 401,
make no call (no context fetch, no context update, no generation) and leave the store as it
was. -/
theorem bots_reject_missing_session (rt : Runtime) (eng : Engine)
    (reply : Json → String → Option String)
    (eventsReply : Json → Option Json → Option String) (st : Store) (body : Option Json) :
    healthHandler rt eng reply st ⟨"POST", none, body⟩ = ⟨401, [], st⟩ ∧
    financeHandler rt eng reply st ⟨"POST", none, body⟩ = ⟨401, [], st⟩ ∧
    eventsHandler rt eventsReply st ⟨"POST", none, body⟩ = ⟨401, [], st⟩ :=
  ⟨rfl, rfl, rfl⟩

/-- What the debug handler stores for a request with a session: the current document with
its `health` replaced by the `health` of the test update. -/
theorem debugHandler_stores_spread (rt : Runtime) (eng : Engine) (st : Store)
    (method userId : String) (body : Option Json) :
    (debugHandler rt eng st ⟨method, some userId, body⟩).2 (contextKey userId)
      = some (obj (setProp "health"
          (obj [("activeIllness", str "test_fever"),
            ("symptoms", arr [str "fever", str "headache"]),
            ("currentCondition", str "sick"),
            ("startedAt", str (eng.isoString rt.now))])
          (ownProps (debugContext st userId)))) := by
  simp [debugHandler, Store.set, testUpdate, spreadInto, ownProps]

/-- Claim C23, evaluated on the code: a user whose stored document lists the allergy
`peanuts` (and the default `medications`) calls the debug handler.  The document stored
afterwards has the `health` of the test update and nothing else under `health`:
`health.allergies` and `health.medications` are gone, where `deepMerge` of the same
document and update keeps them. -/
theorem debug_handler_drops_health_fields :
    getPath (currentContext (allergyStore ["peanuts"]) "alice") ["health", "allergies"]
      = some (arr [str "peanuts"]) ∧
    (debugHandler (clockAt 0) exampleEngine (allergyStore ["peanuts"])
        ⟨"GET", some "alice", none⟩).1.status = 200 ∧
    getPath (currentContext (debugHandler (clockAt 0) exampleEngine
        (allergyStore ["peanuts"]) ⟨"GET", some "alice", none⟩).2 "alice")
        ["health", "allergies"] = none ∧
    getPath (currentContext (debugHandler (clockAt 0) exampleEngine
        (allergyStore ["peanuts"]) ⟨"GET", some "alice", none⟩).2 "alice")
        ["health", "medications"] = none ∧
    getPath (currentContext (debugHandler (clockAt 0) exampleEngine
        (allergyStore ["peanuts"]) ⟨"GET", some "alice", none⟩).2 "alice") ["health"]
      = getPath (testUpdate (clockAt 0) exampleEngine) ["health"] ∧
    getPath (deepMerge (currentContext (allergyStore ["peanuts"]) "alice")
        (testUpdate (clockAt 0) exampleEngine)) ["health", "allergies"]
      = some (arr [str "peanuts"]) ∧
    getPath (deepMerge (currentContext (allergyStore ["peanuts"]) "alice")
        (testUpdate (clockAt 0) exampleEngine)) ["health", "medications"]
      = some (arr []) :=
  ⟨rfl, rfl, rfl, rfl, rfl, rfl, rfl⟩

theorem handler_get_store (rt : Runtime) (st : Store) (userId : Option String)
    (body : Option Json) : (handler rt st ⟨"GET", userId, body⟩).2 = st := by
  cases userId with
  | none => rfl
  | some u =>
      by_cases h : u = ""
      · simp [handler, h]
      · simp [handler, h]

theorem handler_get_response (rt rt' : Runtime) (st : Store) (userId : Option String)
    (body body' : Option Json) :
    (handler rt st ⟨"GET", userId, body⟩).1 = (handler rt' st ⟨"GET", userId, body'⟩).1 := by
  cases userId with
  | none => rfl
  | some u =>
      by_cases h : u = ""
      · simp [handler, h]
      · simp [handler, h]

theorem gets_leave_store (st : Store) (gets : List (Runtime × Option String × Option Json)) :
    gets.foldl (fun s g => (handler g.1 s ⟨"GET", g.2.1, g.2.2⟩).2) st = st := by
  induction gets generalizing st with
  | nil => rfl
  | cons g rest ih =>
      rw [List.foldl_cons, handler_get_store]
      exact ih st

/-- Claim C24: a context GET never changes the store: for every store, user, clock and
body, the store after the GET is the store before it; so after any sequence of GETs (for
any users, at any instants) the store is the one before them, and a GET for a user then
returns the same response as before the sequence. -/
theorem get_leaves_store_unchanged (st : Store) (userId : Option String)
    (rt rt' : Runtime) (body body' : Option Json)
    (gets : List (Runtime × Option String × Option Json)) :
    (handler rt st ⟨"GET", userId, body⟩).2 = st ∧
    gets.foldl (fun s g => (handler g.1 s ⟨"GET", g.2.1, g.2.2⟩).2) st = st ∧
    (handler rt' (gets.foldl (fun s g => (handler g.1 s ⟨"GET", g.2.1, g.2.2⟩).2) st)
        ⟨"GET", userId, body'⟩).1 = (handler rt st ⟨"GET", userId, body⟩).1 := by
  refine ⟨handler_get_store rt st userId body, gets_leave_store st gets, ?_⟩
  rw [gets_leave_store]
  exact handler_get_response rt' rt st userId body' body

/-! ## What the weather handler and the debug handler do (C22, C23) -/

theorem fallback_cons (rt : Runtime) (weatherData : Option Json) :
    ∃ item items, getFallbackOutfitRecommendations rt weatherData = item :: items := by
  simp only [getFallbackOutfitRecommendations]
  split_ifs
  · exact ⟨_, _, rfl⟩
  · exact ⟨_, _, rfl⟩
  · exact ⟨_, _, rfl⟩
  · exact ⟨_, _, rfl⟩

theorem validateItems_cons (index : Nat) (item : Json) (rest validated : List Json)
    (h : validateItems index (item :: rest) = Except.ok validated) :
    ∃ first others, validated = first :: others := by
  cases item <;> simp only [validateItems] at h
  · cases h
  all_goals
    split at h
    · cases h
    · injection h with h
      exact ⟨_, _, h.symm⟩

/-- A POST that carries `weatherData` (truthy), `longitude` and `latitude` is answered 200
with a list of at least one item, whatever the generation gives. -/
theorem weatherHandler_post (rt : Runtime) (generated : Option (Option Json))
    (session : Option String) (kvs : List (String × Json))
    (weatherData longitude latitude : Json)
    (hw : kvs.lookup "weatherData" = some weatherData) (htruthy : truthy weatherData = true)
    (hlon : kvs.lookup "longitude" = some longitude)
    (hlat : kvs.lookup "latitude" = some latitude) :
    (weatherHandler rt generated ⟨"POST", session, some (obj kvs)⟩).status = 200 ∧
    ∃ item items,
      getProp (weatherHandler rt generated ⟨"POST", session, some (obj kvs)⟩).body "message"
        = some (arr (item :: items)) := by
  obtain ⟨f, fs, hf⟩ := fallback_cons rt (some weatherData)
  have hfb : (fallbackResponse rt (some weatherData)).status = 200 ∧
      ∃ item items, getProp (fallbackResponse rt (some weatherData)).body "message"
        = some (arr (item :: items)) :=
    ⟨rfl, f, fs, by simp [fallbackResponse, getProp, ownProps, hf]⟩
  have hstep : weatherHandler rt generated ⟨"POST", session, some (obj kvs)⟩
      = (match generated with
          | none => fallbackResponse rt (some weatherData)
          | some parsed =>
              match validateItems 0
                (match (match parsed with
                    | some v => v
                    | none => arr (getFallbackOutfitRecommendations rt (some weatherData))) with
                  | arr (x :: xs) => x :: xs
                  | _ => getFallbackOutfitRecommendations rt (some weatherData)) with
              | Except.ok validated =>
                  ⟨200, obj [("message", arr validated), ("success", .bool true)]⟩
              | Except.error _ => fallbackResponse rt (some weatherData)) := by
    simp [weatherHandler, readMember, getProp, ownProps, hw, hlon, hlat, truthyOpt, htruthy]
  rw [hstep]
  cases generated with
  | none => exact hfb
  | some parsed =>
      simp only
      have hitems : ∃ x xs, (match (match parsed with
                    | some v => v
                    | none => arr (getFallbackOutfitRecommendations rt (some weatherData))) with
                  | arr (x :: xs) => x :: xs
                  | _ => getFallbackOutfitRecommendations rt (some weatherData)) = x :: xs := by
        split
        · exact ⟨_, _, rfl⟩
        · exact ⟨f, fs, hf⟩
      obtain ⟨x, xs, hx⟩ := hitems
      rw [hx]
      cases hv : validateItems 0 (x :: xs) with
      | error e => exact hfb
      | ok validated =>
          obtain ⟨y, ys, hy⟩ := validateItems_cons 0 x xs validated hv
          subst hy
          exact ⟨rfl, y, ys, rfl⟩

/-- Claim C22, evaluated on the code: a POST without a session that carries `weatherData`,
`longitude` and `latitude` is answered 200 with outfit recommendations, both when the
generation fails (the fallback list) and when it gives a list (the validated items). -/
theorem weather_answers_without_session :
    weatherHandler (clockAt 0) none ⟨"POST", none,
        some (obj [("weatherData", obj [("current",
          obj [("temperature2m", num 32), ("precipitation", num 0)])]),
          ("longitude", num 80), ("latitude", num 13)])⟩
      = ⟨200, obj [("message", arr hotOutfits),
          ("note", str "Using fallback outfit recommendations due to AI service issue"),
          ("success", .bool true)]⟩ ∧
    weatherHandler (clockAt 0) (some (some (arr [obj [("Cloth Name", str "Linen Shirt")]])))
        ⟨"POST", none,
        some (obj [("weatherData", obj [("current",
          obj [("temperature2m", num 32), ("precipitation", num 0)])]),
          ("longitude", num 80), ("latitude", num 13)])⟩
      = ⟨200, obj [("message", arr [obj [("Cloth Name", str "Linen Shirt"),
            ("Category", str "General"),
            ("Why is it beneficial", str "Suitable for current weather conditions"),
            ("Price", str "₹500-₹2000"), ("Popularity", str "Medium")]]),
          ("success", .bool true)]⟩ :=
  ⟨rfl, rfl⟩

/-- Claim C22, amended: the weather handler does not look for a session.  For every
request the response is the one given to the same request without a session, and a POST
that carries `weatherData`, `longitude` and `latitude` is answered 200 with a list of
outfit recommendations whether or not the request carries a session. -/
theorem weather_response_independent_of_session (rt : Runtime)
    (generated : Option (Option Json)) (session : Option String)
    (kvs : List (String × Json)) (weatherData longitude latitude : Json)
    (hw : kvs.lookup "weatherData" = some weatherData) (htruthy : truthy weatherData = true)
    (hlon : kvs.lookup "longitude" = some longitude)
    (hlat : kvs.lookup "latitude" = some latitude) :
    (∀ (method : String) (body : Option Json),
      weatherHandler rt generated ⟨method, session, body⟩
        = weatherHandler rt generated ⟨method, none, body⟩) ∧
    (weatherHandler rt generated ⟨"POST", session, some (obj kvs)⟩).status = 200 ∧
    ∃ item items,
      getProp (weatherHandler rt generated ⟨"POST", session, some (obj kvs)⟩).body "message"
        = some (arr (item :: items)) :=
  ⟨fun _ _ => rfl,
    weatherHandler_post rt generated session kvs weatherData longitude latitude hw htruthy
      hlon hlat⟩

/-- Instance of C22 as amended: a POST without a session, the generation failing. -/
theorem weather_response_independent_of_session_witness :
    (weatherHandler (clockAt 0) none ⟨"POST", none,
        some (obj [("weatherData", obj [("current", obj [("temperature2m", num 10)])]),
          ("longitude", num 80), ("latitude", num 13)])⟩).status = 200 :=
  (weather_response_independent_of_session (clockAt 0) none none
    [("weatherData", obj [("current", obj [("temperature2m", num 10)])]),
      ("longitude", num 80), ("latitude", num 13)]
    (obj [("current", obj [("temperature2m", num 10)])]) (num 80) (num 13)
    rfl rfl rfl rfl).2.1

/-- Claim C23, amended: for every store and every request with a session, the debug
handler answers 200 and stores the shallow spread of the current document and its test
update: the stored `health` is the `health` of the test update, and every other top-level
entry is the one of the current document. -/
theorem debug_handler_stores_shallow_spread (rt : Runtime) (eng : Engine) (st : Store)
    (method userId : String) (body : Option Json) (k : String) (hk : k ≠ "health") :
    (debugHandler rt eng st ⟨method, some userId, body⟩).1.status = 200 ∧
    ∃ D, (debugHandler rt eng st ⟨method, some userId, body⟩).2 (contextKey userId) = some D ∧
      getProp D "health" = getProp (testUpdate rt eng) "health" ∧
      getProp D k = getProp (debugContext st userId) k := by
  refine ⟨rfl, _, debugHandler_stores_spread rt eng st method userId body, ?_, ?_⟩
  · rw [getProp_obj, lookup_setProp_same]
    rfl
  · rw [getProp_obj, lookup_setProp_ne _ _ _ _ hk]
    rfl

/-- Instance of C23 as amended: the stored `finance` of a user who calls the debug handler
is the one of the current document. -/
theorem debug_handler_stores_shallow_spread_witness :
    (debugHandler (clockAt 0) exampleEngine (allergyStore ["peanuts"])
      ⟨"GET", some "alice", none⟩).1.status = 200 :=
  (debug_handler_stores_shallow_spread (clockAt 0) exampleEngine (allergyStore ["peanuts"])
    "GET" "alice" none "finance" (by decide)).1

/-! ## The events budget, the expense amounts, the travel expense and the two affordability
checks (C25, C26, C28, C29, C30) -/

/-- The document of `balanceStore 10000`: the balance is 10000 and the POST has derived an
events budget of 2000. -/
theorem balanceStore_ten_thousand :
    getPath (currentContext (balanceStore 10000) "alice") ["finance", "totalBalance"]
      = some (num 10000) ∧
    getPath (currentContext (balanceStore 10000) "alice")
      ["preferences", "events", "budgetRange", "max"] = some (num 2000) := by
  refine ⟨rfl, ?_⟩
  have h : getPath (currentContext (balanceStore 10000) "alice")
      ["preferences", "events", "budgetRange", "max"]
      = some (num (min 5000 (max 0 (10000 * 0.2)))) := rfl
  rw [h]
  norm_num

/-- Claim C25, evaluated on the code: a user sets a balance of 10000 (the POST derives the
events budget 2000) and `updateEventsHistory` then records an event of cost 9000.  The
stored balance becomes `max(0, 10000 - 9000) = 1000`, and the stored
`preferences.events.budgetRange.max` is still 2000, where
`clamp(0, 5000, 0.2 × 1000)` is 200. -/
theorem updateEventsHistory_keeps_events_budget :
    getPath (currentContext (balanceStore 10000) "alice")
      ["preferences", "events", "budgetRange", "max"] = some (num 2000) ∧
    (updateEventsHistory (clockAt 0) exampleEngine (balanceStore 10000) "alice"
      (some (obj [("name", str "Gala"), ("cost", num 9000)]))).1.success = true ∧
    getPath (currentContext (updateEventsHistory (clockAt 0) exampleEngine
      (balanceStore 10000) "alice"
      (some (obj [("name", str "Gala"), ("cost", num 9000)]))).2 "alice")
      ["finance", "totalBalance"] = some (num 1000) ∧
    getPath (currentContext (updateEventsHistory (clockAt 0) exampleEngine
      (balanceStore 10000) "alice"
      (some (obj [("name", str "Gala"), ("cost", num 9000)]))).2 "alice")
      ["preferences", "events", "budgetRange", "max"] = some (num 2000) ∧
    eventsBudgetMax (clockAt 0) (num 1000) = num 200 := by
  refine ⟨balanceStore_ten_thousand.2, rfl, ?_, ?_, ?_⟩
  · have h : getPath (currentContext (updateEventsHistory (clockAt 0) exampleEngine
        (balanceStore 10000) "alice"
        (some (obj [("name", str "Gala"), ("cost", num 9000)]))).2 "alice")
        ["finance", "totalBalance"] = some (num (max 0 (10000 - 9000))) := rfl
    rw [h]
    norm_num
  · have h : getPath (currentContext (updateEventsHistory (clockAt 0) exampleEngine
        (balanceStore 10000) "alice"
        (some (obj [("name", str "Gala"), ("cost", num 9000)]))).2 "alice")
        ["preferences", "events", "budgetRange", "max"]
        = some (num (min 5000 (max 0 (10000 * 0.2)))) := rfl
    rw [h]
    norm_num
  · have h : eventsBudgetMax (clockAt 0) (num 1000) = num (min 5000 (max 0 (1000 * 0.2))) :=
      rfl
    rw [h]
    norm_num

/-- Claim C26, evaluated on the code: the expense pattern reads "I spent ₹1000" as 1000,
and it reads "1,000,000" as 1000 (the capture `\d+[,.]?\d*` stops at the second comma) and
"12.50" as 1250 (the point is removed before `parseInt`).  A user with a balance of 5000000
who writes "I spent 1,000,000 on a car" to the finance handler has the balance 4999000
stored and a first transaction of amount 1000. -/
theorem expense_amount_misreads_separators :
    expenseAmount "I spent ₹1000" = some 1000 ∧
    expenseAmount "I spent 1,000,000 on a car" = some 1000 ∧
    expenseAmount "I paid 12.50 for tea" = some 1250 ∧
    getPath (currentContext (balanceStore 5000000) "alice") ["finance", "totalBalance"]
      = some (num 5000000) ∧
    (financeHandler (clockAt 0) exampleEngine (fun _ _ => some "ok") (balanceStore 5000000)
      ⟨"POST", some "alice",
        some (obj [("userMessage", str "I spent 1,000,000 on a car")])⟩).status = 200 ∧
    getPath (currentContext (financeHandler (clockAt 0) exampleEngine (fun _ _ => some "ok")
      (balanceStore 5000000) ⟨"POST", some "alice",
        some (obj [("userMessage", str "I spent 1,000,000 on a car")])⟩).store "alice")
      ["finance", "totalBalance"] = some (num 4999000) ∧
    getPath (currentContext (financeHandler (clockAt 0) exampleEngine (fun _ _ => some "ok")
      (balanceStore 5000000) ⟨"POST", some "alice",
        some (obj [("userMessage", str "I spent 1,000,000 on a car")])⟩).store "alice")
      ["finance", "recentTransactions", "0", "amount"] = some (num 1000) := by
  refine ⟨by decide, by decide, by decide, rfl, rfl, ?_, ?_⟩
  · have h : getPath (currentContext (financeHandler (clockAt 0) exampleEngine
        (fun _ _ => some "ok") (balanceStore 5000000) ⟨"POST", some "alice",
          some (obj [("userMessage", str "I spent 1,000,000 on a car")])⟩).store "alice")
        ["finance", "totalBalance"] = some (num (5000000 - (1000 : ℕ))) := rfl
    rw [h]
    norm_num
  · have h : getPath (currentContext (financeHandler (clockAt 0) exampleEngine
        (fun _ _ => some "ok") (balanceStore 5000000) ⟨"POST", some "alice",
          some (obj [("userMessage", str "I spent 1,000,000 on a car")])⟩).store "alice")
        ["finance", "recentTransactions", "0", "amount"] = some (num (1000 : ℕ)) := rfl
    rw [h]
    norm_num

/-- Claim C28, evaluated on the code: for `weatherData` with `current.temperature2m = 0`
the read `temperature2m || 25` takes the temperature for a missing one and the function
returns the moderate-weather list (the rainy-weather list when it rains), not the
cold-weather list; a temperature of -5 gives the cold-weather list. -/
theorem fallback_outfits_at_zero_degrees :
    getFallbackOutfitRecommendations (clockAt 0)
        (some (obj [("current", obj [("temperature2m", num 0)])])) = moderateOutfits ∧
    (getFallbackOutfitRecommendations (clockAt 0)
        (some (obj [("current", obj [("temperature2m", num 0)])]))).map
        (fun item => getProp item "Cloth Name")
      = [some (str "Casual Cotton Shirt"), some (str "Comfortable Jeans"),
          some (str "Light Jacket"), some (str "Walking Shoes")] ∧
    getFallbackOutfitRecommendations (clockAt 0)
        (some (obj [("current", obj [("temperature2m", num 0), ("precipitation", num 4)])]))
      = rainOutfits ∧
    getFallbackOutfitRecommendations (clockAt 0)
        (some (obj [("current", obj [("temperature2m", num (-5))])])) = coldOutfits ∧
    coldOutfits.map (fun item => getProp item "Cloth Name")
      = [some (str "Thermal Winter Jacket"), some (str "Woolen Sweater"),
          some (str "Fleece-lined Pants"), some (str "Thermal Gloves")] :=
  ⟨rfl, rfl, rfl, rfl, rfl⟩

/-- Every request that `recordTravelExpense` builds has no `userId` in its query, so the
context handler answers it 400 and leaves the store as it was. -/
theorem recordTravelExpense_rejected (rt rt' : Runtime) (eng : Engine) (st : Store)
    (userId : String) (userContext : Option Json) (amount : ℚ) (mode destination : String)
    (req : Request)
    (h : recordTravelExpense rt eng userId userContext amount mode destination
      = Except.ok req) :
    handler rt' st req = (⟨400, errorBody "User ID is required"⟩, st) := by
  unfold recordTravelExpense at h
  split at h
  · cases h
  · injection h with h
    subst h
    rfl

/-- Claim C29, evaluated on the code: for the user `alice`, whose context has a balance of
1000, `recordTravelExpense(120, "Bus", "Airport")` sends a POST whose query has no `userId`
(the id is in the body); the context handler answers 400 and the stored balance is still
1000. -/
theorem recordTravelExpense_not_recorded :
    ∃ req, recordTravelExpense (clockAt 0) exampleEngine "alice"
        (some (currentContext (balanceStore 1000) "alice")) 120 "Bus" "Airport"
        = Except.ok req ∧
      req.userId = none ∧
      getPath (req.body.getD null) ["userId"] = some (str "alice") ∧
      (handler (clockAt 0) (balanceStore 1000) req).1.status = 400 ∧
      getPath (currentContext (handler (clockAt 0) (balanceStore 1000) req).2 "alice")
        ["finance", "totalBalance"] = some (num 1000) ∧
      getPath (currentContext (handler (clockAt 0) (balanceStore 1000) req).2 "alice")
        ["finance", "recentTransactions"] = some (arr []) :=
  ⟨_, rfl, rfl, rfl, rfl, rfl, rfl⟩

/-- The `canAfford` of the endpoint is the comparison of the cost with the balance alone. -/
theorem checkBudget_canAfford (rt : Runtime) (eng : Engine) (st : Store) (userId : String)
    (session : String) (cost : ℚ) :
    getProp (checkBudget rt eng st ⟨"POST", some session, some (str userId), cost⟩).body
        "canAfford"
      = some (.bool (geNumber rt (orZero (optProp (getProp
          (handler rt st ⟨"GET", some (eng.display (some (str userId))), none⟩).1.body
          "finance") "totalBalance")) cost)) := rfl

/-- Claim C30, evaluated on the code: for a user with a balance of 10000 and an events
budget of 2000 and an event of cost 3000, the endpoint `events/check-budget` answers
`canAfford = true` (it compares the cost with the balance only) and
`checkEventAffordability` returns `canAfford = false` (the cost exceeds the events
budget). -/
theorem affordability_checks_disagree :
    getPath (currentContext (balanceStore 10000) "alice") ["finance", "totalBalance"]
      = some (num 10000) ∧
    getPath (currentContext (balanceStore 10000) "alice")
      ["preferences", "events", "budgetRange", "max"] = some (num 2000) ∧
    (checkBudget (clockAt 0) exampleEngine (balanceStore 10000)
      ⟨"POST", some "alice", some (str "alice"), 3000⟩).status = 200 ∧
    getProp (checkBudget (clockAt 0) exampleEngine (balanceStore 10000)
      ⟨"POST", some "alice", some (str "alice"), 3000⟩).body "canAfford"
      = some (.bool true) ∧
    (checkEventAffordability (clockAt 0) exampleEngine (balanceStore 10000) "alice"
      3000).1.canAfford = false := by
  refine ⟨balanceStore_ten_thousand.1, balanceStore_ten_thousand.2, rfl, rfl, ?_⟩
  have hm : optProp (optProp (optProp (getProp (currentContext (balanceStore 10000) "alice")
      "preferences") "events") "budgetRange") "max" = some (num 2000) := by
    have h : optProp (optProp (optProp (getProp (currentContext (balanceStore 10000) "alice")
        "preferences") "events") "budgetRange") "max"
        = some (num (min 5000 (max 0 (10000 * 0.2)))) := rfl
    rw [h]
    norm_num
  have h := (checkEventAffordability_canAfford (clockAt 0) exampleEngine
    (balanceStore 10000) "alice" 3000 10000 2000 balanceStore_ten_thousand.1 hm).1
    (by norm_num)
  cases hc : (checkEventAffordability (clockAt 0) exampleEngine (balanceStore 10000) "alice"
      3000).1.canAfford with
  | false => rfl
  | true =>
      have := (h.1 hc).2
      norm_num at this

/-! ## The weather fallback and the allergy alert (C27, C28) -/

/-- For a temperature that is a number below 15 and is not 0, the fallback is the
cold-weather list. -/
theorem fallback_cold_of_nonzero (rt : Runtime) (kvs cur : List (String × Json)) (t : ℚ)
    (hcur : kvs.lookup "current" = some (obj cur))
    (ht : cur.lookup "temperature2m" = some (num t)) (hlt : t < 15) (hne : t ≠ 0) :
    getFallbackOutfitRecommendations rt (some (obj kvs)) = coldOutfits := by
  have htemp : optProp (optProp (some (obj kvs)) "current") "temperature2m"
      = some (num t) := by
    simp [optProp, getProp, ownProps, hcur, ht]
  have h30 : ¬ (30 < t) := by linarith
  simp [getFallbackOutfitRecommendations, htemp, orValue, truthy, hne, gtNumber, ltNumber,
    toNumber, h30, hlt]

/-- For every input the fallback has exactly 4 items, each with the five fields. -/
theorem fallback_four_items (rt : Runtime) (weatherData : Option Json) :
    (getFallbackOutfitRecommendations rt weatherData).length = 4 ∧
    ∀ item ∈ getFallbackOutfitRecommendations rt weatherData,
      keys (ownProps item)
        = ["Cloth Name", "Category", "Why is it beneficial", "Price", "Popularity"] := by
  simp only [getFallbackOutfitRecommendations]
  split_ifs
  · exact ⟨rfl, by simp [hotOutfits, outfit, keys, ownProps]⟩
  · exact ⟨rfl, by simp [coldOutfits, outfit, keys, ownProps]⟩
  · exact ⟨rfl, by simp [rainOutfits, outfit, keys, ownProps]⟩
  · exact ⟨rfl, by simp [moderateOutfits, outfit, keys, ownProps]⟩

/-- The constant `allergenMatch` for allergies that are all strings: some word of some
allergy is longer than 3 characters and occurs in the lower-cased message. -/
theorem allergenMatch_names (message : String) (names : List String) :
    allergenMatch message (names.map str)
      = Except.ok (names.any (fun allergy =>
          (splitWords false [] (toLowerCase allergy).toList).any (wordMatches message))) := by
  induction names with
  | nil => rfl
  | cons a rest ih =>
      show (if (splitWords false [] (toLowerCase a).toList).any (wordMatches message) = true
          then Except.ok true else allergenMatch message (rest.map str)) = _
      by_cases h : (splitWords false [] (toLowerCase a).toList).any (wordMatches message) = true
      · rw [if_pos h, List.any_cons, h]
        rfl
      · rw [if_neg h, ih, List.any_cons]
        simp only [Bool.not_eq_true] at h
        rw [h]
        rfl

/-- Claim C27, evaluated on the code: the user's `health.allergies` lists `egg` and the
lower-cased message contains `egg`, yet the safety warning is empty: the word test
`word.length > 3` leaves out every allergy word of three characters or fewer. -/
theorem allergy_short_name_no_alert :
    getPath (currentContext (allergyStore ["egg"]) "alice") ["health", "allergies"]
      = some (arr [str "egg"]) ∧
    includes (toLowerCase "Can I have an egg curry?") (toLowerCase "egg") = true ∧
    safetyWarning exampleEngine (currentContext (allergyStore ["egg"]) "alice")
      "Can I have an egg curry?" = Except.ok "" :=
  ⟨rfl, by decide, rfl⟩

/-- What the safety warning is for a context whose listed allergies are the strings
`names` (at least one): what the illness block gives, followed by the Allergy Alert exactly
when some name, lower-cased and cut at commas and white space, has a word of more than 3
characters that occurs in the lower-cased message. -/
theorem safetyWarning_allergies (eng : Engine) (userContext : Json) (message : String)
    (names : List String) (fromHealth : String)
    (hnames : allergiesOf userContext = Except.ok (names.map str)) (hne : names ≠ [])
    (hhealth : healthWarning eng userContext message = Except.ok fromHealth) :
    safetyWarning eng userContext message
      = Except.ok (fromHealth ++
          if names.any (fun allergy =>
              (splitWords false [] (toLowerCase allergy).toList).any (wordMatches message)) then
            allergyAlert eng (names.map str)
          else "") := by
  have hempty : (names.map str).isEmpty = false := by
    cases names with
    | nil => exact absurd rfl hne
    | cons a rest => rfl
  unfold safetyWarning allergyWarning
  rw [hhealth, hnames]
  simp only [hempty, Bool.false_eq_true, if_false, allergenMatch_names]
  cases names.any (fun allergy =>
      (splitWords false [] (toLowerCase allergy).toList).any (wordMatches message)) <;> rfl

/-- Claim C27, amended: for every context whose listed allergies are strings and every
message, if the lower-cased message contains a word of more than 3 characters of the
lower-cased name of a listed allergy (the name being cut at commas and white space), the
safety warning is what the illness block gives followed by the Allergy Alert that lists the
allergies of the user. -/
theorem allergy_alert_for_long_word (eng : Engine) (userContext : Json) (message : String)
    (names : List String) (fromHealth : String) (allergy : String) (word : List Char)
    (hnames : allergiesOf userContext = Except.ok (names.map str))
    (hhealth : healthWarning eng userContext message = Except.ok fromHealth)
    (hallergy : allergy ∈ names)
    (hword : word ∈ splitWords false [] (toLowerCase allergy).toList)
    (hlong : 3 < word.length)
    (hin : includesChars word (toLowerCase message).toList = true) :
    safetyWarning eng userContext message
      = Except.ok (fromHealth ++ allergyAlert eng (names.map str)) := by
  have hne : names ≠ [] := by
    intro e
    rw [e] at hallergy
    cases hallergy
  have hany : names.any (fun allergy =>
      (splitWords false [] (toLowerCase allergy).toList).any (wordMatches message)) = true := by
    rw [List.any_eq_true]
    refine ⟨allergy, hallergy, ?_⟩
    rw [List.any_eq_true]
    refine ⟨word, hword, ?_⟩
    show (decide (3 < word.length) && includesChars word (toLowerCase message).toList) = true
    rw [hin, decide_eq_true hlong]
    rfl
  rw [safetyWarning_allergies eng userContext message names fromHealth hnames hne hhealth,
    hany]
  rfl

/-- Instance of C27 as amended: the allergy `peanuts` and a message that names peanuts. -/
theorem allergy_alert_for_long_word_witness :
    safetyWarning exampleEngine (currentContext (allergyStore ["peanuts"]) "alice")
        "Is peanuts chutney fine?"
      = Except.ok ("" ++ allergyAlert exampleEngine [str "peanuts"]) :=
  allergy_alert_for_long_word exampleEngine
    (currentContext (allergyStore ["peanuts"]) "alice") "Is peanuts chutney fine?"
    ["peanuts"] "" "peanuts" "peanuts".toList rfl rfl (by simp) (by decide) (by decide)
    (by decide)

/-! ## The recursion of `deepMerge` on a call stack (C6) -/

theorem mergeElems_cons (target : Json) (i : Nat) (v : Json) (rest : List Json)
    (out : List (String × Json)) :
    mergeElems target i (v :: rest) out
      = mergeElems target (i + 1) rest (setProp (toString i) (assigned target (toString i) v) out) := by
  cases v <;> simp [mergeElems, assigned, isPlainObject]

/-- The loop over the entries of an object source, when every nested call has room. -/
theorem mergeLoop_props (call : Json → Json → Except Unit Json) (target : Json)
    (kvs out : List (String × Json))
    (hcall : ∀ p ∈ kvs, isPlainObject p.2 = true →
      call (orEmpty (getProp target p.1)) p.2
        = Except.ok (deepMerge (orEmpty (getProp target p.1)) p.2)) :
    mergeLoop call target kvs out = Except.ok (mergeProps target kvs out) := by
  induction kvs generalizing out with
  | nil => rfl
  | cons p rest ih =>
      obtain ⟨k, v⟩ := p
      have hrest : ∀ p ∈ rest, isPlainObject p.2 = true →
          call (orEmpty (getProp target p.1)) p.2
            = Except.ok (deepMerge (orEmpty (getProp target p.1)) p.2) :=
        fun p hp => hcall p (List.mem_cons_of_mem _ hp)
      rw [mergeProps_cons]
      by_cases hv : isPlainObject v = true
      · have h := hcall (k, v) (List.mem_cons_self _ _) hv
        simp only [mergeLoop, hv, if_true, h, assigned]
        exact ih _ hrest
      · simp only [mergeLoop, hv, assigned, Bool.false_eq_true, if_false]
        exact ih _ hrest

/-- The loop over the elements of an array source, when every nested call has room. -/
theorem mergeLoop_elems (call : Json → Json → Except Unit Json) (target : Json)
    (xs : List Json) (i : Nat) (out : List (String × Json))
    (hcall : ∀ j : Nat, ∀ v ∈ xs, isPlainObject v = true →
      call (orEmpty (getProp target (toString j))) v
        = Except.ok (deepMerge (orEmpty (getProp target (toString j))) v)) :
    mergeLoop call target (indexed id i xs) out = Except.ok (mergeElems target i xs out) := by
  induction xs generalizing i out with
  | nil => rfl
  | cons v rest ih =>
      have hrest : ∀ j : Nat, ∀ v ∈ rest, isPlainObject v = true →
          call (orEmpty (getProp target (toString j))) v
            = Except.ok (deepMerge (orEmpty (getProp target (toString j))) v) :=
        fun j v hv => hcall j v (List.mem_cons_of_mem _ hv)
      rw [mergeElems_cons]
      by_cases hv : isPlainObject v = true
      · have h := hcall i v (List.mem_cons_self _ _) hv
        simp only [indexed, mergeLoop, id, hv, if_true, h, assigned]
        exact ih _ _ hrest
      · simp only [indexed, mergeLoop, id, hv, assigned, Bool.false_eq_true, if_false]
        exact ih _ _ hrest

/-- The loop over the characters of a string source makes no nested call. -/
theorem mergeLoop_chars (call : Json → Json → Except Unit Json) (target : Json)
    (cs : List Char) (i : Nat) (out : List (String × Json)) :
    mergeLoop call target (indexed (fun c => str c.toString) i cs) out
      = Except.ok ((indexed (fun c => str c.toString) i cs).foldl
          (fun out p => setProp p.1 p.2 out) out) := by
  induction cs generalizing i out with
  | nil => rfl
  | cons c rest ih =>
      simp only [indexed, mergeLoop, isPlainObject, Bool.false_eq_true, if_false,
        List.foldl_cons]
      exact ih _ _

theorem stackNeed_le_props (kvs : List (String × Json)) (p : String × Json) (hp : p ∈ kvs)
    (hv : isPlainObject p.2 = true) : stackNeed p.2 ≤ stackNeedProps kvs := by
  induction kvs with
  | nil => cases hp
  | cons q rest ih =>
      obtain ⟨k, v⟩ := q
      simp only [stackNeedProps]
      rcases List.mem_cons.1 hp with h | h
      · subst h
        simp only at hv
        simp only [hv, if_true]
        exact le_max_left _ _
      · exact le_trans (ih h) (le_max_right _ _)

theorem stackNeed_le_elems (xs : List Json) (v : Json) (hmem : v ∈ xs)
    (hv : isPlainObject v = true) : stackNeed v ≤ stackNeedElems xs := by
  induction xs with
  | nil => cases hmem
  | cons w rest ih =>
      simp only [stackNeedElems]
      rcases List.mem_cons.1 hmem with h | h
      · subst h
        simp only [hv, if_true]
        exact le_max_left _ _
      · exact le_trans (ih h) (le_max_right _ _)

/-- On a stack with room for the nested calls of the source, the run of `deepMerge` gives
the value of the function. -/
theorem deepMergeOnStack_enough (frames : Nat) (target source : Json)
    (h : stackNeed source ≤ frames) :
    deepMergeOnStack frames target source = Except.ok (deepMerge target source) := by
  induction frames generalizing target source with
  | zero =>
      cases source <;> simp [stackNeed] at h
  | succ n ih =>
      cases source with
      | obj kvs =>
          have hkvs : stackNeedProps kvs ≤ n := by
            simp only [stackNeed] at h
            omega
          have hloop := mergeLoop_props (deepMergeOnStack n) target kvs (ownProps target)
            (fun p hp hv => ih _ _ (le_trans (stackNeed_le_props kvs p hp hv) hkvs))
          show (match mergeLoop (deepMergeOnStack n) target kvs (ownProps target) with
            | Except.ok out => Except.ok (obj out)
            | Except.error e => Except.error e) = _
          rw [hloop]
          simp [deepMerge]
      | arr xs =>
          have hxs : stackNeedElems xs ≤ n := by
            simp only [stackNeed] at h
            omega
          have hloop := mergeLoop_elems (deepMergeOnStack n) target xs 0 (ownProps target)
            (fun j v hmem hv => ih _ _ (le_trans (stackNeed_le_elems xs v hmem hv) hxs))
          show (match mergeLoop (deepMergeOnStack n) target (indexed id 0 xs)
              (ownProps target) with
            | Except.ok out => Except.ok (obj out)
            | Except.error e => Except.error e) = _
          rw [hloop]
          simp [deepMerge]
      | str s =>
          have hloop := mergeLoop_chars (deepMergeOnStack n) target s.toList 0
            (ownProps target)
          show (match mergeLoop (deepMergeOnStack n) target
              (indexed (fun c => str c.toString) 0 s.toList) (ownProps target) with
            | Except.ok out => Except.ok (obj out)
            | Except.error e => Except.error e) = _
          rw [hloop]
          simp [deepMerge, ownProps]
      | null => rfl
      | bool b => rfl
      | num q => rfl

theorem mergeLoop_props_short (n : Nat) (target : Json) (kvs out : List (String × Json))
    (ih : ∀ target source : Json, n < stackNeed source →
      deepMergeOnStack n target source = Except.error ())
    (h : n < stackNeedProps kvs) :
    mergeLoop (deepMergeOnStack n) target kvs out = Except.error () := by
  induction kvs generalizing out with
  | nil => simp [stackNeedProps] at h
  | cons p rest ihl =>
      obtain ⟨k, v⟩ := p
      simp only [stackNeedProps] at h
      by_cases hv : isPlainObject v = true
      · simp only [hv, if_true] at h
        by_cases hdeep : n < stackNeed v
        · simp only [mergeLoop, hv, if_true, ih _ v hdeep]
        · have hrest : n < stackNeedProps rest := by
            rcases lt_max_iff.1 h with h1 | h1
            · exact absurd h1 hdeep
            · exact h1
          simp only [mergeLoop, hv, if_true,
            deepMergeOnStack_enough n _ v (not_lt.1 hdeep)]
          exact ihl _ hrest
      · simp only [hv, Bool.false_eq_true, if_false] at h
        have hrest : n < stackNeedProps rest := by
          rcases lt_max_iff.1 h with h1 | h1
          · exact absurd h1 (Nat.not_lt_zero _)
          · exact h1
        simp only [mergeLoop, hv, Bool.false_eq_true, if_false]
        exact ihl _ hrest

theorem mergeLoop_elems_short (n : Nat) (target : Json) (xs : List Json) (i : Nat)
    (out : List (String × Json))
    (ih : ∀ target source : Json, n < stackNeed source →
      deepMergeOnStack n target source = Except.error ())
    (h : n < stackNeedElems xs) :
    mergeLoop (deepMergeOnStack n) target (indexed id i xs) out = Except.error () := by
  induction xs generalizing i out with
  | nil => simp [stackNeedElems] at h
  | cons v rest ihl =>
      simp only [stackNeedElems] at h
      by_cases hv : isPlainObject v = true
      · simp only [hv, if_true] at h
        by_cases hdeep : n < stackNeed v
        · simp only [indexed, id, mergeLoop, hv, if_true, ih _ v hdeep]
        · have hrest : n < stackNeedElems rest := by
            rcases lt_max_iff.1 h with h1 | h1
            · exact absurd h1 hdeep
            · exact h1
          simp only [indexed, id, mergeLoop, hv, if_true,
            deepMergeOnStack_enough n _ v (not_lt.1 hdeep)]
          exact ihl _ _ hrest
      · simp only [hv, Bool.false_eq_true, if_false] at h
        have hrest : n < stackNeedElems rest := by
          rcases lt_max_iff.1 h with h1 | h1
          · exact absurd h1 (Nat.not_lt_zero _)
          · exact h1
        simp only [indexed, id, mergeLoop, hv, Bool.false_eq_true, if_false]
        exact ihl _ _ hrest

/-- On a stack with less room than the nested calls of the source, the run of `deepMerge`
raises. -/
theorem deepMergeOnStack_short (frames : Nat) (target source : Json)
    (h : frames < stackNeed source) :
    deepMergeOnStack frames target source = Except.error () := by
  induction frames generalizing target source with
  | zero => rfl
  | succ n ih =>
      cases source with
      | obj kvs =>
          have hkvs : n < stackNeedProps kvs := by
            simp only [stackNeed] at h
            omega
          show (match mergeLoop (deepMergeOnStack n) target kvs (ownProps target) with
            | Except.ok out => Except.ok (obj out)
            | Except.error e => Except.error e) = _
          rw [mergeLoop_props_short n target kvs _ ih hkvs]
      | arr xs =>
          have hxs : n < stackNeedElems xs := by
            simp only [stackNeed] at h
            omega
          show (match mergeLoop (deepMergeOnStack n) target (indexed id 0 xs)
              (ownProps target) with
            | Except.ok out => Except.ok (obj out)
            | Except.error e => Except.error e) = _
          rw [mergeLoop_elems_short n target xs 0 _ ih hxs]
      | str s => simp [stackNeed] at h
      | null => simp [stackNeed] at h
      | bool b => simp [stackNeed] at h
      | num q => simp [stackNeed] at h

theorem isPlainObject_nested (depth : Nat) : isPlainObject (nested depth) = true := by
  cases depth <;> rfl

/-- For every stack there is an object nested too deep for it: with room for `frames`
nested calls, the merge of the object nested `frames` deep raises. -/
theorem deepMergeOnStack_overflow (frames : Nat) (target : Json) :
    deepMergeOnStack frames target (nested frames) = Except.error () := by
  induction frames generalizing target with
  | zero => rfl
  | succ n ih =>
      simp only [deepMergeOnStack, nested, ownProps, mergeLoop, isPlainObject_nested, if_true,
        ih]

/-- Claim C6, evaluated on the code: on a call stack with room for 10000 nested calls, the
merge of the finite object `{ a: { a: ... {} } }` nested 10000 deep into the empty object
does not return an object: the 10001st nested call finds no room and the engine raises.
Whatever the room of the stack, the object nested that deep does the same. -/
theorem deepMerge_overflows_call_stack :
    deepMergeOnStack 10000 (obj []) (nested 10000) = Except.error () ∧
    ∀ (frames : Nat) (target : Json),
      deepMergeOnStack frames target (nested frames) = Except.error () :=
  ⟨deepMergeOnStack_overflow 10000 (obj []), deepMergeOnStack_overflow⟩

/-- Claim C6, amended: for every target and source, of any nesting depth, the recursion
of `deepMerge` goes no deeper than the chains of plain objects of the source
(`stackNeed source` nested calls), and on every call stack with room for them it ends
without error and returns a plain object, the value of `deepMerge`. -/
theorem deepMerge_returns_within_stack (frames : Nat) (target source : Json)
    (h : stackNeed source ≤ frames) :
    ∃ out, deepMergeOnStack frames target source = Except.ok (obj out) ∧
      deepMerge target source = obj out := by
  obtain ⟨out, hout⟩ := deepMerge_total target source
  exact ⟨out, by rw [deepMergeOnStack_enough frames target source h, hout], hout⟩

/-- Instance of C6 as amended: the update `sickUpdate` needs two nested calls. -/
theorem deepMerge_returns_within_stack_witness :
    ∃ out, deepMergeOnStack 2 getDefaultContext sickUpdate = Except.ok (obj out) ∧
      deepMerge getDefaultContext sickUpdate = obj out :=
  deepMerge_returns_within_stack 2 getDefaultContext sickUpdate (by decide)

/-! ## The exported helpers on a document without their sub-trees (C16, C19) -/

/-- Claim C16, evaluated on the code: the user `alice` has the document that the debug
handler stores for a user with nothing stored (a `health` sub-tree only).  For an event of
cost 300, `updateEventsHistory` reads `userContext.eventsHistory.attended` without a guard,
the read raises, and the function returns `success: false` with no `newBalance` and stores
nothing. -/
theorem updateEventsHistory_fails_on_debug_document :
    debugStore (contextKey "alice") = some (debugStoredDocument "T0") ∧
    (updateEventsHistory (clockAt 0) exampleEngine debugStore "alice"
      (some (obj [("name", str "Concert"), ("cost", num 300)]))).1.success = false ∧
    (updateEventsHistory (clockAt 0) exampleEngine debugStore "alice"
      (some (obj [("name", str "Concert"), ("cost", num 300)]))).1.newBalance = none ∧
    (updateEventsHistory (clockAt 0) exampleEngine debugStore "alice"
      (some (obj [("name", str "Concert"), ("cost", num 300)]))).2 = debugStore :=
  ⟨rfl, rfl, rfl, rfl⟩

/-- Claim C19, evaluated on the code: the user `alice` has the document that the debug
handler stores for a user with nothing stored (a `health` sub-tree only).
`getEventRecommendations` reads `userContext.preferences.events` and
`userContext.finance.totalBalance` without a guard, the read raises, and the function
returns `{ error }` instead of the effective filters: with one filter supplied, with none,
and with all three supplied. -/
theorem getEventRecommendations_fails_on_debug_document :
    debugStore (contextKey "alice") = some (debugStoredDocument "T0") ∧
    (getEventRecommendations exampleEngine debugStore "alice"
      (some (obj [("maxPrice", num 300)]))).1 = Except.error () ∧
    (getEventRecommendations exampleEngine debugStore "alice" none).1 = Except.error () ∧
    (getEventRecommendations exampleEngine debugStore "alice"
      (some (obj [("interests", arr [str "music"]), ("maxPrice", num 300),
        ("location", str "Chennai")]))).1 = Except.error () :=
  ⟨rfl, rfl, rfl, rfl⟩
